import Mathlib

/-!
TV-B-Gone kit V2: the POWER-Code database and its replay.

A shallow embedding of `firmware/TV-B-Gone_kit_V2/main.h` and
`firmware/TV-B-Gone_kit_V2/WORLDcodes.cpp`.

* `IrCode` is the struct of `main.h`; the C arrays it points to become lists.
  `uint32_t` and `uint8_t` values are natural numbers; every literal of the
  database fits its C type (`database_fits_c_types`), so no value wraps.
* Every `code_naNNN` / `code_euNNN` definition of `WORLDcodes.cpp` is transcribed
  literally, with the names of the source; so are `NApowerCodes`,
  `EUpowerCodes`, `num_NAcodes` and `num_EUcodes`.
* The replay loop is not part of these two files (`main.h` only declares
  `xmitPair`); it is modelled from the specification and marked as such.
-/

namespace TVBGone

/-! ## main.h -/

/-- The structure of code entries (`struct IrCode` of `main.h`).
`pairs` is the flat `uint32_t` array `on0, off0, on1, off1, ...` that the C
pointer addresses; `sequence` is the `uint8_t` array of indices into it. -/
structure IrCode where
  /-- Carrier Frequency for the POWER-Code. -/
  carrier_freq : Nat
  /-- Number of On-Time/Off-Time pairs the POWER-Code has. -/
  num_pairs : Nat
  /-- The Pairs table (unique On-Time/Off-Time pairs), flat. -/
  pairs : List Nat
  /-- The Sequence table (indices of the pairs to transmit, in order). -/
  sequence : List Nat
deriving DecidableEq

/-- Size in bytes of one element of `NApowerCodes` / `EUpowerCodes`
(a `struct IrCode *` on the 32-bit ESP32-C3 the header targets). -/
def sizeof_IrCodePtr : Nat := 4

/-- The macro `NUM_ELEM(x) (sizeof (x) / sizeof (*(x)))` of `main.h`, for an array
whose elements take `elemBytes` bytes each. -/
def NUM_ELEM {α : Type} (elemBytes : Nat) (x : List α) : Nat :=
  (x.length * elemBytes) / elemBytes

/-- Groups a flat Pairs array into its (On-Time, Off-Time) entries: the k-th entry
is made of the elements at offsets `2 * k` and `2 * k + 1`. -/
def toPairs : List Nat → List (Nat × Nat)
  | onTime :: offTime :: rest => (onTime, offTime) :: toPairs rest
  | _ => []

/-- The Pairs table of a code, as a list of (On-Time, Off-Time) entries. -/
def pairTable (code : IrCode) : List (Nat × Nat) := toPairs code.pairs

/-- The entry of the Pairs table that a Sequence index points to
("the first index is 3: this points to the 4th entry in the Pairs table"):
elements `2 * idx` and `2 * idx + 1` of the flat array, when both exist. -/
def pairAt (code : IrCode) (idx : Nat) : Option (Nat × Nat) :=
  match code.pairs[2 * idx]?, code.pairs[2 * idx + 1]? with
  | some onTime, some offTime => some (onTime, offTime)
  | _, _ => none

/-! ## WORLDcodes.cpp -/

/-- Table of On-Time/Off-Time pairs of code_na000 (flat, as in the C array). -/
def code_na000Pairs : List Nat := [
  600, 600,
  600, 27000,
  1200, 600,
  2400, 600
]
/-- Table of indices to On-Time/Off-Time pairs of code_na000. -/
def code_na000Sequence : List Nat := [
  3, 2, 0, 2, 0, 2, 0, 0, 2, 0, 0, 0, 1, 3, 2, 0, 2, 0, 2, 0, 0, 2, 0, 0, 0, 1
]
/-- POWER-Code table of code_na000. -/
def code_na000Code : IrCode :=
  ⟨38400, 26, code_na000Pairs, code_na000Sequence⟩

/-- Table of On-Time/Off-Time pairs of code_na001 (flat, as in the C array). -/
def code_na001Pairs : List Nat := [
  500, 1000,
  500, 2000,
  500, 8000,
  4000, 4000
]
/-- Table of indices to On-Time/Off-Time pairs of code_na001. -/
def code_na001Sequence : List Nat := [
  3, 1, 1, 1, 1, 0, 0, 1, 0, 1, 0, 1, 0, 0, 0, 0, 0, 1, 1, 0, 1, 0, 1, 0, 1, 2, 3, 1, 1, 1, 1, 0, 0, 1, 0, 1, 0, 1, 0, 0, 0, 0, 0, 1, 1, 0, 1, 0, 1, 0, 1, 1
]
/-- POWER-Code table of code_na001. -/
def code_na001Code : IrCode :=
  ⟨57143, 52, code_na001Pairs, code_na001Sequence⟩

/-- Table of On-Time/Off-Time pairs of code_na002 (flat, as in the C array). -/
def code_na002Pairs : List Nat := [
  420, 460,
  420, 1330,
  420, 75190,
  3470, 1760,
  3470, 1770
]
/-- Table of indices to On-Time/Off-Time pairs of code_na002. -/
def code_na002Sequence : List Nat := [
  3, 0, 1, 0, 0, 0, 0, 0, 0, 0, 0, 0, 0, 0, 1, 0, 0, 0, 0, 0, 0, 0, 0, 0, 1, 0, 0, 0, 0, 0, 0, 0, 0, 1, 0, 1, 1, 1, 1, 0, 0, 1, 0, 1, 1, 1, 1, 0, 1, 2, 4, 0, 1, 0, 0, 0, 0, 0, 0, 0, 0, 0, 0, 0, 1, 0, 0, 0, 0, 0, 0, 0, 0, 0, 1, 0, 0, 0, 0, 0, 0, 0, 0, 1, 0, 1, 1, 1, 1, 0, 0, 1, 0, 1, 1, 1, 1, 0, 1, 0
]
/-- POWER-Code table of code_na002. -/
def code_na002Code : IrCode :=
  ⟨37037, 100, code_na002Pairs, code_na002Sequence⟩

/-- Table of On-Time/Off-Time pairs of code_na003 (flat, as in the C array). -/
def code_na003Pairs : List Nat := [
  260, 1850,
  270, 800,
  270, 1850,
  270, 45490
]
/-- Table of indices to On-Time/Off-Time pairs of code_na003. -/
def code_na003Sequence : List Nat := [
  0, 1, 1, 1, 1, 1, 2, 2, 1, 2, 1, 1, 1, 2, 1, 3, 2, 1, 1, 1, 1, 2, 1, 1, 2, 1, 2, 2, 2, 1, 2, 3, 2, 1, 1, 1, 1, 1, 2, 2, 1, 2, 1, 1, 1, 2, 1, 3, 2, 1, 1, 1, 1, 2, 1, 1, 2, 1, 2, 2, 2, 1, 2, 1
]
/-- POWER-Code table of code_na003. -/
def code_na003Code : IrCode :=
  ⟨38610, 64, code_na003Pairs, code_na003Sequence⟩

/-- Table of On-Time/Off-Time pairs of code_na004 (flat, as in the C array). -/
def code_na004Pairs : List Nat := [
  550, 570,
  550, 1700,
  550, 39490,
  550, 96230,
  560, 0,
  8980, 4530,
  9000, 2260
]
/-- Table of indices to On-Time/Off-Time pairs of code_na004. -/
def code_na004Sequence : List Nat := [
  5, 0, 0, 0, 0, 0, 0, 1, 0, 1, 1, 1, 1, 1, 1, 0, 1, 0, 1, 0, 0, 1, 0, 0, 0, 1, 0, 1, 1, 0, 1, 1, 1, 2, 6, 3, 6, 4
]
/-- POWER-Code table of code_na004. -/
def code_na004Code : IrCode :=
  ⟨38610, 38, code_na004Pairs, code_na004Sequence⟩

/-- Table of On-Time/Off-Time pairs of code_na005 (flat, as in the C array). -/
def code_na005Pairs : List Nat := [
  880, 900,
  880, 910,
  880, 1810,
  880, 89760,
  1770, 910
]
/-- Table of indices to On-Time/Off-Time pairs of code_na005. -/
def code_na005Sequence : List Nat := [
  0, 4, 1, 1, 1, 1, 1, 1, 2, 1, 4, 3, 1, 4, 1, 1, 1, 1, 1, 1, 2, 1, 4, 0
]
/-- POWER-Code table of code_na005. -/
def code_na005Code : IrCode :=
  ⟨35714, 24, code_na005Pairs, code_na005Sequence⟩

/-- Table of On-Time/Off-Time pairs of code_na006 (flat, as in the C array). -/
def code_na006Pairs : List Nat := [
  500, 620,
  500, 1720,
  500, 45410,
  4480, 4660,
  4500, 4650
]
/-- Table of indices to On-Time/Off-Time pairs of code_na006. -/
def code_na006Sequence : List Nat := [
  3, 1, 1, 1, 0, 0, 0, 0, 0, 1, 1, 1, 0, 0, 0, 0, 0, 0, 1, 0, 0, 0, 0, 0, 0, 1, 0, 1, 1, 1, 1, 1, 1, 2, 4, 1, 1, 1, 0, 0, 0, 0, 0, 1, 1, 1, 0, 0, 0, 0, 0, 0, 1, 0, 0, 0, 0, 0, 0, 1, 0, 1, 1, 1, 1, 1, 1, 1
]
/-- POWER-Code table of code_na006. -/
def code_na006Code : IrCode :=
  ⟨38462, 68, code_na006Pairs, code_na006Sequence⟩

/-- Table of On-Time/Off-Time pairs of code_na007 (flat, as in the C array). -/
def code_na007Pairs : List Nat := [
  490, 490,
  490, 500,
  490, 4100,
  490, 5100,
  490, 121070
]
/-- Table of indices to On-Time/Off-Time pairs of code_na007. -/
def code_na007Sequence : List Nat := [
  0, 2, 3, 1, 2, 1, 2, 3, 1, 2, 3, 1, 2, 3, 3, 1, 4, 1, 2, 3, 1, 2, 1, 2, 3, 1, 2, 3, 1, 2, 3, 3, 1, 0
]
/-- POWER-Code table of code_na007. -/
def code_na007Code : IrCode :=
  ⟨39216, 34, code_na007Pairs, code_na007Sequence⟩

/-- Table of On-Time/Off-Time pairs of code_na008 (flat, as in the C array). -/
def code_na008Pairs : List Nat := [
  560, 580,
  560, 1700,
  560, 40110,
  8980, 4500,
  9000, 4490
]
/-- Table of indices to On-Time/Off-Time pairs of code_na008. -/
def code_na008Sequence : List Nat := [
  3, 1, 0, 0, 0, 1, 1, 1, 0, 0, 1, 1, 1, 0, 0, 0, 1, 0, 1, 0, 1, 0, 0, 1, 0, 1, 0, 1, 0, 1, 1, 0, 1, 2, 4, 1, 0, 0, 0, 1, 1, 1, 0, 0, 1, 1, 1, 0, 0, 0, 1, 0, 1, 0, 1, 0, 0, 1, 0, 1, 0, 1, 0, 1, 1, 0, 1, 1
]
/-- POWER-Code table of code_na008. -/
def code_na008Code : IrCode :=
  ⟨38462, 68, code_na008Pairs, code_na008Sequence⟩

/-- Table of On-Time/Off-Time pairs of code_na009 (flat, as in the C array). -/
def code_na009Pairs : List Nat := [
  530, 560,
  530, 1710,
  530, 39500,
  530, 95990,
  8980, 4510,
  9000, 2260
]
/-- Table of indices to On-Time/Off-Time pairs of code_na009. -/
def code_na009Sequence : List Nat := [
  4, 1, 1, 1, 0, 0, 0, 0, 1, 0, 1, 0, 0, 0, 1, 0, 0, 0, 0, 0, 0, 0, 1, 1, 1, 1, 1, 1, 1, 1, 0, 0, 0, 2, 5, 3, 5, 1
]
/-- POWER-Code table of code_na009. -/
def code_na009Code : IrCode :=
  ⟨38462, 38, code_na009Pairs, code_na009Sequence⟩

/-- Table of On-Time/Off-Time pairs of code_na010 (flat, as in the C array). -/
def code_na010Pairs : List Nat := [
  510, 550,
  510, 1580,
  510, 22860,
  8410, 4190
]
/-- Table of indices to On-Time/Off-Time pairs of code_na010. -/
def code_na010Sequence : List Nat := [
  3, 1, 1, 0, 0, 0, 0, 0, 0, 1, 1, 1, 0, 1, 0, 0, 0, 2, 1, 1, 0, 0, 0, 0, 0, 0, 1, 1, 1, 0, 1, 0, 0, 0, 2, 1, 1, 0, 0, 0, 0, 0, 0, 1, 1, 1, 0, 1, 0, 0, 0, 1
]
/-- POWER-Code table of code_na010. -/
def code_na010Code : IrCode :=
  ⟨38462, 52, code_na010Pairs, code_na010Sequence⟩

/-- Table of On-Time/Off-Time pairs of code_na011 (flat, as in the C array). -/
def code_na011Pairs : List Nat := [
  550, 550,
  550, 1720,
  550, 40390,
  550, 93480,
  560, 0,
  8840, 4420,
  8850, 2250
]
/-- Table of indices to On-Time/Off-Time pairs of code_na011. -/
def code_na011Sequence : List Nat := [
  5, 0, 0, 0, 0, 1, 0, 1, 0, 1, 1, 1, 1, 0, 1, 0, 1, 1, 1, 1, 0, 1, 0, 0, 0, 0, 0, 0, 1, 0, 1, 1, 1, 2, 6, 3, 6, 4
]
/-- POWER-Code table of code_na011. -/
def code_na011Code : IrCode :=
  ⟨38462, 38, code_na011Pairs, code_na011Sequence⟩

/-- Table of On-Time/Off-Time pairs of code_na012 (flat, as in the C array). -/
def code_na012Pairs : List Nat := [
  810, 870,
  810, 2540,
  810, 32800,
  3310, 3360,
  3310, 3370
]
/-- Table of indices to On-Time/Off-Time pairs of code_na012. -/
def code_na012Sequence : List Nat := [
  3, 1, 0, 1, 1, 0, 1, 0, 1, 1, 0, 0, 0, 0, 1, 0, 1, 0, 0, 1, 0, 0, 1, 1, 1, 2, 4, 1, 0, 1, 1, 0, 1, 0, 1, 1, 0, 0, 0, 0, 1, 0, 1, 0, 0, 1, 0, 0, 1, 1, 1, 1
]
/-- POWER-Code table of code_na012. -/
def code_na012Code : IrCode :=
  ⟨38462, 52, code_na012Pairs, code_na012Sequence⟩

/-- Table of On-Time/Off-Time pairs of code_na013 (flat, as in the C array). -/
def code_na013Pairs : List Nat := [
  530, 550,
  530, 1670,
  530, 23040,
  530, 93690,
  8930, 4480,
  8950, 4470
]
/-- Table of indices to On-Time/Off-Time pairs of code_na013. -/
def code_na013Sequence : List Nat := [
  4, 0, 0, 1, 1, 1, 0, 0, 0, 1, 0, 0, 0, 0, 1, 1, 0, 0, 0, 1, 1, 1, 0, 1, 1, 1, 1, 0, 1, 0, 0, 1, 0, 0, 0, 1, 0, 1, 1, 0, 1, 1, 1, 2, 5, 3, 5, 0
]
/-- POWER-Code table of code_na013. -/
def code_na013Code : IrCode :=
  ⟨38462, 48, code_na013Pairs, code_na013Sequence⟩

/-- Table of On-Time/Off-Time pairs of code_na014 (flat, as in the C array). -/
def code_na014Pairs : List Nat := [
  550, 570,
  550, 1700,
  550, 39490,
  550, 96230,
  560, 0,
  8980, 4530,
  9000, 2260
]
/-- Table of indices to On-Time/Off-Time pairs of code_na014. -/
def code_na014Sequence : List Nat := [
  5, 0, 0, 0, 0, 0, 1, 1, 0, 1, 1, 1, 1, 1, 0, 0, 1, 1, 1, 0, 0, 0, 0, 0, 0, 0, 0, 1, 1, 1, 1, 1, 1, 2, 6, 3, 6, 4
]
/-- POWER-Code table of code_na014. -/
def code_na014Code : IrCode :=
  ⟨38462, 38, code_na014Pairs, code_na014Sequence⟩

/-- Table of On-Time/Off-Time pairs of code_na015 (flat, as in the C array). -/
def code_na015Pairs : List Nat := [
  550, 570,
  550, 1700,
  550, 39490,
  550, 96230,
  560, 0,
  8980, 4530,
  9000, 2260
]
/-- Table of indices to On-Time/Off-Time pairs of code_na015. -/
def code_na015Sequence : List Nat := [
  5, 0, 1, 0, 0, 0, 0, 1, 0, 1, 0, 1, 1, 1, 1, 0, 1, 1, 0, 0, 0, 0, 0, 0, 0, 0, 1, 1, 1, 1, 1, 1, 1, 2, 6, 3, 6, 4
]
/-- POWER-Code table of code_na015. -/
def code_na015Code : IrCode :=
  ⟨38462, 38, code_na015Pairs, code_na015Sequence⟩

/-- Table of On-Time/Off-Time pairs of code_na016 (flat, as in the C array). -/
def code_na016Pairs : List Nat := [
  280, 900,
  280, 2110,
  280, 25070
]
/-- Table of indices to On-Time/Off-Time pairs of code_na016. -/
def code_na016Sequence : List Nat := [
  1, 1, 1, 0, 0, 0, 1, 0, 0, 1, 0, 0, 0, 0, 0, 0, 2, 1, 1, 1, 0, 0, 0, 1, 0, 0, 1, 0, 0, 0, 0, 0, 0, 1
]
/-- POWER-Code table of code_na016. -/
def code_na016Code : IrCode :=
  ⟨34483, 34, code_na016Pairs, code_na016Sequence⟩

/-- Table of On-Time/Off-Time pairs of code_na017 (flat, as in the C array). -/
def code_na017Pairs : List Nat := [
  560, 570,
  560, 1750,
  560, 41500,
  560, 94990,
  8980, 2270,
  8980, 4490
]
/-- Table of indices to On-Time/Off-Time pairs of code_na017. -/
def code_na017Sequence : List Nat := [
  5, 0, 0, 0, 1, 1, 1, 0, 0, 1, 1, 1, 0, 0, 0, 1, 1, 0, 1, 0, 0, 1, 0, 0, 0, 1, 0, 1, 1, 0, 1, 1, 1, 2, 4, 3, 4, 0
]
/-- POWER-Code table of code_na017. -/
def code_na017Code : IrCode :=
  ⟨40000, 38, code_na017Pairs, code_na017Sequence⟩

/-- Table of On-Time/Off-Time pairs of code_na018 (flat, as in the C array). -/
def code_na018Pairs : List Nat := [
  510, 550,
  510, 1610,
  510, 25660,
  8490, 4290,
  8490, 4300
]
/-- Table of indices to On-Time/Off-Time pairs of code_na018. -/
def code_na018Sequence : List Nat := [
  3, 0, 1, 0, 1, 0, 1, 0, 1, 1, 0, 1, 0, 1, 0, 1, 0, 0, 0, 1, 1, 1, 0, 0, 0, 1, 1, 0, 0, 0, 1, 1, 1, 2, 4, 0, 1, 0, 1, 0, 1, 0, 1, 1, 0, 1, 0, 1, 0, 1, 0, 0, 0, 1, 1, 1, 0, 0, 0, 1, 1, 0, 0, 0, 1, 1, 1, 2, 4, 0, 1, 0, 1, 0, 1, 0, 1, 1, 0, 1, 0, 1, 0, 1, 0, 0, 0, 1, 1, 1, 0, 0, 0, 1, 1, 0, 0, 0, 1, 1, 1, 2, 4, 0, 1, 0, 1, 0, 1, 0, 1, 1, 0, 1, 0, 1, 0, 1, 0, 0, 0, 1, 1, 1, 0, 0, 0, 1, 1, 0, 0, 0, 1, 1, 1, 0
]
/-- POWER-Code table of code_na018. -/
def code_na018Code : IrCode :=
  ⟨38462, 136, code_na018Pairs, code_na018Sequence⟩

/-- Table of On-Time/Off-Time pairs of code_na019 (flat, as in the C array). -/
def code_na019Pairs : List Nat := [
  400, 420,
  400, 1240,
  400, 46010,
  3250, 1630,
  3260, 1630
]
/-- Table of indices to On-Time/Off-Time pairs of code_na019. -/
def code_na019Sequence : List Nat := [
  3, 0, 0, 1, 0, 1, 0, 0, 0, 1, 1, 0, 0, 0, 1, 1, 0, 0, 0, 0, 0, 0, 0, 0, 0, 0, 0, 1, 0, 0, 0, 0, 1, 0, 0, 1, 0, 0, 0, 0, 1, 0, 1, 0, 0, 0, 0, 0, 0, 2, 4, 0, 0, 1, 0, 1, 0, 0, 0, 1, 1, 0, 0, 0, 1, 1, 0, 0, 0, 0, 0, 0, 0, 0, 0, 0, 0, 1, 0, 0, 0, 0, 1, 0, 0, 1, 0, 0, 0, 0, 1, 0, 1, 0, 0, 0, 0, 0, 0, 0
]
/-- POWER-Code table of code_na019. -/
def code_na019Code : IrCode :=
  ⟨38462, 100, code_na019Pairs, code_na019Sequence⟩

/-- Table of On-Time/Off-Time pairs of code_na020 (flat, as in the C array). -/
def code_na020Pairs : List Nat := [
  600, 550,
  600, 1630,
  600, 40990,
  600, 96980,
  610, 0,
  8980, 4610,
  9000, 2300
]
/-- Table of indices to On-Time/Off-Time pairs of code_na020. -/
def code_na020Sequence : List Nat := [
  5, 0, 0, 1, 0, 0, 0, 0, 0, 1, 1, 0, 1, 1, 1, 1, 1, 0, 0, 0, 1, 0, 0, 0, 0, 1, 1, 1, 0, 1, 1, 1, 1, 2, 6, 3, 6, 4
]
/-- POWER-Code table of code_na020. -/
def code_na020Code : IrCode :=
  ⟨38462, 38, code_na020Pairs, code_na020Sequence⟩

/-- Table of On-Time/Off-Time pairs of code_na021 (flat, as in the C array). -/
def code_na021Pairs : List Nat := [
  480, 520,
  480, 1600,
  480, 4000,
  480, 23350,
  7990, 4000
]
/-- Table of indices to On-Time/Off-Time pairs of code_na021. -/
def code_na021Sequence : List Nat := [
  4, 0, 0, 1, 0, 1, 0, 0, 0, 2, 1, 0, 1, 0, 1, 0, 0, 0, 3, 4, 0, 0, 1, 0, 1, 0, 0, 0, 2, 1, 0, 1, 0, 1, 0, 0, 0, 0
]
/-- POWER-Code table of code_na021. -/
def code_na021Code : IrCode :=
  ⟨38462, 38, code_na021Pairs, code_na021Sequence⟩

/-- Table of On-Time/Off-Time pairs of code_na022 (flat, as in the C array). -/
def code_na022Pairs : List Nat := [
  530, 600,
  530, 1750,
  530, 44630,
  530, 94530,
  8920, 4500,
  8950, 2250
]
/-- Table of indices to On-Time/Off-Time pairs of code_na022. -/
def code_na022Sequence : List Nat := [
  4, 0, 0, 0, 1, 1, 0, 0, 0, 0, 0, 0, 1, 1, 0, 0, 0, 0, 0, 0, 0, 0, 0, 1, 1, 1, 1, 1, 1, 1, 1, 0, 0, 2, 5, 3, 5, 0
]
/-- POWER-Code table of code_na022. -/
def code_na022Code : IrCode :=
  ⟨38462, 38, code_na022Pairs, code_na022Sequence⟩

/-- Table of On-Time/Off-Time pairs of code_na023 (flat, as in the C array). -/
def code_na023Pairs : List Nat := [
  480, 520,
  480, 4090,
  480, 5040,
  480, 104610
]
/-- Table of indices to On-Time/Off-Time pairs of code_na023. -/
def code_na023Sequence : List Nat := [
  2, 2, 0, 1, 0, 1, 2, 0, 1, 2, 0, 1, 2, 2, 0, 1, 0, 1, 2, 0, 1, 3, 2, 2, 0, 1, 0, 1, 2, 0, 1, 2, 0, 1, 2, 2, 0, 1, 0, 1, 2, 0, 1, 2
]
/-- POWER-Code table of code_na023. -/
def code_na023Code : IrCode :=
  ⟨40000, 44, code_na023Pairs, code_na023Sequence⟩

/-- Table of On-Time/Off-Time pairs of code_na024 (flat, as in the C array). -/
def code_na024Pairs : List Nat := [
  580, 600,
  580, 25690,
  1180, 600,
  2370, 600,
  2380, 600
]
/-- Table of indices to On-Time/Off-Time pairs of code_na024. -/
def code_na024Sequence : List Nat := [
  3, 2, 2, 2, 2, 0, 2, 0, 2, 0, 0, 0, 1, 4, 2, 2, 2, 2, 0, 2, 0, 2, 0, 0, 0, 0
]
/-- POWER-Code table of code_na024. -/
def code_na024Code : IrCode :=
  ⟨38462, 26, code_na024Pairs, code_na024Sequence⟩

/-- Table of On-Time/Off-Time pairs of code_na025 (flat, as in the C array). -/
def code_na025Pairs : List Nat := [
  840, 900,
  840, 2640,
  840, 34700,
  3460, 3500,
  3470, 3500
]
/-- Table of indices to On-Time/Off-Time pairs of code_na025. -/
def code_na025Sequence : List Nat := [
  3, 1, 1, 1, 1, 1, 1, 1, 0, 0, 0, 0, 0, 0, 0, 0, 0, 0, 0, 0, 1, 1, 1, 1, 1, 2, 4, 1, 1, 1, 1, 1, 1, 1, 0, 0, 0, 0, 0, 0, 0, 0, 0, 0, 0, 0, 1, 1, 1, 1, 1, 1
]
/-- POWER-Code table of code_na025. -/
def code_na025Code : IrCode :=
  ⟨38462, 52, code_na025Pairs, code_na025Sequence⟩

/-- Table of On-Time/Off-Time pairs of code_na026 (flat, as in the C array). -/
def code_na026Pairs : List Nat := [
  490, 490,
  490, 500,
  490, 4100,
  490, 5100,
  490, 125820
]
/-- Table of indices to On-Time/Off-Time pairs of code_na026. -/
def code_na026Sequence : List Nat := [
  0, 2, 3, 1, 2, 1, 2, 3, 3, 1, 2, 3, 1, 2, 3, 1, 4, 1, 2, 3, 1, 2, 1, 2, 3, 3, 1, 2, 3, 1, 2, 3, 1, 0
]
/-- POWER-Code table of code_na026. -/
def code_na026Code : IrCode :=
  ⟨39216, 34, code_na026Pairs, code_na026Sequence⟩

/-- Table of On-Time/Off-Time pairs of code_na027 (flat, as in the C array). -/
def code_na027Pairs : List Nat := [
  500, 1000,
  500, 2000,
  500, 8000,
  4000, 4000
]
/-- Table of indices to On-Time/Off-Time pairs of code_na027. -/
def code_na027Sequence : List Nat := [
  3, 0, 1, 1, 1, 0, 0, 1, 0, 1, 0, 1, 0, 1, 0, 0, 0, 1, 1, 0, 1, 0, 1, 0, 1, 2, 3, 0, 1, 1, 1, 0, 0, 1, 0, 1, 0, 1, 0, 1, 0, 0, 0, 1, 1, 0, 1, 0, 1, 0, 1, 0
]
/-- POWER-Code table of code_na027. -/
def code_na027Code : IrCode :=
  ⟨57143, 52, code_na027Pairs, code_na027Sequence⟩

/-- Table of On-Time/Off-Time pairs of code_na028 (flat, as in the C array). -/
def code_na028Pairs : List Nat := [
  1180, 1210,
  1180, 2710,
  1180, 47500,
  2580, 2710
]
/-- Table of indices to On-Time/Off-Time pairs of code_na028. -/
def code_na028Sequence : List Nat := [
  3, 0, 1, 0, 1, 0, 1, 1, 0, 1, 1, 0, 0, 0, 1, 0, 1, 2, 3, 0, 1, 0, 1, 0, 1, 1, 0, 1, 1, 0, 0, 0, 1, 0, 1, 0
]
/-- POWER-Code table of code_na028. -/
def code_na028Code : IrCode :=
  ⟨38610, 36, code_na028Pairs, code_na028Sequence⟩

/-- Table of On-Time/Off-Time pairs of code_na029 (flat, as in the C array). -/
def code_na029Pairs : List Nat := [
  880, 900,
  880, 910,
  880, 1810,
  1770, 910,
  1770, 89760
]
/-- Table of indices to On-Time/Off-Time pairs of code_na029. -/
def code_na029Sequence : List Nat := [
  0, 3, 1, 1, 1, 1, 2, 3, 2, 1, 4, 1, 3, 1, 1, 1, 1, 2, 3, 2, 1, 3
]
/-- POWER-Code table of code_na029. -/
def code_na029Code : IrCode :=
  ⟨35842, 22, code_na029Pairs, code_na029Sequence⟩

/-- Table of On-Time/Off-Time pairs of code_na030 (flat, as in the C array). -/
def code_na030Pairs : List Nat := [
  530, 560,
  530, 1710,
  530, 39500,
  530, 95990,
  8980, 4510,
  9000, 2260
]
/-- Table of indices to On-Time/Off-Time pairs of code_na030. -/
def code_na030Sequence : List Nat := [
  4, 0, 0, 0, 0, 1, 0, 1, 0, 1, 0, 1, 1, 0, 1, 0, 1, 0, 0, 0, 0, 0, 0, 0, 0, 1, 1, 1, 1, 1, 1, 1, 1, 2, 5, 3, 5, 0
]
/-- POWER-Code table of code_na030. -/
def code_na030Code : IrCode :=
  ⟨38462, 38, code_na030Pairs, code_na030Sequence⟩

/-- Table of On-Time/Off-Time pairs of code_na031 (flat, as in the C array). -/
def code_na031Pairs : List Nat := [
  880, 890,
  880, 900,
  880, 1790,
  880, 89770,
  1770, 900
]
/-- Table of indices to On-Time/Off-Time pairs of code_na031. -/
def code_na031Sequence : List Nat := [
  0, 1, 4, 1, 1, 1, 1, 1, 2, 1, 4, 3, 1, 1, 4, 1, 1, 1, 1, 1, 2, 1, 4, 0
]
/-- POWER-Code table of code_na031. -/
def code_na031Code : IrCode :=
  ⟨35842, 24, code_na031Pairs, code_na031Sequence⟩

/-- Table of On-Time/Off-Time pairs of code_na032 (flat, as in the C array). -/
def code_na032Pairs : List Nat := [
  530, 560,
  530, 1710,
  530, 39500,
  530, 95990,
  8980, 4510,
  9000, 2260
]
/-- Table of indices to On-Time/Off-Time pairs of code_na032. -/
def code_na032Sequence : List Nat := [
  4, 0, 0, 0, 0, 1, 0, 1, 0, 1, 0, 1, 1, 0, 1, 0, 1, 0, 1, 0, 0, 0, 0, 0, 0, 1, 0, 1, 1, 1, 1, 1, 1, 2, 5, 3, 5, 0
]
/-- POWER-Code table of code_na032. -/
def code_na032Code : IrCode :=
  ⟨38462, 38, code_na032Pairs, code_na032Sequence⟩

/-- Table of On-Time/Off-Time pairs of code_na033 (flat, as in the C array). -/
def code_na033Pairs : List Nat := [
  400, 430,
  400, 1220,
  400, 52970,
  3340, 1560,
  3360, 1550
]
/-- Table of indices to On-Time/Off-Time pairs of code_na033. -/
def code_na033Sequence : List Nat := [
  3, 0, 0, 1, 0, 1, 0, 0, 0, 1, 1, 0, 0, 0, 1, 1, 0, 0, 0, 0, 0, 0, 0, 0, 0, 0, 0, 1, 0, 0, 0, 0, 1, 0, 1, 0, 1, 0, 0, 0, 1, 0, 0, 0, 0, 0, 0, 0, 0, 2, 4, 0, 0, 1, 0, 1, 0, 0, 0, 1, 1, 0, 0, 0, 1, 1, 0, 0, 0, 0, 0, 0, 0, 0, 0, 0, 0, 1, 0, 0, 0, 0, 1, 0, 1, 0, 1, 0, 0, 0, 1, 0, 0, 0, 0, 0, 0, 0, 0, 0
]
/-- POWER-Code table of code_na033. -/
def code_na033Code : IrCode :=
  ⟨38462, 100, code_na033Pairs, code_na033Sequence⟩

/-- Table of On-Time/Off-Time pairs of code_na034 (flat, as in the C array). -/
def code_na034Pairs : List Nat := [
  550, 570,
  550, 1700,
  550, 39490,
  550, 96230,
  560, 0,
  8980, 4530,
  9000, 2260
]
/-- Table of indices to On-Time/Off-Time pairs of code_na034. -/
def code_na034Sequence : List Nat := [
  5, 0, 0, 0, 0, 1, 0, 1, 0, 1, 1, 1, 1, 0, 1, 0, 1, 1, 1, 1, 1, 1, 1, 0, 0, 0, 0, 0, 0, 0, 0, 1, 1, 2, 6, 3, 6, 4
]
/-- POWER-Code table of code_na034. -/
def code_na034Code : IrCode :=
  ⟨38462, 38, code_na034Pairs, code_na034Sequence⟩

/-- Table of On-Time/Off-Time pairs of code_na035 (flat, as in the C array). -/
def code_na035Pairs : List Nat := [
  960, 930,
  970, 930,
  970, 2870,
  970, 34310
]
/-- Table of indices to On-Time/Off-Time pairs of code_na035. -/
def code_na035Sequence : List Nat := [
  0, 1, 1, 2, 1, 2, 1, 2, 1, 1, 3, 1, 1, 1, 2, 1, 2, 1, 2, 1, 1, 1
]
/-- POWER-Code table of code_na035. -/
def code_na035Code : IrCode :=
  ⟨41667, 22, code_na035Pairs, code_na035Sequence⟩

/-- Table of On-Time/Off-Time pairs of code_na036 (flat, as in the C array). -/
def code_na036Pairs : List Nat := [
  820, 5810,
  840, 2500,
  840, 5800,
  850, 0
]
/-- Table of indices to On-Time/Off-Time pairs of code_na036. -/
def code_na036Sequence : List Nat := [
  0, 1, 1, 1, 2, 1, 2, 2, 2, 1, 3
]
/-- POWER-Code table of code_na036. -/
def code_na036Code : IrCode :=
  ⟨37037, 11, code_na036Pairs, code_na036Sequence⟩

/-- Table of On-Time/Off-Time pairs of code_na037 (flat, as in the C array). -/
def code_na037Pairs : List Nat := [
  390, 2630,
  1640, 1630,
  5140, 1640
]
/-- Table of indices to On-Time/Off-Time pairs of code_na037. -/
def code_na037Sequence : List Nat := [
  2, 0, 0, 0, 1, 0, 1, 1, 0, 0, 0
]
/-- POWER-Code table of code_na037. -/
def code_na037Code : IrCode :=
  ⟨41667, 11, code_na037Pairs, code_na037Sequence⟩

/-- Table of On-Time/Off-Time pairs of code_na038 (flat, as in the C array). -/
def code_na038Pairs : List Nat := [
  560, 570,
  560, 1750,
  560, 41500,
  560, 94990,
  8980, 2270,
  8980, 4490
]
/-- Table of indices to On-Time/Off-Time pairs of code_na038. -/
def code_na038Sequence : List Nat := [
  5, 1, 0, 1, 0, 1, 0, 0, 0, 0, 1, 0, 1, 0, 1, 1, 1, 0, 1, 0, 0, 1, 0, 0, 0, 1, 0, 1, 1, 0, 1, 1, 1, 2, 4, 3, 4, 1
]
/-- POWER-Code table of code_na038. -/
def code_na038Code : IrCode :=
  ⟨40000, 38, code_na038Pairs, code_na038Sequence⟩

/-- Table of On-Time/Off-Time pairs of code_na039 (flat, as in the C array). -/
def code_na039Pairs : List Nat := [
  1130, 1010,
  6880, 27070
]
/-- Table of indices to On-Time/Off-Time pairs of code_na039. -/
def code_na039Sequence : List Nat := [
  0, 1, 0, 1
]
/-- POWER-Code table of code_na039. -/
def code_na039Code : IrCode :=
  ⟨40000, 4, code_na039Pairs, code_na039Sequence⟩

/-- Table of On-Time/Off-Time pairs of code_na040 (flat, as in the C array). -/
def code_na040Pairs : List Nat := [
  1130, 1010,
  1130, 2010,
  1130, 27070
]
/-- Table of indices to On-Time/Off-Time pairs of code_na040. -/
def code_na040Sequence : List Nat := [
  0, 0, 1, 2, 0, 0, 1, 0
]
/-- POWER-Code table of code_na040. -/
def code_na040Code : IrCode :=
  ⟨40000, 8, code_na040Pairs, code_na040Sequence⟩

/-- Table of On-Time/Off-Time pairs of code_na041 (flat, as in the C array). -/
def code_na041Pairs : List Nat := [
  580, 620,
  580, 27460,
  1170, 620,
  2420, 620
]
/-- Table of indices to On-Time/Off-Time pairs of code_na041. -/
def code_na041Sequence : List Nat := [
  3, 2, 0, 2, 0, 2, 0, 0, 2, 0, 0, 0, 1, 3, 2, 0, 2, 0, 2, 0, 0, 2, 0, 0, 0, 0
]
/-- POWER-Code table of code_na041. -/
def code_na041Code : IrCode :=
  ⟨76923, 26, code_na041Pairs, code_na041Sequence⟩

/-- Table of On-Time/Off-Time pairs of code_na042 (flat, as in the C array). -/
def code_na042Pairs : List Nat := [
  540, 650,
  540, 1700,
  540, 40990,
  540, 86680,
  8990, 2260,
  8990, 4210
]
/-- Table of indices to On-Time/Off-Time pairs of code_na042. -/
def code_na042Sequence : List Nat := [
  5, 1, 1, 0, 0, 0, 0, 0, 1, 0, 1, 0, 1, 1, 1, 1, 0, 0, 0, 0, 1, 0, 0, 0, 0, 1, 1, 1, 0, 1, 1, 1, 1, 2, 4, 3, 4, 1
]
/-- POWER-Code table of code_na042. -/
def code_na042Code : IrCode :=
  ⟨40000, 38, code_na042Pairs, code_na042Sequence⟩

/-- Table of On-Time/Off-Time pairs of code_na043 (flat, as in the C array). -/
def code_na043Pairs : List Nat := [
  430, 1200,
  430, 1210,
  430, 34910,
  1310, 450
]
/-- Table of indices to On-Time/Off-Time pairs of code_na043. -/
def code_na043Sequence : List Nat := [
  0, 1, 1, 1, 1, 3, 1, 1, 1, 1, 1, 2, 1, 1, 1, 1, 1, 3, 1, 1, 1, 1, 1, 0
]
/-- POWER-Code table of code_na043. -/
def code_na043Code : IrCode :=
  ⟨40000, 24, code_na043Pairs, code_na043Sequence⟩

/-- Table of On-Time/Off-Time pairs of code_na044 (flat, as in the C array). -/
def code_na044Pairs : List Nat := [
  510, 510,
  510, 1600,
  510, 40960,
  510, 95130,
  4310, 4360,
  8830, 2190
]
/-- Table of indices to On-Time/Off-Time pairs of code_na044. -/
def code_na044Sequence : List Nat := [
  4, 1, 1, 1, 0, 0, 0, 0, 0, 0, 0, 0, 1, 1, 1, 1, 1, 0, 1, 0, 0, 0, 0, 0, 0, 1, 0, 1, 1, 1, 1, 1, 1, 2, 5, 3, 5, 1
]
/-- POWER-Code table of code_na044. -/
def code_na044Code : IrCode :=
  ⟨40000, 38, code_na044Pairs, code_na044Sequence⟩

/-- Table of On-Time/Off-Time pairs of code_na045 (flat, as in the C array). -/
def code_na045Pairs : List Nat := [
  580, 530,
  580, 1670,
  580, 44940,
  580, 96790,
  4550, 4490,
  4560, 4490
]
/-- Table of indices to On-Time/Off-Time pairs of code_na045. -/
def code_na045Sequence : List Nat := [
  4, 0, 1, 1, 0, 0, 0, 0, 0, 0, 1, 1, 0, 0, 0, 0, 0, 1, 1, 1, 1, 0, 0, 0, 0, 0, 0, 0, 0, 1, 1, 1, 1, 2, 5, 1, 3, 5, 1, 0
]
/-- POWER-Code table of code_na045. -/
def code_na045Code : IrCode :=
  ⟨38462, 40, code_na045Pairs, code_na045Sequence⟩

/-- Table of On-Time/Off-Time pairs of code_na046 (flat, as in the C array). -/
def code_na046Pairs : List Nat := [
  510, 2770,
  520, 530,
  520, 1050,
  520, 2770,
  520, 25270,
  520, 128090,
  1030, 540
]
/-- Table of indices to On-Time/Off-Time pairs of code_na046. -/
def code_na046Sequence : List Nat := [
  0, 2, 6, 1, 1, 1, 4, 3, 2, 1, 1, 1, 1, 1, 5, 3, 2, 1, 1, 1, 1, 1, 2
]
/-- POWER-Code table of code_na046. -/
def code_na046Code : IrCode :=
  ⟨29412, 23, code_na046Pairs, code_na046Sequence⟩

/-- Table of On-Time/Off-Time pairs of code_na047 (flat, as in the C array). -/
def code_na047Pairs : List Nat := [
  560, 570,
  560, 1750,
  560, 41500,
  560, 94990,
  8980, 2270,
  8980, 4490
]
/-- Table of indices to On-Time/Off-Time pairs of code_na047. -/
def code_na047Sequence : List Nat := [
  5, 0, 0, 0, 0, 1, 0, 0, 0, 1, 1, 1, 1, 0, 1, 1, 1, 1, 1, 1, 1, 0, 1, 1, 1, 0, 0, 0, 0, 1, 0, 0, 0, 2, 4, 3, 4, 0
]
/-- POWER-Code table of code_na047. -/
def code_na047Code : IrCode :=
  ⟨40000, 38, code_na047Pairs, code_na047Sequence⟩

/-- Table of On-Time/Off-Time pairs of code_na048 (flat, as in the C array). -/
def code_na048Pairs : List Nat := [
  510, 510,
  510, 1600,
  510, 40960,
  510, 95130,
  4310, 4360,
  8830, 2190
]
/-- Table of indices to On-Time/Off-Time pairs of code_na048. -/
def code_na048Sequence : List Nat := [
  4, 0, 0, 0, 0, 0, 0, 0, 0, 1, 1, 1, 1, 1, 1, 1, 1, 1, 1, 1, 1, 0, 0, 0, 0, 0, 0, 0, 0, 1, 1, 1, 1, 2, 5, 3, 5, 0
]
/-- POWER-Code table of code_na048. -/
def code_na048Code : IrCode :=
  ⟨40000, 38, code_na048Pairs, code_na048Sequence⟩

/-- Table of On-Time/Off-Time pairs of code_na049 (flat, as in the C array). -/
def code_na049Pairs : List Nat := [
  2740, 8540,
  2740, 19860
]
/-- Table of indices to On-Time/Off-Time pairs of code_na049. -/
def code_na049Sequence : List Nat := [
  0, 1, 1, 0, 0, 1, 0, 1, 1, 0, 0
]
/-- POWER-Code table of code_na049. -/
def code_na049Code : IrCode :=
  ⟨45455, 11, code_na049Pairs, code_na049Sequence⟩

/-- Table of On-Time/Off-Time pairs of code_na050 (flat, as in the C array). -/
def code_na050Pairs : List Nat := [
  800, 880,
  800, 2540,
  800, 37500,
  3590, 3310
]
/-- Table of indices to On-Time/Off-Time pairs of code_na050. -/
def code_na050Sequence : List Nat := [
  3, 0, 0, 0, 0, 0, 0, 0, 0, 0, 0, 1, 1, 1, 1, 1, 1, 1, 1, 1, 1, 1, 0, 2, 3, 0, 0, 0, 0, 0, 0, 0, 0, 0, 0, 1, 1, 1, 1, 1, 1, 1, 1, 1, 1, 1, 0, 0
]
/-- POWER-Code table of code_na050. -/
def code_na050Code : IrCode :=
  ⟨55556, 48, code_na050Pairs, code_na050Sequence⟩

/-- Table of On-Time/Off-Time pairs of code_na051 (flat, as in the C array). -/
def code_na051Pairs : List Nat := [
  560, 570,
  560, 1750,
  560, 41500,
  560, 94990,
  8980, 2270,
  8980, 4490
]
/-- Table of indices to On-Time/Off-Time pairs of code_na051. -/
def code_na051Sequence : List Nat := [
  5, 0, 0, 1, 0, 0, 0, 1, 1, 1, 1, 0, 1, 1, 1, 0, 0, 0, 0, 0, 1, 1, 0, 0, 0, 1, 1, 1, 0, 0, 1, 1, 1, 2, 4, 3, 4, 0
]
/-- POWER-Code table of code_na051. -/
def code_na051Code : IrCode :=
  ⟨40000, 38, code_na051Pairs, code_na051Sequence⟩

/-- Table of On-Time/Off-Time pairs of code_na052 (flat, as in the C array). -/
def code_na052Pairs : List Nat := [
  560, 570,
  560, 1750,
  560, 41500,
  560, 94990,
  8980, 2270,
  8980, 4490
]
/-- Table of indices to On-Time/Off-Time pairs of code_na052. -/
def code_na052Sequence : List Nat := [
  5, 1, 1, 1, 0, 1, 1, 0, 0, 0, 0, 0, 1, 0, 0, 1, 1, 0, 1, 0, 0, 1, 0, 0, 0, 1, 0, 1, 1, 0, 1, 1, 1, 2, 4, 3, 4, 1
]
/-- POWER-Code table of code_na052. -/
def code_na052Code : IrCode :=
  ⟨40000, 38, code_na052Pairs, code_na052Sequence⟩

/-- Table of On-Time/Off-Time pairs of code_na053 (flat, as in the C array). -/
def code_na053Pairs : List Nat := [
  510, 2320,
  510, 5120,
  510, 7920,
  510, 28830
]
/-- Table of indices to On-Time/Off-Time pairs of code_na053. -/
def code_na053Sequence : List Nat := [
  0, 2, 0, 2, 0, 2, 0, 1, 1, 0, 0, 0, 0, 1, 3, 0, 2, 0, 2, 0, 2, 0, 1, 1, 0, 0, 0, 0, 1, 0
]
/-- POWER-Code table of code_na053. -/
def code_na053Code : IrCode :=
  ⟨55556, 30, code_na053Pairs, code_na053Sequence⟩

/-- Table of On-Time/Off-Time pairs of code_na054 (flat, as in the C array). -/
def code_na054Pairs : List Nat := [
  510, 2320,
  510, 5120,
  510, 7920,
  510, 28830
]
/-- Table of indices to On-Time/Off-Time pairs of code_na054. -/
def code_na054Sequence : List Nat := [
  0, 2, 0, 2, 0, 2, 0, 0, 0, 1, 1, 1, 1, 3, 0, 2, 0, 2, 0, 2, 0, 0, 0, 1, 1, 1, 1, 0
]
/-- POWER-Code table of code_na054. -/
def code_na054Code : IrCode :=
  ⟨55556, 28, code_na054Pairs, code_na054Sequence⟩

/-- Table of On-Time/Off-Time pairs of code_na055 (flat, as in the C array). -/
def code_na055Pairs : List Nat := [
  30, 100,
  30, 200,
  30, 300,
  30, 127780
]
/-- Table of indices to On-Time/Off-Time pairs of code_na055. -/
def code_na055Sequence : List Nat := [
  2, 0, 0, 1, 1, 1, 0, 1, 0, 1, 1, 0, 2, 3, 2, 0, 0, 1, 1, 1, 0, 1, 0, 1, 1, 0, 1
]
/-- POWER-Code table of code_na055. -/
def code_na055Code : IrCode :=
  ⟨0, 27, code_na055Pairs, code_na055Sequence⟩

/-- Table of On-Time/Off-Time pairs of code_na056 (flat, as in the C array). -/
def code_na056Pairs : List Nat := [
  550, 1930,
  570, 1920,
  570, 3840,
  580, 0
]
/-- Table of indices to On-Time/Off-Time pairs of code_na056. -/
def code_na056Sequence : List Nat := [
  0, 2, 2, 2, 1, 1, 1, 3
]
/-- POWER-Code table of code_na056. -/
def code_na056Code : IrCode :=
  ⟨37175, 8, code_na056Pairs, code_na056Sequence⟩

/-- Table of On-Time/Off-Time pairs of code_na057 (flat, as in the C array). -/
def code_na057Pairs : List Nat := [
  450, 1480,
  460, 1480,
  460, 3510,
  460, 27810
]
/-- Table of indices to On-Time/Off-Time pairs of code_na057. -/
def code_na057Sequence : List Nat := [
  0, 2, 2, 2, 1, 1, 3, 1, 2, 2, 2, 1, 1, 2
]
/-- POWER-Code table of code_na057. -/
def code_na057Code : IrCode :=
  ⟨40000, 14, code_na057Pairs, code_na057Sequence⟩

/-- Table of On-Time/Off-Time pairs of code_na058 (flat, as in the C array). -/
def code_na058Pairs : List Nat := [
  220, 1010,
  220, 2190,
  230, 1010,
  230, 2190,
  310, 2180
]
/-- Table of indices to On-Time/Off-Time pairs of code_na058. -/
def code_na058Sequence : List Nat := [
  4, 3, 3, 2, 2, 0, 1, 0, 0, 1, 0, 0, 2, 2, 2, 2, 2, 3
]
/-- POWER-Code table of code_na058. -/
def code_na058Code : IrCode :=
  ⟨33333, 18, code_na058Pairs, code_na058Sequence⟩

/-- Table of On-Time/Off-Time pairs of code_na059 (flat, as in the C array). -/
def code_na059Pairs : List Nat := [
  560, 570,
  560, 1750,
  560, 41500,
  560, 94990,
  8980, 2270,
  8980, 4490
]
/-- Table of indices to On-Time/Off-Time pairs of code_na059. -/
def code_na059Sequence : List Nat := [
  5, 1, 0, 1, 1, 0, 1, 1, 0, 0, 1, 0, 0, 1, 0, 0, 1, 0, 0, 1, 0, 1, 0, 0, 0, 1, 1, 0, 1, 0, 1, 1, 1, 2, 4, 3, 4, 1
]
/-- POWER-Code table of code_na059. -/
def code_na059Code : IrCode :=
  ⟨40000, 38, code_na059Pairs, code_na059Sequence⟩

/-- Table of On-Time/Off-Time pairs of code_na060 (flat, as in the C array). -/
def code_na060Pairs : List Nat := [
  560, 570,
  560, 1750,
  560, 41500,
  560, 94990,
  8980, 2270,
  8980, 4490
]
/-- Table of indices to On-Time/Off-Time pairs of code_na060. -/
def code_na060Sequence : List Nat := [
  5, 0, 0, 0, 0, 0, 1, 0, 0, 1, 1, 1, 1, 1, 0, 1, 1, 1, 0, 0, 0, 1, 0, 0, 0, 0, 1, 1, 1, 0, 1, 1, 1, 2, 4, 3, 4, 0
]
/-- POWER-Code table of code_na060. -/
def code_na060Code : IrCode :=
  ⟨40000, 38, code_na060Pairs, code_na060Sequence⟩

/-- Table of On-Time/Off-Time pairs of code_na061 (flat, as in the C array). -/
def code_na061Pairs : List Nat := [
  560, 570,
  560, 1750,
  560, 41500,
  560, 94990,
  8980, 2270,
  8980, 4490
]
/-- Table of indices to On-Time/Off-Time pairs of code_na061. -/
def code_na061Sequence : List Nat := [
  5, 0, 0, 0, 0, 0, 1, 0, 1, 1, 1, 1, 1, 1, 0, 1, 0, 1, 1, 0, 1, 0, 0, 0, 0, 0, 0, 1, 0, 1, 1, 1, 1, 2, 4, 3, 4, 0
]
/-- POWER-Code table of code_na061. -/
def code_na061Code : IrCode :=
  ⟨40000, 38, code_na061Pairs, code_na061Sequence⟩

/-- Table of On-Time/Off-Time pairs of code_na062 (flat, as in the C array). -/
def code_na062Pairs : List Nat := [
  560, 570,
  560, 1750,
  560, 41500,
  560, 94990,
  8980, 2270,
  8980, 4490
]
/-- Table of indices to On-Time/Off-Time pairs of code_na062. -/
def code_na062Sequence : List Nat := [
  5, 0, 0, 0, 1, 0, 1, 0, 0, 1, 1, 1, 0, 1, 0, 1, 1, 1, 1, 0, 1, 0, 0, 0, 0, 0, 0, 1, 0, 1, 1, 1, 1, 2, 4, 3, 4, 0
]
/-- POWER-Code table of code_na062. -/
def code_na062Code : IrCode :=
  ⟨40000, 38, code_na062Pairs, code_na062Sequence⟩

/-- Table of On-Time/Off-Time pairs of code_na063 (flat, as in the C array). -/
def code_na063Pairs : List Nat := [
  560, 570,
  560, 1750,
  560, 41500,
  560, 94990,
  8980, 2270,
  8980, 4490
]
/-- Table of indices to On-Time/Off-Time pairs of code_na063. -/
def code_na063Sequence : List Nat := [
  5, 1, 1, 1, 1, 1, 1, 1, 1, 0, 0, 0, 0, 0, 0, 0, 0, 1, 1, 1, 1, 1, 1, 0, 0, 0, 0, 0, 0, 0, 0, 1, 1, 2, 4, 3, 4, 1
]
/-- POWER-Code table of code_na063. -/
def code_na063Code : IrCode :=
  ⟨40000, 38, code_na063Pairs, code_na063Sequence⟩

/-- Table of On-Time/Off-Time pairs of code_na064 (flat, as in the C array). -/
def code_na064Pairs : List Nat := [
  500, 1000,
  500, 2000,
  500, 8000,
  4000, 4000
]
/-- Table of indices to On-Time/Off-Time pairs of code_na064. -/
def code_na064Sequence : List Nat := [
  3, 0, 0, 0, 0, 0, 0, 1, 1, 1, 0, 1, 1, 1, 1, 1, 1, 1, 1, 0, 0, 0, 1, 0, 0, 2, 3, 0, 0, 0, 0, 0, 0, 1, 1, 1, 0, 1, 1, 1, 1, 1, 1, 1, 1, 0, 0, 0, 1, 0, 0, 0
]
/-- POWER-Code table of code_na064. -/
def code_na064Code : IrCode :=
  ⟨57143, 52, code_na064Pairs, code_na064Sequence⟩

/-- Table of On-Time/Off-Time pairs of code_na065 (flat, as in the C array). -/
def code_na065Pairs : List Nat := [
  480, 980,
  480, 1970,
  980, 8460,
  3950, 3920,
  19530, 3920
]
/-- Table of indices to On-Time/Off-Time pairs of code_na065. -/
def code_na065Sequence : List Nat := [
  4, 1, 1, 1, 1, 0, 0, 1, 1, 1, 0, 1, 1, 0, 0, 0, 0, 1, 1, 0, 0, 0, 1, 0, 0, 2, 3, 1, 1, 1, 1, 0, 0, 1, 1, 1, 0, 1, 1, 0, 0, 0, 0, 1, 1, 0, 0, 0, 1, 0, 0, 2, 3, 1, 1, 1, 1, 0, 0, 1, 1, 1, 0, 1, 1, 0, 0, 0, 0, 1, 1, 0, 0, 0, 1, 0, 0, 2
]
/-- POWER-Code table of code_na065. -/
def code_na065Code : IrCode :=
  ⟨59172, 78, code_na065Pairs, code_na065Sequence⟩

/-- Table of On-Time/Off-Time pairs of code_na066 (flat, as in the C array). -/
def code_na066Pairs : List Nat := [
  380, 2760,
  1650, 1540,
  4150, 1550,
  7420, 1540
]
/-- Table of indices to On-Time/Off-Time pairs of code_na066. -/
def code_na066Sequence : List Nat := [
  3, 0, 0, 0, 1, 0, 1, 1, 0, 0, 0, 2, 0, 0, 0, 1, 0, 1, 1, 0, 0, 0, 2, 0, 0, 0, 1, 0, 1, 1, 0, 0, 0
]
/-- POWER-Code table of code_na066. -/
def code_na066Code : IrCode :=
  ⟨38462, 33, code_na066Pairs, code_na066Sequence⟩

/-- Table of On-Time/Off-Time pairs of code_na067 (flat, as in the C array). -/
def code_na067Pairs : List Nat := [
  510, 510,
  510, 1600,
  510, 40960,
  510, 95130,
  4310, 4360,
  8830, 2190
]
/-- Table of indices to On-Time/Off-Time pairs of code_na067. -/
def code_na067Sequence : List Nat := [
  4, 0, 0, 0, 1, 1, 1, 1, 1, 1, 1, 1, 0, 0, 0, 0, 0, 0, 1, 0, 0, 0, 0, 0, 0, 1, 0, 1, 1, 1, 1, 1, 1, 2, 5, 3, 5, 0
]
/-- POWER-Code table of code_na067. -/
def code_na067Code : IrCode :=
  ⟨40000, 38, code_na067Pairs, code_na067Sequence⟩

/-- Table of On-Time/Off-Time pairs of code_na068 (flat, as in the C array). -/
def code_na068Pairs : List Nat := [
  430, 1210,
  430, 94370,
  1300, 450,
  1310, 450
]
/-- Table of indices to On-Time/Off-Time pairs of code_na068. -/
def code_na068Sequence : List Nat := [
  2, 0, 3, 0, 0, 3, 0, 0, 0, 0, 3, 1, 3, 0, 3, 0, 0, 3, 0, 0, 0, 0, 3, 0
]
/-- POWER-Code table of code_na068. -/
def code_na068Code : IrCode :=
  ⟨40000, 24, code_na068Pairs, code_na068Sequence⟩

/-- Table of On-Time/Off-Time pairs of code_na069 (flat, as in the C array). -/
def code_na069Pairs : List Nat := [
  560, 570,
  560, 1750,
  560, 41500,
  560, 94990,
  8980, 2270,
  8980, 4490
]
/-- Table of indices to On-Time/Off-Time pairs of code_na069. -/
def code_na069Sequence : List Nat := [
  5, 0, 0, 0, 0, 0, 0, 0, 0, 1, 1, 1, 1, 1, 1, 1, 1, 1, 1, 0, 1, 0, 0, 0, 0, 0, 0, 1, 0, 1, 1, 1, 1, 2, 4, 3, 4, 0
]
/-- POWER-Code table of code_na069. -/
def code_na069Code : IrCode :=
  ⟨40000, 38, code_na069Pairs, code_na069Sequence⟩

/-- Table of On-Time/Off-Time pairs of code_na070 (flat, as in the C array). -/
def code_na070Pairs : List Nat := [
  270, 760,
  270, 1820,
  270, 1830,
  270, 31990
]
/-- Table of indices to On-Time/Off-Time pairs of code_na070. -/
def code_na070Sequence : List Nat := [
  1, 0, 0, 0, 0, 0, 0, 2, 0, 0, 2, 0, 2, 2, 0, 2, 3, 2, 0, 0, 0, 0, 0, 0, 2, 0, 0, 2, 0, 2, 2, 0, 1
]
/-- POWER-Code table of code_na070. -/
def code_na070Code : IrCode :=
  ⟨38462, 33, code_na070Pairs, code_na070Sequence⟩

/-- Table of On-Time/Off-Time pairs of code_na071 (flat, as in the C array). -/
def code_na071Pairs : List Nat := [
  370, 1810,
  370, 2720
]
/-- Table of indices to On-Time/Off-Time pairs of code_na071. -/
def code_na071Sequence : List Nat := [
  0, 1, 0, 1, 1, 0, 0, 0
]
/-- POWER-Code table of code_na071. -/
def code_na071Code : IrCode :=
  ⟨55556, 8, code_na071Pairs, code_na071Sequence⟩

/-- Table of On-Time/Off-Time pairs of code_na072 (flat, as in the C array). -/
def code_na072Pairs : List Nat := [
  540, 650,
  540, 1700,
  540, 40990,
  540, 86680,
  8990, 2260,
  8990, 4210
]
/-- Table of indices to On-Time/Off-Time pairs of code_na072. -/
def code_na072Sequence : List Nat := [
  5, 0, 1, 1, 0, 0, 0, 0, 0, 0, 1, 1, 0, 0, 0, 0, 0, 0, 0, 1, 0, 1, 0, 0, 0, 1, 1, 0, 1, 0, 1, 1, 1, 2, 4, 3, 4, 0
]
/-- POWER-Code table of code_na072. -/
def code_na072Code : IrCode :=
  ⟨40000, 38, code_na072Pairs, code_na072Sequence⟩

/-- Table of On-Time/Off-Time pairs of code_na073 (flat, as in the C array). -/
def code_na073Pairs : List Nat := [
  560, 570,
  560, 1750,
  560, 41500,
  560, 94990,
  8980, 2270,
  8980, 4490
]
/-- Table of indices to On-Time/Off-Time pairs of code_na073. -/
def code_na073Sequence : List Nat := [
  5, 0, 1, 0, 1, 0, 1, 0, 1, 1, 0, 1, 0, 1, 0, 1, 0, 0, 0, 0, 0, 0, 0, 0, 1, 1, 1, 1, 1, 1, 1, 1, 0, 2, 4, 3, 4, 0
]
/-- POWER-Code table of code_na073. -/
def code_na073Code : IrCode :=
  ⟨40000, 38, code_na073Pairs, code_na073Sequence⟩

/-- Table of On-Time/Off-Time pairs of code_na074 (flat, as in the C array). -/
def code_na074Pairs : List Nat := [
  560, 570,
  560, 1750,
  560, 41500,
  560, 94990,
  8980, 2270,
  8980, 4490
]
/-- Table of indices to On-Time/Off-Time pairs of code_na074. -/
def code_na074Sequence : List Nat := [
  5, 1, 0, 0, 0, 1, 0, 1, 0, 0, 1, 1, 1, 0, 1, 0, 1, 0, 0, 0, 1, 0, 0, 0, 0, 1, 1, 1, 0, 1, 1, 1, 1, 2, 4, 3, 4, 1
]
/-- POWER-Code table of code_na074. -/
def code_na074Code : IrCode :=
  ⟨40000, 38, code_na074Pairs, code_na074Sequence⟩

/-- Table of On-Time/Off-Time pairs of code_na075 (flat, as in the C array). -/
def code_na075Pairs : List Nat := [
  510, 980,
  510, 1940,
  1020, 9310,
  3900, 3900,
  3900, 3910
]
/-- Table of indices to On-Time/Off-Time pairs of code_na075. -/
def code_na075Sequence : List Nat := [
  3, 0, 0, 0, 0, 0, 0, 1, 0, 1, 0, 1, 0, 1, 1, 1, 1, 1, 1, 0, 1, 0, 1, 0, 1, 2, 4, 0, 0, 0, 0, 0, 0, 1, 0, 1, 0, 1, 0, 1, 1, 1, 1, 1, 1, 0, 1, 0, 1, 0, 1, 2
]
/-- POWER-Code table of code_na075. -/
def code_na075Code : IrCode :=
  ⟨41667, 52, code_na075Pairs, code_na075Sequence⟩

/-- Table of On-Time/Off-Time pairs of code_na076 (flat, as in the C array). -/
def code_na076Pairs : List Nat := [
  560, 570,
  560, 1750,
  560, 41500,
  560, 94990,
  8980, 2270,
  8980, 4490
]
/-- Table of indices to On-Time/Off-Time pairs of code_na076. -/
def code_na076Sequence : List Nat := [
  5, 0, 1, 1, 1, 0, 1, 1, 0, 1, 0, 0, 0, 1, 0, 0, 1, 0, 0, 1, 0, 1, 0, 0, 0, 1, 1, 0, 1, 0, 1, 1, 1, 2, 4, 3, 4, 0
]
/-- POWER-Code table of code_na076. -/
def code_na076Code : IrCode :=
  ⟨40000, 38, code_na076Pairs, code_na076Sequence⟩

/-- Table of On-Time/Off-Time pairs of code_na077 (flat, as in the C array). -/
def code_na077Pairs : List Nat := [
  880, 890,
  880, 900,
  880, 1790,
  880, 89770,
  1770, 900
]
/-- Table of indices to On-Time/Off-Time pairs of code_na077. -/
def code_na077Sequence : List Nat := [
  0, 4, 1, 2, 1, 1, 4, 2, 1, 4, 3, 1, 4, 1, 2, 1, 1, 4, 2, 1, 4, 0
]
/-- POWER-Code table of code_na077. -/
def code_na077Code : IrCode :=
  ⟨35714, 22, code_na077Pairs, code_na077Sequence⟩

/-- Table of On-Time/Off-Time pairs of code_na078 (flat, as in the C array). -/
def code_na078Pairs : List Nat := [
  400, 2750,
  1600, 1540,
  4800, 1550
]
/-- Table of indices to On-Time/Off-Time pairs of code_na078. -/
def code_na078Sequence : List Nat := [
  2, 0, 0, 0, 1, 0, 1, 1, 0, 0, 1, 0, 0, 0, 0, 1, 0, 1, 1, 0, 0, 1, 0, 0, 0, 0, 1, 0, 1, 1, 0, 0, 1, 0
]
/-- POWER-Code table of code_na078. -/
def code_na078Code : IrCode :=
  ⟨38462, 34, code_na078Pairs, code_na078Sequence⟩

/-- Table of On-Time/Off-Time pairs of code_na079 (flat, as in the C array). -/
def code_na079Pairs : List Nat := [
  560, 570,
  560, 1750,
  560, 41500,
  560, 94990,
  8980, 2270,
  8980, 4490
]
/-- Table of indices to On-Time/Off-Time pairs of code_na079. -/
def code_na079Sequence : List Nat := [
  5, 0, 1, 0, 1, 0, 1, 0, 1, 1, 0, 1, 0, 1, 0, 1, 0, 1, 1, 1, 0, 0, 1, 0, 1, 0, 0, 0, 1, 1, 0, 1, 0, 2, 4, 3, 4, 0
]
/-- POWER-Code table of code_na079. -/
def code_na079Code : IrCode :=
  ⟨40000, 38, code_na079Pairs, code_na079Sequence⟩

/-- Table of On-Time/Off-Time pairs of code_na080 (flat, as in the C array). -/
def code_na080Pairs : List Nat := [
  30, 100,
  30, 200,
  30, 300,
  30, 127780
]
/-- Table of indices to On-Time/Off-Time pairs of code_na080. -/
def code_na080Sequence : List Nat := [
  2, 0, 0, 1, 1, 1, 0, 0, 1, 0, 0, 0, 2, 3, 2, 0, 0, 1, 1, 1, 0, 0, 1, 0, 0, 0, 2
]
/-- POWER-Code table of code_na080. -/
def code_na080Code : IrCode :=
  ⟨0, 27, code_na080Pairs, code_na080Sequence⟩

/-- Table of On-Time/Off-Time pairs of code_na081 (flat, as in the C array). -/
def code_na081Pairs : List Nat := [
  480, 520,
  480, 4090,
  480, 5040,
  480, 99780
]
/-- Table of indices to On-Time/Off-Time pairs of code_na081. -/
def code_na081Sequence : List Nat := [
  0, 1, 2, 0, 1, 0, 1, 2, 0, 1, 2, 0, 1, 2, 2, 0, 1, 0, 1, 3, 0, 1, 2, 0, 1, 0, 1, 2, 0, 1, 2, 0, 1, 2, 2, 0, 1, 0, 1, 0
]
/-- POWER-Code table of code_na081. -/
def code_na081Code : IrCode :=
  ⟨40000, 40, code_na081Pairs, code_na081Sequence⟩

/-- Table of On-Time/Off-Time pairs of code_na082 (flat, as in the C array). -/
def code_na082Pairs : List Nat := [
  880, 890,
  880, 900,
  880, 1790,
  880, 88880,
  1770, 900,
  1770, 1790
]
/-- Table of indices to On-Time/Off-Time pairs of code_na082. -/
def code_na082Sequence : List Nat := [
  0, 2, 4, 1, 1, 1, 1, 1, 1, 2, 5, 3, 1, 2, 4, 1, 1, 1, 1, 1, 1, 2, 5, 0
]
/-- POWER-Code table of code_na082. -/
def code_na082Code : IrCode :=
  ⟨35714, 24, code_na082Pairs, code_na082Sequence⟩

/-- Table of On-Time/Off-Time pairs of code_na083 (flat, as in the C array). -/
def code_na083Pairs : List Nat := [
  880, 890,
  880, 900,
  880, 1790,
  880, 89770,
  1770, 900
]
/-- Table of indices to On-Time/Off-Time pairs of code_na083. -/
def code_na083Sequence : List Nat := [
  0, 4, 1, 1, 1, 1, 1, 1, 2, 1, 4, 3, 1, 4, 1, 1, 1, 1, 1, 1, 2, 1, 4, 0
]
/-- POWER-Code table of code_na083. -/
def code_na083Code : IrCode :=
  ⟨35714, 24, code_na083Pairs, code_na083Sequence⟩

/-- Table of On-Time/Off-Time pairs of code_na084 (flat, as in the C array). -/
def code_na084Pairs : List Nat := [
  410, 430,
  410, 1280,
  410, 74760,
  3360, 1710,
  3380, 1690
]
/-- Table of indices to On-Time/Off-Time pairs of code_na084. -/
def code_na084Sequence : List Nat := [
  3, 0, 1, 0, 0, 0, 0, 0, 0, 0, 0, 0, 0, 0, 1, 0, 0, 0, 0, 0, 0, 1, 0, 0, 1, 0, 0, 0, 0, 0, 0, 0, 0, 1, 0, 1, 1, 1, 1, 0, 0, 1, 0, 1, 1, 0, 1, 0, 1, 2, 4, 0, 1, 0, 0, 0, 0, 0, 0, 0, 0, 0, 0, 0, 1, 0, 0, 0, 0, 0, 0, 1, 0, 0, 1, 0, 0, 0, 0, 0, 0, 0, 0, 1, 0, 1, 1, 1, 1, 0, 0, 1, 0, 1, 1, 0, 1, 0, 1, 0
]
/-- POWER-Code table of code_na084. -/
def code_na084Code : IrCode :=
  ⟨37037, 100, code_na084Pairs, code_na084Sequence⟩

/-- Table of On-Time/Off-Time pairs of code_na085 (flat, as in the C array). -/
def code_na085Pairs : List Nat := [
  550, 600,
  550, 1650,
  550, 22840,
  4450, 4370,
  4480, 4360
]
/-- Table of indices to On-Time/Off-Time pairs of code_na085. -/
def code_na085Sequence : List Nat := [
  3, 1, 0, 0, 0, 0, 0, 0, 0, 0, 0, 0, 0, 1, 0, 0, 0, 0, 1, 0, 0, 2, 4, 1, 0, 0, 0, 0, 0, 0, 0, 0, 0, 0, 0, 1, 0, 0, 0, 0, 1, 0, 0, 1
]
/-- POWER-Code table of code_na085. -/
def code_na085Code : IrCode :=
  ⟨38462, 44, code_na085Pairs, code_na085Sequence⟩

/-- Table of On-Time/Off-Time pairs of code_na086 (flat, as in the C array). -/
def code_na086Pairs : List Nat := [
  420, 460,
  420, 1260,
  420, 69890,
  3470, 1760,
  3470, 1770
]
/-- Table of indices to On-Time/Off-Time pairs of code_na086. -/
def code_na086Sequence : List Nat := [
  3, 0, 1, 0, 1, 0, 1, 0, 1, 0, 1, 0, 1, 1, 0, 1, 0, 1, 1, 1, 1, 0, 0, 0, 1, 0, 1, 0, 0, 1, 0, 0, 0, 0, 1, 1, 0, 1, 0, 0, 0, 1, 0, 0, 0, 1, 0, 1, 1, 2, 4, 0, 1, 0, 1, 0, 1, 0, 1, 0, 1, 0, 1, 1, 0, 1, 0, 1, 1, 1, 1, 0, 0, 0, 1, 0, 1, 0, 0, 1, 0, 0, 0, 0, 1, 1, 0, 1, 0, 0, 0, 1, 0, 0, 0, 1, 0, 1, 1, 0
]
/-- POWER-Code table of code_na086. -/
def code_na086Code : IrCode :=
  ⟨37175, 100, code_na086Pairs, code_na086Sequence⟩

/-- Table of On-Time/Off-Time pairs of code_na087 (flat, as in the C array). -/
def code_na087Pairs : List Nat := [
  560, 690,
  560, 1740,
  560, 41650,
  560, 95850,
  8800, 2220,
  8800, 4350
]
/-- Table of indices to On-Time/Off-Time pairs of code_na087. -/
def code_na087Sequence : List Nat := [
  5, 0, 0, 0, 1, 1, 0, 0, 0, 1, 1, 1, 0, 0, 1, 1, 1, 0, 0, 0, 1, 0, 0, 0, 0, 1, 1, 1, 0, 1, 1, 1, 1, 2, 4, 3, 4, 0
]
/-- POWER-Code table of code_na087. -/
def code_na087Code : IrCode :=
  ⟨38462, 38, code_na087Pairs, code_na087Sequence⟩

/-- Table of On-Time/Off-Time pairs of code_na088 (flat, as in the C array). -/
def code_na088Pairs : List Nat := [
  530, 560,
  530, 1710,
  530, 39500,
  530, 95990,
  8980, 4510,
  9000, 2260
]
/-- Table of indices to On-Time/Off-Time pairs of code_na088. -/
def code_na088Sequence : List Nat := [
  4, 0, 0, 0, 0, 1, 0, 0, 0, 1, 0, 1, 1, 0, 1, 0, 0, 1, 1, 1, 1, 1, 0, 0, 0, 0, 0, 0, 0, 0, 1, 1, 1, 2, 5, 3, 5, 0
]
/-- POWER-Code table of code_na088. -/
def code_na088Code : IrCode :=
  ⟨38610, 38, code_na088Pairs, code_na088Sequence⟩

/-- Table of On-Time/Off-Time pairs of code_na089 (flat, as in the C array). -/
def code_na089Pairs : List Nat := [
  550, 570,
  550, 1700,
  550, 39490,
  550, 96230,
  560, 0,
  8980, 4530,
  9000, 2260
]
/-- Table of indices to On-Time/Off-Time pairs of code_na089. -/
def code_na089Sequence : List Nat := [
  5, 0, 0, 0, 1, 0, 0, 0, 0, 1, 1, 1, 0, 1, 1, 1, 1, 0, 1, 0, 0, 1, 0, 0, 0, 1, 0, 1, 1, 0, 1, 1, 1, 2, 6, 3, 6, 4
]
/-- POWER-Code table of code_na089. -/
def code_na089Code : IrCode :=
  ⟨38462, 38, code_na089Pairs, code_na089Sequence⟩

/-- Table of On-Time/Off-Time pairs of code_na090 (flat, as in the C array). -/
def code_na090Pairs : List Nat := [
  880, 900,
  880, 910,
  880, 1810,
  880, 89760,
  1770, 910,
  1770, 1810
]
/-- Table of indices to On-Time/Off-Time pairs of code_na090. -/
def code_na090Sequence : List Nat := [
  0, 4, 1, 2, 5, 4, 2, 1, 4, 3, 1, 4, 1, 2, 5, 4, 2, 1, 4, 0
]
/-- POWER-Code table of code_na090. -/
def code_na090Code : IrCode :=
  ⟨35714, 20, code_na090Pairs, code_na090Sequence⟩

/-- Table of On-Time/Off-Time pairs of code_na091 (flat, as in the C array). -/
def code_na091Pairs : List Nat := [
  480, 1000,
  480, 2000,
  480, 10500,
  4000, 4000
]
/-- Table of indices to On-Time/Off-Time pairs of code_na091. -/
def code_na091Sequence : List Nat := [
  3, 1, 1, 1, 1, 0, 0, 1, 1, 1, 0, 1, 1, 0, 0, 0, 0, 1, 1, 0, 0, 0, 1, 0, 0, 2, 3, 1, 1, 1, 1, 0, 0, 1, 1, 1, 0, 1, 1, 0, 0, 0, 0, 1, 1, 0, 0, 0, 1, 0, 0, 1
]
/-- POWER-Code table of code_na091. -/
def code_na091Code : IrCode :=
  ⟨58824, 52, code_na091Pairs, code_na091Sequence⟩

/-- Table of On-Time/Off-Time pairs of code_na092 (flat, as in the C array). -/
def code_na092Pairs : List Nat := [
  540, 560,
  540, 1700,
  540, 49270,
  4510, 4470
]
/-- Table of indices to On-Time/Off-Time pairs of code_na092. -/
def code_na092Sequence : List Nat := [
  3, 1, 0, 1, 0, 0, 0, 0, 0, 1, 0, 1, 0, 0, 0, 0, 0, 0, 1, 0, 0, 0, 0, 0, 0, 1, 0, 1, 1, 1, 1, 1, 1, 2, 3, 1, 0, 1, 0, 0, 0, 0, 0, 1, 0, 1, 0, 0, 0, 0, 0, 0, 1, 0, 0, 0, 0, 0, 0, 1, 0, 1, 1, 1, 1, 1, 1, 1
]
/-- POWER-Code table of code_na092. -/
def code_na092Code : IrCode :=
  ⟨38462, 68, code_na092Pairs, code_na092Sequence⟩

/-- Table of On-Time/Off-Time pairs of code_na093 (flat, as in the C array). -/
def code_na093Pairs : List Nat := [
  550, 570,
  550, 1670,
  550, 44000,
  8950, 4480,
  8970, 4470
]
/-- Table of indices to On-Time/Off-Time pairs of code_na093. -/
def code_na093Sequence : List Nat := [
  3, 0, 1, 1, 0, 0, 0, 0, 1, 0, 1, 0, 0, 0, 0, 0, 0, 1, 0, 0, 1, 0, 0, 1, 0, 0, 1, 1, 0, 1, 1, 0, 1, 2, 4, 0, 1, 1, 0, 0, 0, 0, 1, 0, 1, 0, 0, 0, 0, 0, 0, 1, 0, 0, 1, 0, 0, 1, 0, 0, 1, 1, 0, 1, 1, 0, 1, 0
]
/-- POWER-Code table of code_na093. -/
def code_na093Code : IrCode :=
  ⟨38462, 68, code_na093Pairs, code_na093Sequence⟩

/-- Table of On-Time/Off-Time pairs of code_na094 (flat, as in the C array). -/
def code_na094Pairs : List Nat := [
  880, 900,
  880, 910,
  880, 1810,
  880, 89760,
  1770, 910
]
/-- Table of indices to On-Time/Off-Time pairs of code_na094. -/
def code_na094Sequence : List Nat := [
  0, 4, 1, 1, 2, 1, 4, 2, 1, 4, 3, 1, 4, 1, 1, 2, 1, 4, 2, 1, 4, 0
]
/-- POWER-Code table of code_na094. -/
def code_na094Code : IrCode :=
  ⟨35714, 22, code_na094Pairs, code_na094Sequence⟩

/-- Table of On-Time/Off-Time pairs of code_na095 (flat, as in the C array). -/
def code_na095Pairs : List Nat := [
  560, 580,
  560, 1740,
  560, 45490,
  560, 94480,
  4400, 4460
]
/-- Table of indices to On-Time/Off-Time pairs of code_na095. -/
def code_na095Sequence : List Nat := [
  4, 0, 0, 0, 1, 0, 0, 0, 0, 0, 0, 0, 1, 0, 0, 0, 0, 1, 1, 0, 1, 0, 0, 0, 0, 0, 0, 1, 0, 1, 1, 1, 1, 2, 4, 1, 3, 4, 1, 0
]
/-- POWER-Code table of code_na095. -/
def code_na095Code : IrCode :=
  ⟨38462, 40, code_na095Pairs, code_na095Sequence⟩

/-- Table of On-Time/Off-Time pairs of code_na096 (flat, as in the C array). -/
def code_na096Pairs : List Nat := [
  530, 560,
  530, 1710,
  530, 39500,
  530, 95990,
  8980, 4510,
  9000, 2260
]
/-- Table of indices to On-Time/Off-Time pairs of code_na096. -/
def code_na096Sequence : List Nat := [
  4, 0, 1, 0, 0, 1, 0, 0, 0, 1, 1, 1, 1, 1, 1, 1, 1, 0, 1, 1, 1, 0, 0, 0, 0, 1, 0, 0, 0, 1, 1, 1, 1, 2, 5, 3, 5, 0
]
/-- POWER-Code table of code_na096. -/
def code_na096Code : IrCode :=
  ⟨38462, 38, code_na096Pairs, code_na096Sequence⟩

/-- Table of On-Time/Off-Time pairs of code_na097 (flat, as in the C array). -/
def code_na097Pairs : List Nat := [
  530, 560,
  530, 1710,
  530, 39500,
  530, 95990,
  8980, 4510,
  9000, 2260
]
/-- Table of indices to On-Time/Off-Time pairs of code_na097. -/
def code_na097Sequence : List Nat := [
  4, 1, 1, 0, 0, 0, 0, 0, 1, 1, 0, 1, 0, 1, 0, 1, 0, 0, 1, 0, 0, 0, 0, 1, 1, 1, 0, 1, 1, 1, 1, 0, 0, 2, 5, 3, 5, 1
]
/-- POWER-Code table of code_na097. -/
def code_na097Code : IrCode :=
  ⟨38462, 38, code_na097Pairs, code_na097Sequence⟩

/-- Table of On-Time/Off-Time pairs of code_na098 (flat, as in the C array). -/
def code_na098Pairs : List Nat := [
  550, 570,
  550, 1700,
  550, 39490,
  550, 96230,
  560, 0,
  8980, 4530,
  9000, 2260
]
/-- Table of indices to On-Time/Off-Time pairs of code_na098. -/
def code_na098Sequence : List Nat := [
  5, 0, 0, 0, 0, 0, 0, 0, 0, 1, 1, 1, 1, 1, 1, 1, 1, 1, 0, 0, 0, 1, 0, 1, 0, 0, 1, 1, 1, 0, 1, 0, 1, 2, 6, 3, 6, 4
]
/-- POWER-Code table of code_na098. -/
def code_na098Code : IrCode :=
  ⟨38462, 38, code_na098Pairs, code_na098Sequence⟩

/-- Table of On-Time/Off-Time pairs of code_na099 (flat, as in the C array). -/
def code_na099Pairs : List Nat := [
  530, 560,
  530, 1710,
  530, 39500,
  530, 95990,
  8980, 4510,
  9000, 2260
]
/-- Table of indices to On-Time/Off-Time pairs of code_na099. -/
def code_na099Sequence : List Nat := [
  4, 0, 0, 0, 0, 0, 0, 0, 0, 1, 0, 1, 1, 1, 1, 0, 1, 1, 0, 0, 0, 0, 0, 0, 0, 0, 1, 1, 1, 1, 1, 1, 1, 2, 5, 3, 5, 0
]
/-- POWER-Code table of code_na099. -/
def code_na099Code : IrCode :=
  ⟨38462, 38, code_na099Pairs, code_na099Sequence⟩

/-- Table of On-Time/Off-Time pairs of code_na100 (flat, as in the C array). -/
def code_na100Pairs : List Nat := [
  430, 1710,
  450, 600,
  450, 1700,
  540, 23010
]
/-- Table of indices to On-Time/Off-Time pairs of code_na100. -/
def code_na100Sequence : List Nat := [
  0, 2, 2, 1, 1, 1, 2, 1, 1, 2, 1, 1, 1, 1, 1, 1, 3, 2, 2, 2, 1, 1, 1, 2, 1, 1, 2, 1, 1, 1, 1, 1, 1, 3
]
/-- POWER-Code table of code_na100. -/
def code_na100Code : IrCode :=
  ⟨35842, 34, code_na100Pairs, code_na100Sequence⟩

/-- Table of On-Time/Off-Time pairs of code_na101 (flat, as in the C array). -/
def code_na101Pairs : List Nat := [
  550, 570,
  550, 1700,
  550, 39490,
  550, 96230,
  560, 0,
  8980, 4530,
  9000, 2260
]
/-- Table of indices to On-Time/Off-Time pairs of code_na101. -/
def code_na101Sequence : List Nat := [
  5, 0, 0, 0, 0, 0, 1, 1, 0, 1, 1, 1, 1, 1, 0, 0, 1, 0, 0, 0, 0, 0, 0, 0, 0, 1, 1, 1, 1, 1, 1, 1, 1, 2, 6, 3, 6, 4
]
/-- POWER-Code table of code_na101. -/
def code_na101Code : IrCode :=
  ⟨38462, 38, code_na101Pairs, code_na101Sequence⟩

/-- Table of On-Time/Off-Time pairs of code_na102 (flat, as in the C array). -/
def code_na102Pairs : List Nat := [
  860, 870,
  860, 2580,
  860, 33380,
  3460, 3480,
  3480, 3470
]
/-- Table of indices to On-Time/Off-Time pairs of code_na102. -/
def code_na102Sequence : List Nat := [
  3, 1, 0, 0, 1, 0, 1, 0, 0, 0, 0, 0, 1, 0, 1, 1, 0, 1, 0, 1, 1, 1, 1, 1, 0, 2, 4, 1, 0, 0, 1, 0, 1, 0, 0, 0, 0, 0, 1, 0, 1, 1, 0, 1, 0, 1, 1, 1, 1, 1, 0, 1
]
/-- POWER-Code table of code_na102. -/
def code_na102Code : IrCode :=
  ⟨40000, 52, code_na102Pairs, code_na102Sequence⟩

/-- Table of On-Time/Off-Time pairs of code_na103 (flat, as in the C array). -/
def code_na103Pairs : List Nat := [
  580, 530,
  580, 1670,
  580, 44940,
  580, 96790,
  4550, 4490,
  4560, 4490
]
/-- Table of indices to On-Time/Off-Time pairs of code_na103. -/
def code_na103Sequence : List Nat := [
  4, 0, 0, 0, 1, 0, 0, 0, 0, 0, 0, 0, 1, 0, 0, 0, 0, 1, 1, 1, 1, 0, 0, 0, 0, 0, 0, 0, 0, 1, 1, 1, 1, 2, 5, 1, 3, 5, 1, 0
]
/-- POWER-Code table of code_na103. -/
def code_na103Code : IrCode :=
  ⟨38462, 40, code_na103Pairs, code_na103Sequence⟩

/-- Table of On-Time/Off-Time pairs of code_na104 (flat, as in the C array). -/
def code_na104Pairs : List Nat := [
  560, 570,
  560, 1750,
  560, 41500,
  560, 94990,
  8980, 2270,
  8980, 4490
]
/-- Table of indices to On-Time/Off-Time pairs of code_na104. -/
def code_na104Sequence : List Nat := [
  5, 1, 0, 0, 0, 1, 1, 1, 0, 0, 1, 1, 1, 0, 0, 0, 1, 0, 0, 0, 1, 0, 0, 0, 0, 1, 1, 1, 0, 1, 1, 1, 1, 2, 4, 3, 4, 1
]
/-- POWER-Code table of code_na104. -/
def code_na104Code : IrCode :=
  ⟨40000, 38, code_na104Pairs, code_na104Sequence⟩

/-- Table of On-Time/Off-Time pairs of code_na105 (flat, as in the C array). -/
def code_na105Pairs : List Nat := [
  560, 570,
  560, 1750,
  560, 41500,
  560, 94990,
  8980, 2270,
  8980, 4490
]
/-- Table of indices to On-Time/Off-Time pairs of code_na105. -/
def code_na105Sequence : List Nat := [
  5, 1, 1, 0, 0, 0, 0, 0, 1, 0, 0, 1, 1, 1, 1, 1, 0, 1, 1, 1, 1, 1, 1, 1, 1, 0, 0, 0, 0, 0, 0, 0, 0, 2, 4, 3, 4, 1
]
/-- POWER-Code table of code_na105. -/
def code_na105Code : IrCode :=
  ⟨40000, 38, code_na105Pairs, code_na105Sequence⟩

/-- Table of On-Time/Off-Time pairs of code_na106 (flat, as in the C array). -/
def code_na106Pairs : List Nat := [
  510, 510,
  510, 1600,
  510, 40960,
  510, 95130,
  4310, 4360,
  8830, 2190
]
/-- Table of indices to On-Time/Off-Time pairs of code_na106. -/
def code_na106Sequence : List Nat := [
  4, 0, 0, 0, 1, 0, 0, 0, 0, 1, 1, 1, 0, 1, 1, 1, 1, 1, 1, 1, 1, 0, 0, 0, 0, 0, 0, 0, 0, 1, 1, 1, 1, 2, 5, 3, 5, 0
]
/-- POWER-Code table of code_na106. -/
def code_na106Code : IrCode :=
  ⟨40000, 38, code_na106Pairs, code_na106Sequence⟩

/-- Table of On-Time/Off-Time pairs of code_na107 (flat, as in the C array). -/
def code_na107Pairs : List Nat := [
  580, 530,
  580, 1670,
  580, 44940,
  580, 96790,
  4550, 4490,
  4560, 4490
]
/-- Table of indices to On-Time/Off-Time pairs of code_na107. -/
def code_na107Sequence : List Nat := [
  4, 0, 0, 0, 0, 0, 0, 0, 0, 0, 0, 0, 0, 0, 0, 0, 0, 1, 1, 1, 1, 0, 0, 0, 0, 0, 0, 0, 0, 1, 1, 1, 1, 2, 5, 1, 3, 5, 1, 0
]
/-- POWER-Code table of code_na107. -/
def code_na107Code : IrCode :=
  ⟨38462, 40, code_na107Pairs, code_na107Sequence⟩

/-- Table of On-Time/Off-Time pairs of code_na108 (flat, as in the C array). -/
def code_na108Pairs : List Nat := [
  580, 530,
  580, 1670,
  580, 44940,
  580, 96790,
  4550, 4490,
  4560, 4490
]
/-- Table of indices to On-Time/Off-Time pairs of code_na108. -/
def code_na108Sequence : List Nat := [
  4, 0, 1, 1, 0, 1, 0, 0, 0, 0, 1, 1, 0, 1, 0, 0, 0, 1, 1, 1, 1, 0, 0, 0, 0, 0, 0, 0, 0, 1, 1, 1, 1, 2, 5, 1, 3, 5, 1, 0
]
/-- POWER-Code table of code_na108. -/
def code_na108Code : IrCode :=
  ⟨38462, 40, code_na108Pairs, code_na108Sequence⟩

/-- Table of On-Time/Off-Time pairs of code_na109 (flat, as in the C array). -/
def code_na109Pairs : List Nat := [
  580, 610,
  580, 2110,
  580, 95820,
  730, 41640,
  8830, 2110,
  10500, 4940
]
/-- Table of indices to On-Time/Off-Time pairs of code_na109. -/
def code_na109Sequence : List Nat := [
  5, 0, 0, 0, 0, 0, 1, 0, 1, 1, 1, 1, 1, 1, 0, 1, 0, 0, 1, 0, 1, 0, 0, 0, 0, 1, 0, 1, 0, 1, 1, 1, 1, 3, 4, 2, 4, 0
]
/-- POWER-Code table of code_na109. -/
def code_na109Code : IrCode :=
  ⟨40000, 38, code_na109Pairs, code_na109Sequence⟩

/-- Table of On-Time/Off-Time pairs of code_na110 (flat, as in the C array). -/
def code_na110Pairs : List Nat := [
  560, 570,
  560, 1750,
  560, 41500,
  560, 94990,
  8980, 2270,
  8980, 4490
]
/-- Table of indices to On-Time/Off-Time pairs of code_na110. -/
def code_na110Sequence : List Nat := [
  5, 1, 1, 0, 0, 0, 0, 0, 1, 0, 0, 1, 1, 1, 1, 1, 0, 0, 0, 0, 1, 0, 0, 0, 0, 1, 1, 1, 0, 1, 1, 1, 1, 2, 4, 3, 4, 1
]
/-- POWER-Code table of code_na110. -/
def code_na110Code : IrCode :=
  ⟨40161, 38, code_na110Pairs, code_na110Sequence⟩

/-- Table of On-Time/Off-Time pairs of code_na111 (flat, as in the C array). -/
def code_na111Pairs : List Nat := [
  510, 510,
  510, 1600,
  510, 40960,
  510, 95130,
  4310, 4360,
  8830, 2190
]
/-- Table of indices to On-Time/Off-Time pairs of code_na111. -/
def code_na111Sequence : List Nat := [
  4, 1, 1, 1, 1, 1, 1, 1, 1, 0, 0, 0, 0, 0, 0, 0, 0, 1, 1, 1, 1, 0, 0, 0, 0, 0, 0, 0, 0, 1, 1, 1, 1, 2, 5, 3, 5, 1
]
/-- POWER-Code table of code_na111. -/
def code_na111Code : IrCode :=
  ⟨40000, 38, code_na111Pairs, code_na111Sequence⟩

/-- Table of On-Time/Off-Time pairs of code_na112 (flat, as in the C array). -/
def code_na112Pairs : List Nat := [
  550, 570,
  550, 1700,
  550, 39490,
  550, 96230,
  560, 0,
  8980, 4530,
  9000, 2260
]
/-- Table of indices to On-Time/Off-Time pairs of code_na112. -/
def code_na112Sequence : List Nat := [
  5, 1, 0, 0, 0, 0, 0, 0, 0, 0, 1, 1, 1, 1, 1, 1, 1, 1, 0, 0, 0, 0, 0, 0, 0, 0, 1, 1, 1, 1, 1, 1, 1, 2, 6, 3, 6, 4
]
/-- POWER-Code table of code_na112. -/
def code_na112Code : IrCode :=
  ⟨38462, 38, code_na112Pairs, code_na112Sequence⟩

/-- Table of On-Time/Off-Time pairs of code_na113 (flat, as in the C array). -/
def code_na113Pairs : List Nat := [
  560, 540,
  560, 1660,
  560, 39450,
  8960, 4420,
  8960, 4430
]
/-- Table of indices to On-Time/Off-Time pairs of code_na113. -/
def code_na113Sequence : List Nat := [
  3, 0, 0, 0, 0, 0, 0, 0, 1, 0, 0, 0, 1, 0, 1, 1, 0, 1, 0, 0, 1, 0, 0, 1, 0, 0, 1, 1, 0, 1, 1, 0, 1, 2, 4, 0, 0, 0, 0, 0, 0, 0, 1, 0, 0, 0, 1, 0, 1, 1, 0, 1, 0, 0, 1, 0, 0, 1, 0, 0, 1, 1, 0, 1, 1, 0, 1, 0
]
/-- POWER-Code table of code_na113. -/
def code_na113Code : IrCode :=
  ⟨40000, 68, code_na113Pairs, code_na113Sequence⟩

/-- Table of On-Time/Off-Time pairs of code_na114 (flat, as in the C array). -/
def code_na114Pairs : List Nat := [
  440, 500,
  440, 1470,
  440, 4470,
  440, 22360,
  7910, 3980,
  7930, 3970
]
/-- Table of indices to On-Time/Off-Time pairs of code_na114. -/
def code_na114Sequence : List Nat := [
  4, 1, 0, 1, 0, 1, 0, 0, 0, 2, 1, 0, 1, 0, 1, 0, 0, 0, 3, 5, 1, 0, 1, 0, 1, 0, 0, 0, 2, 1, 0, 1, 0, 1, 0, 0, 0, 1
]
/-- POWER-Code table of code_na114. -/
def code_na114Code : IrCode :=
  ⟨40000, 38, code_na114Pairs, code_na114Sequence⟩

/-- Table of On-Time/Off-Time pairs of code_na115 (flat, as in the C array). -/
def code_na115Pairs : List Nat := [
  810, 860,
  810, 2960,
  810, 33490,
  3280, 3310,
  3290, 3310
]
/-- Table of indices to On-Time/Off-Time pairs of code_na115. -/
def code_na115Sequence : List Nat := [
  3, 0, 1, 0, 1, 0, 0, 0, 1, 0, 1, 0, 0, 1, 0, 1, 0, 1, 1, 1, 0, 1, 0, 1, 1, 2, 4, 0, 1, 0, 1, 0, 0, 0, 1, 0, 1, 0, 0, 1, 0, 1, 0, 1, 1, 1, 0, 1, 0, 1, 1, 0
]
/-- POWER-Code table of code_na115. -/
def code_na115Code : IrCode :=
  ⟨40000, 52, code_na115Pairs, code_na115Sequence⟩

/-- Table of On-Time/Off-Time pairs of code_na116 (flat, as in the C array). -/
def code_na116Pairs : List Nat := [
  560, 570,
  560, 1750,
  560, 41500,
  560, 94990,
  8980, 2270,
  8980, 4490
]
/-- Table of indices to On-Time/Off-Time pairs of code_na116. -/
def code_na116Sequence : List Nat := [
  5, 0, 0, 0, 0, 1, 0, 0, 0, 1, 1, 1, 1, 0, 1, 1, 1, 1, 0, 0, 0, 1, 0, 0, 0, 0, 1, 1, 1, 0, 1, 1, 1, 2, 4, 3, 4, 0
]
/-- POWER-Code table of code_na116. -/
def code_na116Code : IrCode :=
  ⟨40000, 38, code_na116Pairs, code_na116Sequence⟩

/-- Table of On-Time/Off-Time pairs of code_na117 (flat, as in the C array). -/
def code_na117Pairs : List Nat := [
  490, 540,
  490, 1580,
  490, 4200,
  490, 24460,
  8190, 4200,
  8210, 4190
]
/-- Table of indices to On-Time/Off-Time pairs of code_na117. -/
def code_na117Sequence : List Nat := [
  4, 1, 0, 0, 0, 0, 0, 0, 0, 2, 0, 1, 1, 1, 0, 0, 0, 0, 3, 5, 1, 0, 0, 0, 0, 0, 0, 0, 2, 0, 1, 1, 1, 0, 0, 0, 0, 1
]
/-- POWER-Code table of code_na117. -/
def code_na117Code : IrCode :=
  ⟨41667, 38, code_na117Pairs, code_na117Sequence⟩

/-- Table of On-Time/Off-Time pairs of code_na118 (flat, as in the C array). -/
def code_na118Pairs : List Nat := [
  510, 510,
  510, 1600,
  510, 40960,
  510, 95130,
  4310, 4360,
  8830, 2190
]
/-- Table of indices to On-Time/Off-Time pairs of code_na118. -/
def code_na118Sequence : List Nat := [
  4, 1, 1, 1, 0, 1, 1, 1, 1, 0, 0, 0, 1, 0, 0, 0, 0, 1, 1, 1, 1, 0, 0, 0, 0, 0, 0, 0, 0, 1, 1, 1, 1, 2, 5, 3, 5, 1
]
/-- POWER-Code table of code_na118. -/
def code_na118Code : IrCode :=
  ⟨40000, 38, code_na118Pairs, code_na118Sequence⟩

/-- Table of On-Time/Off-Time pairs of code_na119 (flat, as in the C array). -/
def code_na119Pairs : List Nat := [
  550, 630,
  550, 1710,
  550, 40940,
  550, 95080,
  8810, 2190,
  8810, 4380
]
/-- Table of indices to On-Time/Off-Time pairs of code_na119. -/
def code_na119Sequence : List Nat := [
  5, 0, 0, 1, 0, 0, 0, 0, 0, 1, 1, 0, 1, 1, 1, 1, 1, 0, 0, 0, 1, 0, 0, 0, 0, 1, 1, 1, 0, 1, 1, 1, 1, 2, 4, 3, 4, 0
]
/-- POWER-Code table of code_na119. -/
def code_na119Code : IrCode :=
  ⟨55556, 38, code_na119Pairs, code_na119Sequence⟩

/-- Table of On-Time/Off-Time pairs of code_na120 (flat, as in the C array). -/
def code_na120Pairs : List Nat := [
  560, 570,
  560, 1750,
  560, 41500,
  560, 94990,
  8980, 2270,
  8980, 4490
]
/-- Table of indices to On-Time/Off-Time pairs of code_na120. -/
def code_na120Sequence : List Nat := [
  5, 0, 0, 1, 1, 0, 0, 0, 0, 1, 1, 0, 0, 1, 1, 1, 1, 1, 1, 1, 1, 1, 0, 0, 0, 0, 0, 0, 0, 0, 1, 1, 1, 2, 4, 3, 4, 0
]
/-- POWER-Code table of code_na120. -/
def code_na120Code : IrCode :=
  ⟨40000, 38, code_na120Pairs, code_na120Sequence⟩

/-- Table of On-Time/Off-Time pairs of code_na121 (flat, as in the C array). -/
def code_na121Pairs : List Nat := [
  560, 570,
  560, 1750,
  560, 41500,
  560, 94990,
  8980, 2270,
  8980, 4490
]
/-- Table of indices to On-Time/Off-Time pairs of code_na121. -/
def code_na121Sequence : List Nat := [
  5, 0, 0, 0, 0, 1, 0, 0, 0, 1, 1, 1, 1, 0, 1, 1, 1, 0, 0, 0, 1, 0, 0, 0, 0, 1, 1, 1, 0, 1, 1, 1, 1, 2, 4, 3, 4, 0
]
/-- POWER-Code table of code_na121. -/
def code_na121Code : IrCode :=
  ⟨40000, 38, code_na121Pairs, code_na121Sequence⟩

/-- Table of On-Time/Off-Time pairs of code_na122 (flat, as in the C array). -/
def code_na122Pairs : List Nat := [
  800, 950,
  800, 2490,
  800, 38670,
  810, 0,
  3290, 3220
]
/-- Table of indices to On-Time/Off-Time pairs of code_na122. -/
def code_na122Sequence : List Nat := [
  4, 0, 0, 0, 0, 0, 0, 0, 0, 0, 0, 1, 1, 1, 1, 1, 1, 1, 1, 1, 0, 0, 1, 2, 4, 0, 0, 0, 0, 0, 0, 0, 0, 0, 0, 1, 1, 1, 1, 1, 1, 1, 1, 1, 0, 0, 1, 3
]
/-- POWER-Code table of code_na122. -/
def code_na122Code : IrCode :=
  ⟨52632, 48, code_na122Pairs, code_na122Sequence⟩

/-- Table of On-Time/Off-Time pairs of code_na123 (flat, as in the C array). -/
def code_na123Pairs : List Nat := [
  560, 570,
  560, 1750,
  560, 41500,
  560, 94990,
  8980, 2270,
  8980, 4490
]
/-- Table of indices to On-Time/Off-Time pairs of code_na123. -/
def code_na123Sequence : List Nat := [
  5, 0, 0, 0, 1, 1, 1, 0, 0, 1, 1, 1, 0, 0, 0, 1, 1, 0, 0, 1, 1, 1, 0, 0, 0, 1, 1, 0, 0, 0, 1, 1, 1, 2, 4, 3, 4, 0
]
/-- POWER-Code table of code_na123. -/
def code_na123Code : IrCode :=
  ⟨40000, 38, code_na123Pairs, code_na123Sequence⟩

/-- Table of On-Time/Off-Time pairs of code_na124 (flat, as in the C array). -/
def code_na124Pairs : List Nat := [
  540, 560,
  540, 1510,
  540, 40920,
  540, 86770,
  9000, 4210,
  9010, 2260
]
/-- Table of indices to On-Time/Off-Time pairs of code_na124. -/
def code_na124Sequence : List Nat := [
  4, 0, 0, 0, 0, 1, 1, 0, 0, 1, 1, 1, 1, 0, 0, 1, 1, 0, 0, 0, 0, 0, 0, 0, 0, 1, 1, 1, 1, 1, 1, 1, 1, 2, 5, 3, 5, 0
]
/-- POWER-Code table of code_na124. -/
def code_na124Code : IrCode :=
  ⟨40000, 38, code_na124Pairs, code_na124Sequence⟩

/-- Table of On-Time/Off-Time pairs of code_na125 (flat, as in the C array). -/
def code_na125Pairs : List Nat := [
  550, 630,
  550, 1710,
  550, 40940,
  550, 95080,
  8810, 2190,
  8810, 4380
]
/-- Table of indices to On-Time/Off-Time pairs of code_na125. -/
def code_na125Sequence : List Nat := [
  5, 0, 0, 0, 1, 1, 1, 0, 0, 1, 1, 1, 0, 0, 0, 1, 1, 0, 1, 0, 0, 1, 0, 0, 0, 1, 0, 1, 1, 0, 1, 1, 1, 2, 4, 3, 4, 0
]
/-- POWER-Code table of code_na125. -/
def code_na125Code : IrCode :=
  ⟨55556, 38, code_na125Pairs, code_na125Sequence⟩

/-- Table of On-Time/Off-Time pairs of code_na126 (flat, as in the C array). -/
def code_na126Pairs : List Nat := [
  560, 570,
  560, 1750,
  560, 41500,
  560, 94990,
  8980, 2270,
  8980, 4490
]
/-- Table of indices to On-Time/Off-Time pairs of code_na126. -/
def code_na126Sequence : List Nat := [
  5, 1, 0, 1, 0, 0, 0, 0, 1, 0, 1, 0, 1, 1, 1, 1, 0, 0, 0, 0, 1, 0, 0, 0, 0, 1, 1, 1, 0, 1, 1, 1, 1, 2, 4, 3, 4, 1
]
/-- POWER-Code table of code_na126. -/
def code_na126Code : IrCode :=
  ⟨40000, 38, code_na126Pairs, code_na126Sequence⟩

/-- Table of On-Time/Off-Time pairs of code_na127 (flat, as in the C array). -/
def code_na127Pairs : List Nat := [
  1140, 1000,
  1150, 1000,
  1150, 2000,
  1150, 27060
]
/-- Table of indices to On-Time/Off-Time pairs of code_na127. -/
def code_na127Sequence : List Nat := [
  0, 1, 2, 3, 1, 1, 2, 1
]
/-- POWER-Code table of code_na127. -/
def code_na127Code : IrCode :=
  ⟨25641, 8, code_na127Pairs, code_na127Sequence⟩

/-- Table of On-Time/Off-Time pairs of code_na128 (flat, as in the C array). -/
def code_na128Pairs : List Nat := [
  860, 870,
  860, 2580,
  860, 33380,
  3460, 3480,
  3480, 3470
]
/-- Table of indices to On-Time/Off-Time pairs of code_na128. -/
def code_na128Sequence : List Nat := [
  3, 0, 0, 0, 1, 0, 1, 0, 0, 0, 0, 0, 1, 1, 1, 1, 0, 1, 0, 1, 1, 1, 1, 1, 0, 2, 4, 0, 0, 0, 1, 0, 1, 0, 0, 0, 0, 0, 1, 1, 1, 1, 0, 1, 0, 1, 1, 1, 1, 1, 0, 0
]
/-- POWER-Code table of code_na128. -/
def code_na128Code : IrCode :=
  ⟨40000, 52, code_na128Pairs, code_na128Sequence⟩

/-- Table of On-Time/Off-Time pairs of code_na129 (flat, as in the C array). -/
def code_na129Pairs : List Nat := [
  560, 570,
  560, 1750,
  560, 41500,
  560, 94990,
  8980, 2270,
  8980, 4490
]
/-- Table of indices to On-Time/Off-Time pairs of code_na129. -/
def code_na129Sequence : List Nat := [
  5, 1, 1, 1, 1, 1, 1, 1, 1, 0, 0, 0, 0, 0, 0, 0, 0, 0, 0, 0, 1, 0, 0, 0, 0, 1, 1, 1, 0, 1, 1, 1, 1, 2, 4, 3, 4, 1
]
/-- POWER-Code table of code_na129. -/
def code_na129Code : IrCode :=
  ⟨40000, 38, code_na129Pairs, code_na129Sequence⟩

/-- Table of On-Time/Off-Time pairs of code_na130 (flat, as in the C array). -/
def code_na130Pairs : List Nat := [
  880, 900,
  880, 2580,
  880, 22470,
  3580, 3490,
  3580, 3500
]
/-- Table of indices to On-Time/Off-Time pairs of code_na130. -/
def code_na130Sequence : List Nat := [
  3, 1, 0, 0, 0, 0, 1, 0, 1, 1, 1, 0, 1, 0, 1, 1, 1, 1, 0, 1, 0, 0, 0, 1, 0, 2, 4, 1, 0, 0, 0, 0, 1, 0, 1, 1, 1, 0, 1, 0, 1, 1, 1, 1, 0, 1, 0, 0, 0, 1, 0, 1
]
/-- POWER-Code table of code_na130. -/
def code_na130Code : IrCode :=
  ⟨37037, 52, code_na130Pairs, code_na130Sequence⟩

/-- Table of On-Time/Off-Time pairs of code_na131 (flat, as in the C array). -/
def code_na131Pairs : List Nat := [
  540, 650,
  540, 1700,
  540, 40990,
  540, 86680,
  8990, 2260,
  8990, 4210
]
/-- Table of indices to On-Time/Off-Time pairs of code_na131. -/
def code_na131Sequence : List Nat := [
  5, 0, 0, 1, 0, 1, 0, 0, 0, 1, 1, 0, 1, 0, 1, 1, 1, 1, 1, 0, 1, 1, 0, 0, 0, 0, 0, 1, 0, 0, 1, 1, 1, 2, 4, 3, 4, 0
]
/-- POWER-Code table of code_na131. -/
def code_na131Code : IrCode :=
  ⟨40000, 38, code_na131Pairs, code_na131Sequence⟩

/-- Table of On-Time/Off-Time pairs of code_na132 (flat, as in the C array). -/
def code_na132Pairs : List Nat := [
  280, 1060,
  280, 2380,
  280, 3700,
  280, 11730
]
/-- Table of indices to On-Time/Off-Time pairs of code_na132. -/
def code_na132Sequence : List Nat := [
  0, 2, 0, 2, 0, 2, 0, 0, 0, 0, 0, 0, 0, 1, 1, 3, 0, 2, 0, 2, 0, 2, 0, 0, 0, 0, 0, 0, 0, 1, 1, 0
]
/-- POWER-Code table of code_na132. -/
def code_na132Code : IrCode :=
  ⟨83333, 32, code_na132Pairs, code_na132Sequence⟩

/-- Table of On-Time/Off-Time pairs of code_na133 (flat, as in the C array). -/
def code_na133Pairs : List Nat := [
  130, 7410,
  150, 4890,
  150, 7400,
  170, 46410,
  180, 0
]
/-- Table of indices to On-Time/Off-Time pairs of code_na133. -/
def code_na133Sequence : List Nat := [
  0, 2, 2, 2, 2, 1, 1, 1, 2, 2, 1, 3, 2, 2, 2, 2, 2, 1, 1, 1, 2, 2, 1, 4
]
/-- POWER-Code table of code_na133. -/
def code_na133Code : IrCode :=
  ⟨41667, 24, code_na133Pairs, code_na133Sequence⟩

/-- Table of On-Time/Off-Time pairs of code_na134 (flat, as in the C array). -/
def code_na134Pairs : List Nat := [
  560, 540,
  560, 1660,
  560, 39450,
  8960, 4420,
  8960, 4430
]
/-- Table of indices to On-Time/Off-Time pairs of code_na134. -/
def code_na134Sequence : List Nat := [
  3, 0, 1, 1, 0, 0, 0, 0, 1, 1, 0, 1, 0, 0, 0, 0, 0, 1, 1, 1, 1, 0, 0, 0, 0, 0, 0, 0, 0, 1, 1, 1, 1, 2, 4, 0, 1, 1, 0, 0, 0, 0, 1, 1, 0, 1, 0, 0, 0, 0, 0, 1, 1, 1, 1, 0, 0, 0, 0, 0, 0, 0, 0, 1, 1, 1, 1, 0
]
/-- POWER-Code table of code_na134. -/
def code_na134Code : IrCode :=
  ⟨40000, 68, code_na134Pairs, code_na134Sequence⟩

/-- Table of On-Time/Off-Time pairs of code_na135 (flat, as in the C array). -/
def code_na135Pairs : List Nat := [
  530, 590,
  530, 1710,
  530, 23010,
  8920, 4500,
  8950, 4480
]
/-- Table of indices to On-Time/Off-Time pairs of code_na135. -/
def code_na135Sequence : List Nat := [
  3, 0, 0, 1, 1, 1, 1, 1, 0, 0, 0, 0, 0, 0, 1, 1, 0, 0, 0, 0, 0, 1, 1, 1, 1, 1, 1, 0, 0, 0, 0, 0, 0, 0, 0, 1, 1, 1, 1, 1, 1, 1, 1, 2, 4, 0, 0, 1, 1, 1, 1, 1, 0, 0, 0, 0, 0, 0, 1, 1, 0, 0, 0, 0, 0, 1, 1, 1, 1, 1, 1, 0, 0, 0, 0, 0, 0, 0, 0, 1, 1, 1, 1, 1, 1, 1, 1, 0
]
/-- POWER-Code table of code_na135. -/
def code_na135Code : IrCode :=
  ⟨38462, 88, code_na135Pairs, code_na135Sequence⟩

/-- Table of On-Time/Off-Time pairs of code_na136 (flat, as in the C array). -/
def code_na136Pairs : List Nat := [
  530, 590,
  530, 1710,
  530, 23010,
  550, 0,
  8920, 4500,
  8950, 4480
]
/-- Table of indices to On-Time/Off-Time pairs of code_na136. -/
def code_na136Sequence : List Nat := [
  4, 1, 1, 0, 1, 1, 1, 1, 0, 0, 0, 0, 0, 0, 0, 0, 1, 0, 0, 0, 0, 1, 1, 1, 1, 1, 1, 0, 0, 0, 0, 0, 0, 0, 0, 1, 1, 1, 1, 1, 1, 1, 1, 2, 5, 1, 1, 0, 1, 1, 1, 1, 0, 0, 0, 0, 0, 0, 0, 0, 1, 0, 0, 0, 0, 1, 1, 1, 1, 1, 1, 0, 0, 0, 0, 0, 0, 0, 0, 1, 1, 1, 1, 1, 1, 1, 1, 3
]
/-- POWER-Code table of code_na136. -/
def code_na136Code : IrCode :=
  ⟨38610, 88, code_na136Pairs, code_na136Sequence⟩

/-- Table of On-Time/Off-Time pairs of code_eu000 (flat, as in the C array). -/
def code_eu000Pairs : List Nat := [
  430, 470,
  430, 910,
  430, 83240,
  880, 470,
  1330, 1330,
  2640, 900,
  2640, 910
]
/-- Table of indices to On-Time/Off-Time pairs of code_eu000. -/
def code_eu000Sequence : List Nat := [
  5, 1, 0, 0, 4, 0, 0, 0, 0, 0, 0, 0, 0, 0, 0, 0, 3, 1, 0, 2, 6, 1, 0, 0, 4, 0, 0, 0, 0, 0, 0, 0, 0, 0, 0, 0, 3, 1, 0, 1
]
/-- POWER-Code table of code_eu000. -/
def code_eu000Code : IrCode :=
  ⟨35714, 40, code_eu000Pairs, code_eu000Sequence⟩

/-- Table of On-Time/Off-Time pairs of code_eu001 (flat, as in the C array). -/
def code_eu001Pairs : List Nat := [
  470, 2650,
  510, 540,
  510, 1080,
  510, 2630,
  510, 20530,
  510, 116470,
  1000, 1090
]
/-- Table of indices to On-Time/Off-Time pairs of code_eu001. -/
def code_eu001Sequence : List Nat := [
  0, 1, 1, 1, 1, 1, 1, 1, 1, 1, 4, 3, 2, 6, 1, 1, 1, 1, 1, 1, 5, 3, 2, 6, 1, 1, 1, 1, 1, 1, 1
]
/-- POWER-Code table of code_eu001. -/
def code_eu001Code : IrCode :=
  ⟨30303, 31, code_eu001Pairs, code_eu001Sequence⟩

/-- Table of On-Time/Off-Time pairs of code_eu002 (flat, as in the C array). -/
def code_eu002Pairs : List Nat := [
  430, 2060,
  460, 2040,
  460, 4560,
  460, 34880
]
/-- Table of indices to On-Time/Off-Time pairs of code_eu002. -/
def code_eu002Sequence : List Nat := [
  0, 1, 2, 2, 1, 1, 1, 2, 2, 2, 1, 2, 3, 1, 1, 2, 2, 1, 1, 1, 2, 2, 2, 1, 2, 1
]
/-- POWER-Code table of code_eu002. -/
def code_eu002Code : IrCode :=
  ⟨33333, 26, code_eu002Pairs, code_eu002Sequence⟩

/-- Table of On-Time/Off-Time pairs of code_eu003 (flat, as in the C array). -/
def code_eu003Pairs : List Nat := [
  580, 600,
  580, 26870,
  1180, 600,
  2370, 600,
  2380, 600
]
/-- Table of indices to On-Time/Off-Time pairs of code_eu003. -/
def code_eu003Sequence : List Nat := [
  3, 2, 0, 2, 0, 2, 0, 0, 2, 0, 0, 0, 1, 4, 2, 0, 2, 0, 2, 0, 0, 2, 0, 0, 0, 0
]
/-- POWER-Code table of code_eu003. -/
def code_eu003Code : IrCode :=
  ⟨38462, 26, code_eu003Pairs, code_eu003Sequence⟩

/-- Table of On-Time/Off-Time pairs of code_eu004 (flat, as in the C array). -/
def code_eu004Pairs : List Nat := [
  440, 450,
  440, 1310,
  440, 74620,
  3460, 1760,
  3460, 1780
]
/-- Table of indices to On-Time/Off-Time pairs of code_eu004. -/
def code_eu004Sequence : List Nat := [
  3, 0, 1, 0, 0, 0, 0, 0, 0, 0, 0, 0, 0, 0, 1, 0, 0, 0, 0, 0, 0, 0, 0, 0, 1, 0, 0, 0, 0, 0, 0, 0, 0, 1, 0, 1, 1, 1, 1, 0, 0, 1, 0, 1, 1, 1, 1, 0, 1, 2, 4, 0, 1, 0, 0, 0, 0, 0, 0, 0, 0, 0, 0, 0, 1, 0, 0, 0, 0, 0, 0, 0, 0, 0, 1, 0, 0, 0, 0, 0, 0, 0, 0, 1, 0, 1, 1, 1, 1, 0, 0, 1, 0, 1, 1, 1, 1, 0, 1, 0
]
/-- POWER-Code table of code_eu004. -/
def code_eu004Code : IrCode :=
  ⟨37037, 100, code_eu004Pairs, code_eu004Sequence⟩

/-- Table of On-Time/Off-Time pairs of code_eu005 (flat, as in the C array). -/
def code_eu005Pairs : List Nat := [
  240, 1900,
  250, 800,
  250, 1900,
  250, 41990,
  250, 47990
]
/-- Table of indices to On-Time/Off-Time pairs of code_eu005. -/
def code_eu005Sequence : List Nat := [
  0, 1, 1, 1, 1, 1, 2, 2, 1, 2, 1, 1, 1, 2, 1, 4, 2, 1, 1, 1, 1, 2, 1, 1, 2, 1, 2, 2, 2, 1, 2, 3, 2, 1, 1, 1, 1, 1, 2, 2, 1, 2, 1, 1, 1, 2, 1, 4, 2, 1, 1, 1, 1, 2, 1, 1, 2, 1, 2, 2, 2, 1, 2, 1
]
/-- POWER-Code table of code_eu005. -/
def code_eu005Code : IrCode :=
  ⟨38610, 64, code_eu005Pairs, code_eu005Sequence⟩

/-- Table of On-Time/Off-Time pairs of code_eu006 (flat, as in the C array). -/
def code_eu006Pairs : List Nat := [
  530, 630,
  530, 1720,
  530, 44720,
  540, 0,
  4550, 4680
]
/-- Table of indices to On-Time/Off-Time pairs of code_eu006. -/
def code_eu006Sequence : List Nat := [
  4, 1, 1, 1, 0, 0, 0, 0, 0, 1, 1, 1, 0, 0, 0, 0, 0, 0, 1, 0, 0, 0, 0, 0, 0, 1, 0, 1, 1, 1, 1, 1, 1, 2, 4, 1, 1, 1, 0, 0, 0, 0, 0, 1, 1, 1, 0, 0, 0, 0, 0, 0, 1, 0, 0, 0, 0, 0, 0, 1, 0, 1, 1, 1, 1, 1, 1, 3
]
/-- POWER-Code table of code_eu006. -/
def code_eu006Code : IrCode :=
  ⟨38462, 68, code_eu006Pairs, code_eu006Sequence⟩

/-- Table of On-Time/Off-Time pairs of code_eu007 (flat, as in the C array). -/
def code_eu007Pairs : List Nat := [
  500, 540,
  500, 1590,
  500, 23070,
  8380, 4220
]
/-- Table of indices to On-Time/Off-Time pairs of code_eu007. -/
def code_eu007Sequence : List Nat := [
  3, 1, 1, 0, 0, 0, 0, 0, 0, 1, 1, 1, 0, 1, 0, 0, 0, 2, 1, 1, 0, 0, 0, 0, 0, 0, 1, 1, 1, 0, 1, 0, 0, 0, 2, 1, 1, 0, 0, 0, 0, 0, 0, 1, 1, 1, 0, 1, 0, 0, 0, 1
]
/-- POWER-Code table of code_eu007. -/
def code_eu007Code : IrCode :=
  ⟨38462, 52, code_eu007Pairs, code_eu007Sequence⟩

/-- Table of On-Time/Off-Time pairs of code_eu008 (flat, as in the C array). -/
def code_eu008Pairs : List Nat := [
  550, 570,
  550, 1700,
  550, 39490,
  550, 96230,
  560, 0,
  8980, 4530,
  9000, 2260
]
/-- Table of indices to On-Time/Off-Time pairs of code_eu008. -/
def code_eu008Sequence : List Nat := [
  5, 0, 0, 0, 0, 1, 0, 1, 0, 1, 1, 1, 1, 0, 1, 0, 1, 1, 1, 1, 0, 1, 0, 0, 0, 0, 0, 0, 1, 0, 1, 1, 1, 2, 6, 3, 6, 4
]
/-- POWER-Code table of code_eu008. -/
def code_eu008Code : IrCode :=
  ⟨38462, 38, code_eu008Pairs, code_eu008Sequence⟩

/-- Table of On-Time/Off-Time pairs of code_eu009 (flat, as in the C array). -/
def code_eu009Pairs : List Nat := [
  880, 900,
  880, 910,
  880, 1810,
  880, 89760,
  1770, 910
]
/-- Table of indices to On-Time/Off-Time pairs of code_eu009. -/
def code_eu009Sequence : List Nat := [
  0, 4, 1, 1, 1, 1, 1, 1, 2, 1, 4, 3, 1, 4, 1, 1, 1, 1, 1, 1, 2, 1, 4, 0
]
/-- POWER-Code table of code_eu009. -/
def code_eu009Code : IrCode :=
  ⟨35714, 24, code_eu009Pairs, code_eu009Sequence⟩

/-- Table of On-Time/Off-Time pairs of code_eu010 (flat, as in the C array). -/
def code_eu010Pairs : List Nat := [
  550, 570,
  550, 1700,
  550, 39490,
  550, 96230,
  560, 0,
  8980, 4530,
  9000, 2260
]
/-- Table of indices to On-Time/Off-Time pairs of code_eu010. -/
def code_eu010Sequence : List Nat := [
  5, 0, 0, 0, 0, 0, 0, 1, 0, 1, 1, 1, 1, 1, 1, 0, 1, 0, 1, 0, 0, 1, 0, 0, 0, 1, 0, 1, 1, 0, 1, 1, 1, 2, 6, 3, 6, 4
]
/-- POWER-Code table of code_eu010. -/
def code_eu010Code : IrCode :=
  ⟨38462, 38, code_eu010Pairs, code_eu010Sequence⟩

/-- Table of On-Time/Off-Time pairs of code_eu011 (flat, as in the C array). -/
def code_eu011Pairs : List Nat := [
  530, 560,
  530, 1710,
  530, 39500,
  530, 95990,
  8980, 4510,
  9000, 2260
]
/-- Table of indices to On-Time/Off-Time pairs of code_eu011. -/
def code_eu011Sequence : List Nat := [
  4, 1, 0, 0, 0, 1, 1, 0, 0, 1, 0, 0, 1, 0, 0, 1, 0, 1, 1, 0, 0, 0, 1, 1, 0, 0, 0, 1, 1, 1, 0, 0, 1, 2, 5, 3, 5, 1
]
/-- POWER-Code table of code_eu011. -/
def code_eu011Code : IrCode :=
  ⟨38462, 38, code_eu011Pairs, code_eu011Sequence⟩

/-- Table of On-Time/Off-Time pairs of code_eu012 (flat, as in the C array). -/
def code_eu012Pairs : List Nat := [
  460, 2060,
  460, 4590,
  460, 34470
]
/-- Table of indices to On-Time/Off-Time pairs of code_eu012. -/
def code_eu012Sequence : List Nat := [
  0, 0, 1, 1, 0, 0, 0, 1, 1, 1, 0, 1, 2, 0, 0, 1, 1, 0, 0, 0, 1, 1, 1, 0, 1, 0
]
/-- POWER-Code table of code_eu012. -/
def code_eu012Code : IrCode :=
  ⟨33445, 26, code_eu012Pairs, code_eu012Sequence⟩

/-- Table of On-Time/Off-Time pairs of code_eu013 (flat, as in the C array). -/
def code_eu013Pairs : List Nat := [
  530, 590,
  530, 1710,
  530, 23020,
  8950, 4490
]
/-- Table of indices to On-Time/Off-Time pairs of code_eu013. -/
def code_eu013Sequence : List Nat := [
  3, 1, 1, 0, 1, 1, 1, 1, 0, 0, 0, 0, 0, 0, 0, 0, 1, 0, 0, 0, 0, 1, 1, 1, 1, 1, 1, 0, 0, 0, 0, 0, 0, 0, 0, 1, 1, 1, 1, 1, 1, 1, 1, 2, 3, 1, 1, 0, 1, 1, 1, 1, 0, 0, 0, 0, 0, 0, 0, 0, 1, 0, 0, 0, 0, 1, 1, 1, 1, 1, 1, 0, 0, 0, 0, 0, 0, 0, 0, 1, 1, 1, 1, 1, 1, 1, 1, 1
]
/-- POWER-Code table of code_eu013. -/
def code_eu013Code : IrCode :=
  ⟨38462, 88, code_eu013Pairs, code_eu013Sequence⟩

/-- Table of On-Time/Off-Time pairs of code_eu014 (flat, as in the C array). -/
def code_eu014Pairs : List Nat := [
  480, 520,
  480, 1600,
  480, 4000,
  480, 23350,
  7990, 4000
]
/-- Table of indices to On-Time/Off-Time pairs of code_eu014. -/
def code_eu014Sequence : List Nat := [
  4, 0, 0, 1, 0, 1, 0, 0, 0, 2, 1, 0, 1, 0, 1, 0, 0, 0, 3, 4, 0, 0, 1, 0, 1, 0, 0, 0, 2, 1, 0, 1, 0, 1, 0, 0, 0, 0
]
/-- POWER-Code table of code_eu014. -/
def code_eu014Code : IrCode :=
  ⟨38462, 38, code_eu014Pairs, code_eu014Sequence⟩

/-- Table of On-Time/Off-Time pairs of code_eu015 (flat, as in the C array). -/
def code_eu015Pairs : List Nat := [
  530, 540,
  530, 1560,
  530, 25420,
  8510, 4250,
  8530, 4240
]
/-- Table of indices to On-Time/Off-Time pairs of code_eu015. -/
def code_eu015Sequence : List Nat := [
  3, 0, 1, 0, 1, 0, 1, 0, 1, 1, 0, 1, 0, 1, 0, 1, 0, 0, 0, 1, 1, 1, 0, 0, 0, 1, 1, 0, 0, 0, 1, 1, 1, 2, 4, 0, 1, 0, 1, 0, 1, 0, 1, 1, 0, 1, 0, 1, 0, 1, 0, 0, 0, 1, 1, 1, 0, 0, 0, 1, 1, 0, 0, 0, 1, 1, 1, 2, 4, 0, 1, 0, 1, 0, 1, 0, 1, 1, 0, 1, 0, 1, 0, 1, 0, 0, 0, 1, 1, 1, 0, 0, 0, 1, 1, 0, 0, 0, 1, 1, 1, 2, 4, 0, 1, 0, 1, 0, 1, 0, 1, 1, 0, 1, 0, 1, 0, 1, 0, 0, 0, 1, 1, 1, 0, 0, 0, 1, 1, 0, 0, 0, 1, 1, 1, 0
]
/-- POWER-Code table of code_eu015. -/
def code_eu015Code : IrCode :=
  ⟨38462, 136, code_eu015Pairs, code_eu015Sequence⟩

/-- Table of On-Time/Off-Time pairs of code_eu016 (flat, as in the C array). -/
def code_eu016Pairs : List Nat := [
  280, 920,
  280, 2130,
  280, 2140,
  280, 27710
]
/-- Table of indices to On-Time/Off-Time pairs of code_eu016. -/
def code_eu016Sequence : List Nat := [
  1, 2, 2, 0, 0, 0, 2, 0, 0, 2, 0, 0, 0, 0, 0, 0, 3, 2, 2, 2, 0, 0, 0, 2, 0, 0, 2, 0, 0, 0, 0, 0, 0, 1
]
/-- POWER-Code table of code_eu016. -/
def code_eu016Code : IrCode :=
  ⟨33333, 34, code_eu016Pairs, code_eu016Sequence⟩

/-- Table of On-Time/Off-Time pairs of code_eu017 (flat, as in the C array). -/
def code_eu017Pairs : List Nat := [
  150, 8440,
  160, 5570,
  160, 8440,
  160, 52240
]
/-- Table of indices to On-Time/Off-Time pairs of code_eu017. -/
def code_eu017Sequence : List Nat := [
  0, 1, 2, 2, 2, 1, 2, 2, 2, 1, 2, 3, 2, 1, 2, 2, 2, 1, 2, 2, 2, 1, 2, 1
]
/-- POWER-Code table of code_eu017. -/
def code_eu017Code : IrCode :=
  ⟨33333, 24, code_eu017Pairs, code_eu017Sequence⟩

/-- Table of On-Time/Off-Time pairs of code_eu018 (flat, as in the C array). -/
def code_eu018Pairs : List Nat := [
  550, 570,
  550, 1700,
  550, 39490,
  550, 96230,
  560, 0,
  8980, 4530,
  9000, 2260
]
/-- Table of indices to On-Time/Off-Time pairs of code_eu018. -/
def code_eu018Sequence : List Nat := [
  5, 0, 0, 0, 1, 1, 1, 0, 0, 1, 1, 1, 0, 0, 0, 1, 1, 0, 0, 1, 1, 1, 0, 0, 0, 1, 1, 0, 0, 0, 1, 1, 1, 2, 6, 3, 6, 4
]
/-- POWER-Code table of code_eu018. -/
def code_eu018Code : IrCode :=
  ⟨38462, 38, code_eu018Pairs, code_eu018Sequence⟩

/-- Table of On-Time/Off-Time pairs of code_eu019 (flat, as in the C array). -/
def code_eu019Pairs : List Nat := [
  500, 540,
  500, 1580,
  500, 4180,
  500, 24430,
  8430, 4180
]
/-- Table of indices to On-Time/Off-Time pairs of code_eu019. -/
def code_eu019Sequence : List Nat := [
  4, 0, 1, 0, 0, 0, 0, 0, 0, 2, 0, 1, 1, 1, 0, 0, 0, 0, 3, 4, 0, 1, 0, 0, 0, 0, 0, 0, 2, 0, 1, 1, 1, 0, 0, 0, 0, 0
]
/-- POWER-Code table of code_eu019. -/
def code_eu019Code : IrCode :=
  ⟨38462, 38, code_eu019Pairs, code_eu019Sequence⟩

/-- Table of On-Time/Off-Time pairs of code_eu020 (flat, as in the C array). -/
def code_eu020Pairs : List Nat := [
  480, 3010,
  480, 6510,
  480, 10010,
  480, 30010
]
/-- Table of indices to On-Time/Off-Time pairs of code_eu020. -/
def code_eu020Sequence : List Nat := [
  0, 2, 0, 2, 0, 2, 0, 0, 0, 0, 0, 0, 0, 0, 0, 1, 3, 0, 2, 0, 2, 0, 2, 0, 0, 0, 0, 0, 0, 0, 0, 0, 1, 0
]
/-- POWER-Code table of code_eu020. -/
def code_eu020Code : IrCode :=
  ⟨35714, 34, code_eu020Pairs, code_eu020Sequence⟩

/-- Table of On-Time/Off-Time pairs of code_eu021 (flat, as in the C array). -/
def code_eu021Pairs : List Nat := [
  530, 560,
  530, 1710,
  530, 39500,
  530, 95990,
  8980, 4510,
  9000, 2260
]
/-- Table of indices to On-Time/Off-Time pairs of code_eu021. -/
def code_eu021Sequence : List Nat := [
  4, 1, 1, 0, 0, 0, 0, 0, 1, 0, 1, 0, 1, 1, 1, 1, 0, 0, 0, 0, 1, 0, 0, 0, 0, 1, 1, 1, 0, 1, 1, 1, 1, 2, 5, 3, 5, 1
]
/-- POWER-Code table of code_eu021. -/
def code_eu021Code : IrCode :=
  ⟨38462, 38, code_eu021Pairs, code_eu021Sequence⟩

/-- Table of On-Time/Off-Time pairs of code_eu022 (flat, as in the C array). -/
def code_eu022Pairs : List Nat := [
  550, 570,
  550, 1700,
  550, 39490,
  550, 96230,
  560, 0,
  8980, 4530,
  9000, 2260
]
/-- Table of indices to On-Time/Off-Time pairs of code_eu022. -/
def code_eu022Sequence : List Nat := [
  5, 1, 1, 0, 0, 1, 0, 1, 0, 0, 0, 1, 1, 0, 1, 0, 1, 1, 1, 1, 0, 1, 0, 0, 0, 0, 0, 0, 1, 0, 1, 1, 1, 2, 6, 3, 6, 4
]
/-- POWER-Code table of code_eu022. -/
def code_eu022Code : IrCode :=
  ⟨38462, 38, code_eu022Pairs, code_eu022Sequence⟩

/-- Table of On-Time/Off-Time pairs of code_eu023 (flat, as in the C array). -/
def code_eu023Pairs : List Nat := [
  530, 600,
  530, 1750,
  530, 44630,
  530, 94530,
  8920, 4500,
  8950, 2250
]
/-- Table of indices to On-Time/Off-Time pairs of code_eu023. -/
def code_eu023Sequence : List Nat := [
  4, 0, 0, 0, 1, 1, 0, 0, 0, 0, 0, 0, 1, 1, 0, 0, 0, 0, 0, 0, 0, 0, 0, 1, 1, 1, 1, 1, 1, 1, 1, 0, 0, 2, 5, 3, 5, 0
]
/-- POWER-Code table of code_eu023. -/
def code_eu023Code : IrCode :=
  ⟨38462, 38, code_eu023Pairs, code_eu023Sequence⟩

/-- Table of On-Time/Off-Time pairs of code_eu024 (flat, as in the C array). -/
def code_eu024Pairs : List Nat := [
  550, 570,
  550, 1700,
  550, 39490,
  550, 96230,
  560, 0,
  8980, 4530,
  9000, 2260
]
/-- Table of indices to On-Time/Off-Time pairs of code_eu024. -/
def code_eu024Sequence : List Nat := [
  5, 0, 0, 0, 1, 1, 1, 0, 0, 1, 1, 1, 0, 0, 0, 1, 1, 0, 0, 0, 0, 1, 0, 0, 0, 1, 1, 1, 1, 0, 1, 1, 1, 2, 6, 3, 6, 4
]
/-- POWER-Code table of code_eu024. -/
def code_eu024Code : IrCode :=
  ⟨38462, 38, code_eu024Pairs, code_eu024Sequence⟩

/-- Table of On-Time/Off-Time pairs of code_eu025 (flat, as in the C array). -/
def code_eu025Pairs : List Nat := [
  490, 520,
  490, 1020,
  490, 2500,
  490, 2520,
  490, 23770,
  490, 120090,
  1000, 520,
  1000, 1020
]
/-- Table of indices to On-Time/Off-Time pairs of code_eu025. -/
def code_eu025Sequence : List Nat := [
  2, 1, 6, 0, 0, 0, 4, 3, 1, 7, 0, 0, 0, 5, 3, 1, 7, 0, 0, 0, 2
]
/-- POWER-Code table of code_eu025. -/
def code_eu025Code : IrCode :=
  ⟨31250, 21, code_eu025Pairs, code_eu025Sequence⟩

/-- Table of On-Time/Off-Time pairs of code_eu026 (flat, as in the C array). -/
def code_eu026Pairs : List Nat := [
  140, 4910,
  140, 7430,
  140, 49260
]
/-- Table of indices to On-Time/Off-Time pairs of code_eu026. -/
def code_eu026Sequence : List Nat := [
  1, 1, 1, 1, 1, 0, 0, 0, 1, 0, 0, 2, 1, 1, 1, 1, 1, 0, 0, 0, 1, 0, 0, 1
]
/-- POWER-Code table of code_eu026. -/
def code_eu026Code : IrCode :=
  ⟨38462, 24, code_eu026Pairs, code_eu026Sequence⟩

/-- Table of On-Time/Off-Time pairs of code_eu027 (flat, as in the C array). -/
def code_eu027Pairs : List Nat := [
  550, 570,
  550, 1700,
  550, 39490,
  550, 96230,
  560, 0,
  8980, 4530,
  9000, 2260
]
/-- Table of indices to On-Time/Off-Time pairs of code_eu027. -/
def code_eu027Sequence : List Nat := [
  5, 0, 1, 0, 1, 0, 1, 0, 1, 1, 0, 1, 0, 1, 0, 1, 0, 1, 0, 1, 0, 0, 0, 1, 1, 0, 1, 0, 1, 1, 1, 0, 0, 2, 6, 3, 6, 4
]
/-- POWER-Code table of code_eu027. -/
def code_eu027Code : IrCode :=
  ⟨38462, 38, code_eu027Pairs, code_eu027Sequence⟩

/-- Table of On-Time/Off-Time pairs of code_eu028 (flat, as in the C array). -/
def code_eu028Pairs : List Nat := [
  470, 2670,
  500, 550,
  500, 1100,
  500, 2650,
  500, 20550,
  500, 121170,
  1000, 570
]
/-- Table of indices to On-Time/Off-Time pairs of code_eu028. -/
def code_eu028Sequence : List Nat := [
  0, 1, 1, 1, 1, 1, 1, 1, 1, 1, 4, 3, 2, 1, 6, 2, 1, 1, 1, 1, 5, 3, 2, 1, 6, 2, 1, 1, 1, 1, 1
]
/-- POWER-Code table of code_eu028. -/
def code_eu028Code : IrCode :=
  ⟨30303, 31, code_eu028Pairs, code_eu028Sequence⟩

/-- Table of On-Time/Off-Time pairs of code_eu029 (flat, as in the C array). -/
def code_eu029Pairs : List Nat := [
  500, 500,
  500, 990,
  500, 2510,
  500, 2520,
  500, 14450,
  500, 110140,
  1020, 490,
  1020, 980
]
/-- Table of indices to On-Time/Off-Time pairs of code_eu029. -/
def code_eu029Sequence : List Nat := [
  2, 1, 6, 0, 0, 0, 0, 0, 0, 0, 0, 0, 0, 0, 0, 4, 3, 1, 0, 6, 1, 0, 0, 0, 7, 0, 0, 0, 0, 0, 5, 3, 1, 0, 6, 1, 0, 0, 0, 7, 0, 0, 0, 0, 0, 2
]
/-- POWER-Code table of code_eu029. -/
def code_eu029Code : IrCode :=
  ⟨34483, 46, code_eu029Pairs, code_eu029Sequence⟩

/-- Table of On-Time/Off-Time pairs of code_eu030 (flat, as in the C array). -/
def code_eu030Pairs : List Nat := [
  550, 570,
  550, 1700,
  550, 39490,
  550, 96230,
  560, 0,
  8980, 4530,
  9000, 2260
]
/-- Table of indices to On-Time/Off-Time pairs of code_eu030. -/
def code_eu030Sequence : List Nat := [
  5, 0, 0, 1, 0, 0, 0, 0, 0, 1, 1, 0, 1, 1, 1, 1, 1, 0, 0, 0, 1, 0, 0, 0, 0, 1, 1, 1, 0, 1, 1, 1, 1, 2, 6, 3, 6, 4
]
/-- POWER-Code table of code_eu030. -/
def code_eu030Code : IrCode :=
  ⟨38462, 38, code_eu030Pairs, code_eu030Sequence⟩

/-- Table of On-Time/Off-Time pairs of code_eu031 (flat, as in the C array). -/
def code_eu031Pairs : List Nat := [
  530, 530,
  530, 1600,
  530, 16970,
  8380, 4220
]
/-- Table of indices to On-Time/Off-Time pairs of code_eu031. -/
def code_eu031Sequence : List Nat := [
  3, 1, 1, 1, 1, 1, 0, 0, 0, 1, 1, 1, 0, 1, 0, 1, 1, 2, 1, 1, 1, 1, 1, 0, 0, 0, 1, 1, 1, 0, 1, 0, 1, 1, 2, 1, 1, 1, 1, 1, 0, 0, 0, 1, 1, 1, 0, 1, 0, 1, 1, 1
]
/-- POWER-Code table of code_eu031. -/
def code_eu031Code : IrCode :=
  ⟨38462, 52, code_eu031Pairs, code_eu031Sequence⟩

/-- Table of On-Time/Off-Time pairs of code_eu032 (flat, as in the C array). -/
def code_eu032Pairs : List Nat := [
  490, 2050,
  490, 2060,
  490, 4560,
  490, 36900
]
/-- Table of indices to On-Time/Off-Time pairs of code_eu032. -/
def code_eu032Sequence : List Nat := [
  0, 1, 2, 2, 1, 1, 1, 2, 2, 2, 1, 1, 3, 1, 1, 2, 2, 1, 1, 1, 2, 2, 2, 1, 1, 0
]
/-- POWER-Code table of code_eu032. -/
def code_eu032Code : IrCode :=
  ⟨33333, 26, code_eu032Pairs, code_eu032Sequence⟩

/-- Table of On-Time/Off-Time pairs of code_eu033 (flat, as in the C array). -/
def code_eu033Pairs : List Nat := [
  480, 1500,
  500, 1490,
  500, 3470,
  500, 29360
]
/-- Table of indices to On-Time/Off-Time pairs of code_eu033. -/
def code_eu033Sequence : List Nat := [
  0, 2, 2, 2, 1, 1, 3, 1, 2, 2, 2, 1, 1, 2
]
/-- POWER-Code table of code_eu033. -/
def code_eu033Code : IrCode :=
  ⟨38462, 14, code_eu033Pairs, code_eu033Sequence⟩

/-- Table of On-Time/Off-Time pairs of code_eu034 (flat, as in the C array). -/
def code_eu034Pairs : List Nat := [
  550, 570,
  550, 1700,
  550, 39490,
  550, 96230,
  560, 0,
  8980, 4530,
  9000, 2260
]
/-- Table of indices to On-Time/Off-Time pairs of code_eu034. -/
def code_eu034Sequence : List Nat := [
  5, 0, 0, 0, 1, 1, 0, 0, 0, 1, 1, 1, 0, 0, 1, 1, 1, 0, 0, 0, 1, 0, 0, 0, 0, 1, 1, 1, 0, 1, 1, 1, 1, 2, 6, 3, 6, 4
]
/-- POWER-Code table of code_eu034. -/
def code_eu034Code : IrCode :=
  ⟨38462, 38, code_eu034Pairs, code_eu034Sequence⟩

/-- Table of On-Time/Off-Time pairs of code_eu035 (flat, as in the C array). -/
def code_eu035Pairs : List Nat := [
  880, 900,
  880, 910,
  880, 1810,
  880, 89760,
  1770, 910
]
/-- Table of indices to On-Time/Off-Time pairs of code_eu035. -/
def code_eu035Sequence : List Nat := [
  0, 4, 1, 1, 1, 1, 1, 1, 2, 1, 4, 3, 1, 4, 1, 1, 1, 1, 1, 1, 2, 1, 4, 0
]
/-- POWER-Code table of code_eu035. -/
def code_eu035Code : IrCode :=
  ⟨35714, 24, code_eu035Pairs, code_eu035Sequence⟩

/-- Table of On-Time/Off-Time pairs of code_eu036 (flat, as in the C array). -/
def code_eu036Pairs : List Nat := [
  550, 570,
  550, 1700,
  550, 39490,
  550, 96230,
  560, 0,
  8980, 4530,
  9000, 2260
]
/-- Table of indices to On-Time/Off-Time pairs of code_eu036. -/
def code_eu036Sequence : List Nat := [
  5, 1, 0, 0, 0, 1, 1, 1, 0, 0, 1, 1, 1, 0, 0, 0, 1, 0, 0, 0, 1, 0, 0, 0, 0, 1, 1, 1, 0, 1, 1, 1, 1, 2, 6, 3, 6, 4
]
/-- POWER-Code table of code_eu036. -/
def code_eu036Code : IrCode :=
  ⟨38462, 38, code_eu036Pairs, code_eu036Sequence⟩

/-- Table of On-Time/Off-Time pairs of code_eu037 (flat, as in the C array). -/
def code_eu037Pairs : List Nat := [
  140, 4910,
  140, 7430,
  140, 51780
]
/-- Table of indices to On-Time/Off-Time pairs of code_eu037. -/
def code_eu037Sequence : List Nat := [
  1, 0, 1, 1, 1, 1, 0, 0, 0, 0, 0, 2, 1, 0, 1, 1, 1, 1, 0, 0, 0, 0, 0, 1
]
/-- POWER-Code table of code_eu037. -/
def code_eu037Code : IrCode :=
  ⟨38462, 24, code_eu037Pairs, code_eu037Sequence⟩

/-- Table of On-Time/Off-Time pairs of code_eu038 (flat, as in the C array). -/
def code_eu038Pairs : List Nat := [
  30, 10020,
  30, 14950,
  30, 30590
]
/-- Table of indices to On-Time/Off-Time pairs of code_eu038. -/
def code_eu038Sequence : List Nat := [
  0, 0, 1, 1, 1, 2, 0, 0, 1, 1, 1
]
/-- POWER-Code table of code_eu038. -/
def code_eu038Code : IrCode :=
  ⟨0, 11, code_eu038Pairs, code_eu038Sequence⟩

/-- Table of On-Time/Off-Time pairs of code_eu039 (flat, as in the C array). -/
def code_eu039Pairs : List Nat := [
  130, 4450,
  130, 6740,
  130, 6750,
  130, 45830
]
/-- Table of indices to On-Time/Off-Time pairs of code_eu039. -/
def code_eu039Sequence : List Nat := [
  1, 2, 2, 2, 2, 0, 0, 2, 2, 0, 0, 3, 2, 2, 2, 2, 2, 0, 0, 2, 2, 0, 0, 1
]
/-- POWER-Code table of code_eu039. -/
def code_eu039Code : IrCode :=
  ⟨40161, 24, code_eu039Pairs, code_eu039Sequence⟩

/-- Table of On-Time/Off-Time pairs of code_eu040 (flat, as in the C array). -/
def code_eu040Pairs : List Nat := [
  850, 890,
  850, 2640,
  850, 34020,
  3470, 3500,
  3480, 3500
]
/-- Table of indices to On-Time/Off-Time pairs of code_eu040. -/
def code_eu040Sequence : List Nat := [
  3, 0, 1, 1, 0, 1, 0, 0, 1, 0, 1, 0, 0, 1, 0, 0, 1, 0, 1, 1, 0, 1, 0, 1, 1, 2, 4, 0, 1, 1, 0, 1, 0, 0, 1, 0, 1, 0, 0, 1, 0, 0, 1, 0, 1, 1, 0, 1, 0, 1, 1, 0
]
/-- POWER-Code table of code_eu040. -/
def code_eu040Code : IrCode :=
  ⟨35714, 52, code_eu040Pairs, code_eu040Sequence⟩

/-- Table of On-Time/Off-Time pairs of code_eu041 (flat, as in the C array). -/
def code_eu041Pairs : List Nat := [
  460, 3000,
  490, 2980,
  490, 6480,
  490, 9970,
  490, 30560
]
/-- Table of indices to On-Time/Off-Time pairs of code_eu041. -/
def code_eu041Sequence : List Nat := [
  0, 3, 1, 3, 1, 3, 1, 2, 2, 2, 2, 1, 1, 4, 1, 3, 1, 3, 1, 3, 1, 2, 2, 2, 2, 1, 1, 3
]
/-- POWER-Code table of code_eu041. -/
def code_eu041Code : IrCode :=
  ⟨33333, 28, code_eu041Pairs, code_eu041Sequence⟩

/-- Table of On-Time/Off-Time pairs of code_eu042 (flat, as in the C array). -/
def code_eu042Pairs : List Nat := [
  530, 560,
  530, 1710,
  530, 39500,
  530, 95990,
  8980, 4510,
  9000, 2260
]
/-- Table of indices to On-Time/Off-Time pairs of code_eu042. -/
def code_eu042Sequence : List Nat := [
  4, 0, 0, 0, 0, 0, 0, 0, 1, 1, 1, 1, 1, 0, 1, 1, 0, 0, 1, 0, 1, 0, 0, 0, 0, 1, 0, 1, 0, 1, 1, 1, 1, 2, 5, 3, 5, 0
]
/-- POWER-Code table of code_eu042. -/
def code_eu042Code : IrCode :=
  ⟨38462, 38, code_eu042Pairs, code_eu042Sequence⟩

/-- Table of On-Time/Off-Time pairs of code_eu043 (flat, as in the C array). -/
def code_eu043Pairs : List Nat := [
  10370, 42160,
  10400, 0
]
/-- Table of indices to On-Time/Off-Time pairs of code_eu043. -/
def code_eu043Sequence : List Nat := [
  0, 1
]
/-- POWER-Code table of code_eu043. -/
def code_eu043Code : IrCode :=
  ⟨41667, 2, code_eu043Pairs, code_eu043Sequence⟩

/-- Table of On-Time/Off-Time pairs of code_eu044 (flat, as in the C array). -/
def code_eu044Pairs : List Nat := [
  550, 570,
  550, 1700,
  550, 39490,
  550, 96230,
  560, 0,
  8980, 4530,
  9000, 2260
]
/-- Table of indices to On-Time/Off-Time pairs of code_eu044. -/
def code_eu044Sequence : List Nat := [
  5, 0, 0, 0, 1, 0, 0, 1, 0, 1, 1, 1, 0, 1, 1, 0, 1, 0, 0, 0, 0, 0, 0, 0, 0, 1, 1, 1, 1, 1, 1, 1, 1, 2, 6, 3, 6, 4
]
/-- POWER-Code table of code_eu044. -/
def code_eu044Code : IrCode :=
  ⟨38462, 38, code_eu044Pairs, code_eu044Sequence⟩

/-- Table of On-Time/Off-Time pairs of code_eu045 (flat, as in the C array). -/
def code_eu045Pairs : List Nat := [
  1520, 4710,
  1540, 1560,
  1540, 4690,
  1540, 29470
]
/-- Table of indices to On-Time/Off-Time pairs of code_eu045. -/
def code_eu045Sequence : List Nat := [
  0, 1, 1, 2, 3, 2, 1, 1, 2, 1
]
/-- POWER-Code table of code_eu045. -/
def code_eu045Code : IrCode :=
  ⟨41667, 10, code_eu045Pairs, code_eu045Sequence⟩

/-- Table of On-Time/Off-Time pairs of code_eu046 (flat, as in the C array). -/
def code_eu046Pairs : List Nat := [
  150, 4930,
  160, 4930,
  160, 6980,
  160, 14140
]
/-- Table of indices to On-Time/Off-Time pairs of code_eu046. -/
def code_eu046Sequence : List Nat := [
  0, 1, 1, 2, 2, 2, 2, 3, 1, 1, 1, 2, 2, 2, 2, 1
]
/-- POWER-Code table of code_eu046. -/
def code_eu046Code : IrCode :=
  ⟨34602, 16, code_eu046Pairs, code_eu046Sequence⟩

/-- Table of On-Time/Off-Time pairs of code_eu047 (flat, as in the C array). -/
def code_eu047Pairs : List Nat := [
  30, 4960,
  30, 7450,
  30, 14880
]
/-- Table of indices to On-Time/Off-Time pairs of code_eu047. -/
def code_eu047Sequence : List Nat := [
  1, 0, 0, 1, 0, 2, 1, 0, 0, 1, 0, 2, 1, 0, 0, 1, 0
]
/-- POWER-Code table of code_eu047. -/
def code_eu047Code : IrCode :=
  ⟨0, 17, code_eu047Pairs, code_eu047Sequence⟩

/-- Table of On-Time/Off-Time pairs of code_eu048 (flat, as in the C array). -/
def code_eu048Pairs : List Nat := [
  530, 560,
  530, 1710,
  530, 39500,
  530, 95990,
  8980, 4510,
  9000, 2260
]
/-- Table of indices to On-Time/Off-Time pairs of code_eu048. -/
def code_eu048Sequence : List Nat := [
  4, 0, 0, 0, 0, 0, 0, 0, 1, 1, 1, 0, 1, 1, 1, 1, 0, 1, 1, 0, 0, 1, 0, 0, 0, 0, 0, 1, 1, 0, 1, 1, 1, 2, 5, 3, 5, 0
]
/-- POWER-Code table of code_eu048. -/
def code_eu048Code : IrCode :=
  ⟨38462, 38, code_eu048Pairs, code_eu048Sequence⟩

/-- Table of On-Time/Off-Time pairs of code_eu049 (flat, as in the C array). -/
def code_eu049Pairs : List Nat := [
  550, 550,
  550, 1670,
  550, 45770,
  550, 95060,
  4480, 4450,
  4500, 4440
]
/-- Table of indices to On-Time/Off-Time pairs of code_eu049. -/
def code_eu049Sequence : List Nat := [
  4, 0, 1, 1, 1, 0, 0, 0, 0, 0, 1, 1, 1, 0, 0, 0, 0, 0, 0, 1, 0, 1, 0, 0, 0, 1, 1, 0, 1, 0, 1, 1, 1, 2, 5, 1, 3, 5, 1, 0
]
/-- POWER-Code table of code_eu049. -/
def code_eu049Code : IrCode :=
  ⟨38462, 40, code_eu049Pairs, code_eu049Sequence⟩

/-- Table of On-Time/Off-Time pairs of code_eu050 (flat, as in the C array). -/
def code_eu050Pairs : List Nat := [
  910, 880,
  910, 2670,
  910, 36210,
  3610, 3580,
  3610, 3590
]
/-- Table of indices to On-Time/Off-Time pairs of code_eu050. -/
def code_eu050Sequence : List Nat := [
  3, 0, 0, 0, 0, 0, 0, 0, 0, 0, 0, 1, 1, 1, 1, 1, 1, 1, 1, 1, 1, 1, 0, 2, 4, 0, 0, 0, 0, 0, 0, 0, 0, 0, 0, 1, 1, 1, 1, 1, 1, 1, 1, 1, 1, 1, 0, 0
]
/-- POWER-Code table of code_eu050. -/
def code_eu050Code : IrCode :=
  ⟨33333, 48, code_eu050Pairs, code_eu050Sequence⟩

/-- Table of On-Time/Off-Time pairs of code_eu051 (flat, as in the C array). -/
def code_eu051Pairs : List Nat := [
  840, 880,
  840, 2610,
  840, 33600,
  3470, 3470,
  3470, 3480
]
/-- Table of indices to On-Time/Off-Time pairs of code_eu051. -/
def code_eu051Sequence : List Nat := [
  3, 0, 1, 0, 1, 0, 0, 0, 1, 0, 1, 0, 0, 1, 0, 1, 0, 1, 1, 1, 0, 1, 0, 1, 1, 2, 4, 0, 1, 0, 1, 0, 0, 0, 1, 0, 1, 0, 0, 1, 0, 1, 0, 1, 1, 1, 0, 1, 0, 1, 1, 0
]
/-- POWER-Code table of code_eu051. -/
def code_eu051Code : IrCode :=
  ⟨38462, 52, code_eu051Pairs, code_eu051Sequence⟩

/-- Table of On-Time/Off-Time pairs of code_eu052 (flat, as in the C array). -/
def code_eu052Pairs : List Nat := [
  160, 8380,
  170, 5580,
  170, 8390,
  170, 63280
]
/-- Table of indices to On-Time/Off-Time pairs of code_eu052. -/
def code_eu052Sequence : List Nat := [
  0, 1, 2, 2, 2, 1, 2, 2, 2, 1, 2, 3, 2, 1, 2, 2, 2, 1, 2, 2, 2, 1, 2, 1
]
/-- POWER-Code table of code_eu052. -/
def code_eu052Code : IrCode :=
  ⟨31250, 24, code_eu052Pairs, code_eu052Sequence⟩

/-- Table of On-Time/Off-Time pairs of code_eu053 (flat, as in the C array). -/
def code_eu053Pairs : List Nat := [
  150, 4930,
  160, 4930,
  160, 6980,
  160, 14140
]
/-- Table of indices to On-Time/Off-Time pairs of code_eu053. -/
def code_eu053Sequence : List Nat := [
  0, 2, 1, 2, 2, 2, 2, 3, 1, 2, 1, 2, 2, 2, 2, 2
]
/-- POWER-Code table of code_eu053. -/
def code_eu053Code : IrCode :=
  ⟨34483, 16, code_eu053Pairs, code_eu053Sequence⟩

/-- Table of On-Time/Off-Time pairs of code_eu054 (flat, as in the C array). -/
def code_eu054Pairs : List Nat := [
  490, 530,
  490, 1040,
  490, 2620,
  490, 2640,
  490, 80300,
  1000, 1030
]
/-- Table of indices to On-Time/Off-Time pairs of code_eu054. -/
def code_eu054Sequence : List Nat := [
  2, 0, 0, 1, 5, 0, 4, 3, 0, 0, 1, 5, 0, 2
]
/-- POWER-Code table of code_eu054. -/
def code_eu054Code : IrCode :=
  ⟨31250, 14, code_eu054Pairs, code_eu054Sequence⟩

/-- Table of On-Time/Off-Time pairs of code_eu055 (flat, as in the C array). -/
def code_eu055Pairs : List Nat := [
  530, 560,
  530, 1710,
  530, 39500,
  530, 95990,
  8980, 4510,
  9000, 2260
]
/-- Table of indices to On-Time/Off-Time pairs of code_eu055. -/
def code_eu055Sequence : List Nat := [
  4, 0, 0, 0, 0, 0, 0, 0, 1, 0, 1, 1, 1, 1, 1, 1, 0, 0, 0, 0, 1, 1, 0, 0, 0, 1, 1, 1, 0, 0, 1, 1, 1, 2, 5, 3, 5, 0
]
/-- POWER-Code table of code_eu055. -/
def code_eu055Code : IrCode :=
  ⟨38462, 38, code_eu055Pairs, code_eu055Sequence⟩

/-- Table of On-Time/Off-Time pairs of code_eu056 (flat, as in the C array). -/
def code_eu056Pairs : List Nat := [
  1120, 1070,
  1130, 1070,
  6770, 27660
]
/-- Table of indices to On-Time/Off-Time pairs of code_eu056. -/
def code_eu056Sequence : List Nat := [
  0, 2, 1, 2
]
/-- POWER-Code table of code_eu056. -/
def code_eu056Code : IrCode :=
  ⟨38462, 4, code_eu056Pairs, code_eu056Sequence⟩

/-- Table of On-Time/Off-Time pairs of code_eu057 (flat, as in the C array). -/
def code_eu057Pairs : List Nat := [
  550, 570,
  550, 1700,
  550, 39490,
  550, 96230,
  560, 0,
  8980, 4530,
  9000, 2260
]
/-- Table of indices to On-Time/Off-Time pairs of code_eu057. -/
def code_eu057Sequence : List Nat := [
  5, 0, 0, 0, 0, 1, 0, 1, 0, 1, 1, 1, 1, 0, 1, 0, 1, 0, 0, 0, 1, 0, 0, 0, 0, 1, 1, 1, 0, 1, 1, 1, 1, 2, 6, 3, 6, 4
]
/-- POWER-Code table of code_eu057. -/
def code_eu057Code : IrCode :=
  ⟨38462, 38, code_eu057Pairs, code_eu057Sequence⟩

/-- Table of On-Time/Off-Time pairs of code_eu058 (flat, as in the C array). -/
def code_eu058Pairs : List Nat := [
  530, 560,
  530, 1710,
  530, 39500,
  530, 95990,
  8980, 4510,
  9000, 2260
]
/-- Table of indices to On-Time/Off-Time pairs of code_eu058. -/
def code_eu058Sequence : List Nat := [
  4, 0, 0, 0, 0, 0, 0, 0, 1, 1, 0, 1, 0, 1, 1, 1, 0, 0, 1, 0, 1, 0, 0, 0, 0, 1, 0, 1, 0, 1, 1, 1, 1, 2, 5, 3, 5, 0
]
/-- POWER-Code table of code_eu058. -/
def code_eu058Code : IrCode :=
  ⟨38462, 38, code_eu058Pairs, code_eu058Sequence⟩

/-- Table of On-Time/Off-Time pairs of code_eu059 (flat, as in the C array). -/
def code_eu059Pairs : List Nat := [
  3100, 6130,
  3100, 6140,
  6220, 83120
]
/-- Table of indices to On-Time/Off-Time pairs of code_eu059. -/
def code_eu059Sequence : List Nat := [
  0, 2, 1, 2
]
/-- POWER-Code table of code_eu059. -/
def code_eu059Code : IrCode :=
  ⟨41667, 4, code_eu059Pairs, code_eu059Sequence⟩

/-- Table of On-Time/Off-Time pairs of code_eu060 (flat, as in the C array). -/
def code_eu060Pairs : List Nat := [
  500, 1580,
  530, 510,
  530, 1560,
  530, 21800
]
/-- Table of indices to On-Time/Off-Time pairs of code_eu060. -/
def code_eu060Sequence : List Nat := [
  0, 2, 1, 1, 1, 1, 2, 1, 2, 1, 2, 2, 1, 1, 2, 2, 3, 2, 2, 1, 1, 1, 1, 2, 1, 2, 1, 2, 2, 1, 1, 2, 2, 2
]
/-- POWER-Code table of code_eu060. -/
def code_eu060Code : IrCode :=
  ⟨38462, 34, code_eu060Pairs, code_eu060Sequence⟩

/-- Table of On-Time/Off-Time pairs of code_eu061 (flat, as in the C array). -/
def code_eu061Pairs : List Nat := [
  880, 900,
  880, 910,
  880, 1810,
  880, 89760,
  1770, 910
]
/-- Table of indices to On-Time/Off-Time pairs of code_eu061. -/
def code_eu061Sequence : List Nat := [
  0, 4, 1, 1, 1, 1, 2, 4, 1, 1, 1, 3, 1, 4, 1, 1, 1, 1, 2, 4, 1, 1, 1, 0
]
/-- POWER-Code table of code_eu061. -/
def code_eu061Code : IrCode :=
  ⟨35714, 24, code_eu061Pairs, code_eu061Sequence⟩

/-- Table of On-Time/Off-Time pairs of code_eu062 (flat, as in the C array). -/
def code_eu062Pairs : List Nat := [
  500, 1580,
  530, 510,
  530, 1560,
  530, 21800
]
/-- Table of indices to On-Time/Off-Time pairs of code_eu062. -/
def code_eu062Sequence : List Nat := [
  0, 2, 1, 1, 2, 1, 2, 1, 2, 1, 2, 2, 1, 1, 2, 2, 3, 2, 2, 1, 1, 2, 1, 2, 1, 2, 1, 2, 2, 1, 1, 2, 2, 2
]
/-- POWER-Code table of code_eu062. -/
def code_eu062Code : IrCode :=
  ⟨38462, 34, code_eu062Pairs, code_eu062Sequence⟩

/-- Table of On-Time/Off-Time pairs of code_eu063 (flat, as in the C array). -/
def code_eu063Pairs : List Nat := [
  530, 560,
  530, 1710,
  530, 39500,
  530, 95990,
  8980, 4510,
  9000, 2260
]
/-- Table of indices to On-Time/Off-Time pairs of code_eu063. -/
def code_eu063Sequence : List Nat := [
  4, 0, 0, 0, 0, 0, 0, 0, 1, 1, 1, 1, 0, 1, 0, 1, 0, 0, 1, 0, 1, 0, 0, 0, 0, 1, 0, 1, 0, 1, 1, 1, 1, 2, 5, 3, 5, 0
]
/-- POWER-Code table of code_eu063. -/
def code_eu063Code : IrCode :=
  ⟨38462, 38, code_eu063Pairs, code_eu063Sequence⟩

/-- Table of On-Time/Off-Time pairs of code_eu064 (flat, as in the C array). -/
def code_eu064Pairs : List Nat := [
  470, 2670,
  500, 550,
  500, 1100,
  500, 2650,
  500, 20550,
  500, 121170,
  1000, 570,
  1000, 1120
]
/-- Table of indices to On-Time/Off-Time pairs of code_eu064. -/
def code_eu064Sequence : List Nat := [
  0, 1, 1, 1, 1, 1, 1, 1, 1, 1, 4, 3, 1, 1, 2, 1, 6, 2, 7, 5, 3, 1, 1, 2, 1, 6, 2, 7, 1
]
/-- POWER-Code table of code_eu064. -/
def code_eu064Code : IrCode :=
  ⟨30395, 29, code_eu064Pairs, code_eu064Sequence⟩

/-- Table of On-Time/Off-Time pairs of code_eu065 (flat, as in the C array). -/
def code_eu065Pairs : List Nat := [
  470, 2670,
  500, 550,
  500, 1100,
  500, 2650,
  500, 20550,
  500, 121170,
  1000, 1120
]
/-- Table of indices to On-Time/Off-Time pairs of code_eu065. -/
def code_eu065Sequence : List Nat := [
  0, 1, 1, 1, 1, 1, 1, 1, 1, 1, 4, 3, 1, 1, 1, 2, 1, 6, 1, 1, 5, 3, 1, 1, 1, 2, 1, 6, 1, 1, 1
]
/-- POWER-Code table of code_eu065. -/
def code_eu065Code : IrCode :=
  ⟨30303, 31, code_eu065Pairs, code_eu065Sequence⟩

/-- Table of On-Time/Off-Time pairs of code_eu066 (flat, as in the C array). -/
def code_eu066Pairs : List Nat := [
  550, 550,
  550, 1670,
  550, 45770,
  550, 95060,
  4480, 4450,
  4500, 4440
]
/-- Table of indices to On-Time/Off-Time pairs of code_eu066. -/
def code_eu066Sequence : List Nat := [
  4, 1, 1, 0, 1, 0, 0, 0, 0, 1, 1, 0, 1, 0, 0, 0, 0, 0, 1, 0, 1, 0, 0, 0, 0, 1, 0, 1, 0, 1, 1, 1, 1, 2, 5, 0, 3, 5, 0, 1
]
/-- POWER-Code table of code_eu066. -/
def code_eu066Code : IrCode :=
  ⟨38462, 40, code_eu066Pairs, code_eu066Sequence⟩

/-- Table of On-Time/Off-Time pairs of code_eu067 (flat, as in the C array). -/
def code_eu067Pairs : List Nat := [
  940, 4730,
  940, 7280,
  1020, 16370
]
/-- Table of indices to On-Time/Off-Time pairs of code_eu067. -/
def code_eu067Sequence : List Nat := [
  1, 0, 0, 1, 0, 2, 1, 0, 0, 1, 0, 2
]
/-- POWER-Code table of code_eu067. -/
def code_eu067Code : IrCode :=
  ⟨38462, 12, code_eu067Pairs, code_eu067Sequence⟩

/-- Table of On-Time/Off-Time pairs of code_eu068 (flat, as in the C array). -/
def code_eu068Pairs : List Nat := [
  490, 2630,
  500, 540,
  500, 1080,
  500, 2630,
  500, 20290,
  500, 101990,
  1000, 1100
]
/-- Table of indices to On-Time/Off-Time pairs of code_eu068. -/
def code_eu068Sequence : List Nat := [
  0, 1, 1, 1, 1, 1, 1, 1, 1, 1, 4, 3, 2, 1, 1, 1, 1, 6, 1, 1, 5, 3, 2, 1, 1, 1, 1, 6, 1, 1, 1
]
/-- POWER-Code table of code_eu068. -/
def code_eu068Code : IrCode :=
  ⟨38610, 31, code_eu068Pairs, code_eu068Sequence⟩

/-- Table of On-Time/Off-Time pairs of code_eu069 (flat, as in the C array). -/
def code_eu069Pairs : List Nat := [
  40, 4990,
  40, 7500,
  40, 49990
]
/-- Table of indices to On-Time/Off-Time pairs of code_eu069. -/
def code_eu069Sequence : List Nat := [
  0, 0, 1, 1, 1, 1, 1, 0, 0, 0, 1, 2, 0, 0, 1, 1, 1, 1, 1, 0, 0, 0, 1
]
/-- POWER-Code table of code_eu069. -/
def code_eu069Code : IrCode :=
  ⟨0, 23, code_eu069Pairs, code_eu069Sequence⟩

/-- Table of On-Time/Off-Time pairs of code_eu070 (flat, as in the C array). -/
def code_eu070Pairs : List Nat := [
  40, 4990,
  40, 7500,
  40, 49990
]
/-- Table of indices to On-Time/Off-Time pairs of code_eu070. -/
def code_eu070Sequence : List Nat := [
  0, 1, 1, 0, 1, 1, 1, 0, 0, 0, 1, 2, 0, 1, 1, 0, 1, 1, 1, 0, 0, 0, 1
]
/-- POWER-Code table of code_eu070. -/
def code_eu070Code : IrCode :=
  ⟨0, 23, code_eu070Pairs, code_eu070Sequence⟩

/-- Table of On-Time/Off-Time pairs of code_eu071 (flat, as in the C array). -/
def code_eu071Pairs : List Nat := [
  140, 4910,
  140, 7430,
  140, 44220
]
/-- Table of indices to On-Time/Off-Time pairs of code_eu071. -/
def code_eu071Sequence : List Nat := [
  1, 0, 1, 1, 1, 0, 1, 0, 1, 1, 1, 2, 1, 0, 1, 1, 1, 0, 1, 0, 1, 1, 1, 1
]
/-- POWER-Code table of code_eu071. -/
def code_eu071Code : IrCode :=
  ⟨38462, 24, code_eu071Pairs, code_eu071Sequence⟩

/-- Table of On-Time/Off-Time pairs of code_eu072 (flat, as in the C array). -/
def code_eu072Pairs : List Nat := [
  50, 5680,
  50, 8540,
  50, 49990
]
/-- Table of indices to On-Time/Off-Time pairs of code_eu072. -/
def code_eu072Sequence : List Nat := [
  1, 1, 1, 1, 1, 0, 1, 1, 1, 0, 1, 2, 1, 1, 1, 1, 1, 0, 1, 1, 1, 0, 1
]
/-- POWER-Code table of code_eu072. -/
def code_eu072Code : IrCode :=
  ⟨0, 23, code_eu072Pairs, code_eu072Sequence⟩

/-- Table of On-Time/Off-Time pairs of code_eu073 (flat, as in the C array). -/
def code_eu073Pairs : List Nat := [
  150, 4930,
  160, 4930,
  160, 6980,
  160, 14140
]
/-- Table of indices to On-Time/Off-Time pairs of code_eu073. -/
def code_eu073Sequence : List Nat := [
  0, 1, 2, 1, 1, 1, 1, 3, 1, 1, 2, 1, 1, 1, 1, 1
]
/-- POWER-Code table of code_eu073. -/
def code_eu073Code : IrCode :=
  ⟨34483, 16, code_eu073Pairs, code_eu073Sequence⟩

/-- Table of On-Time/Off-Time pairs of code_eu074 (flat, as in the C array). -/
def code_eu074Pairs : List Nat := [
  880, 890,
  880, 900,
  880, 1790,
  880, 89770,
  1770, 900
]
/-- Table of indices to On-Time/Off-Time pairs of code_eu074. -/
def code_eu074Sequence : List Nat := [
  0, 1, 1, 1, 1, 1, 1, 1, 1, 2, 1, 4, 3, 1, 1, 1, 1, 1, 1, 1, 1, 1, 2, 1, 4, 0
]
/-- POWER-Code table of code_eu074. -/
def code_eu074Code : IrCode :=
  ⟨35714, 26, code_eu074Pairs, code_eu074Sequence⟩

/-- Table of On-Time/Off-Time pairs of code_eu075 (flat, as in the C array). -/
def code_eu075Pairs : List Nat := [
  60, 5660,
  60, 8510,
  60, 54740
]
/-- Table of indices to On-Time/Off-Time pairs of code_eu075. -/
def code_eu075Sequence : List Nat := [
  0, 0, 1, 1, 1, 0, 1, 1, 1, 0, 1, 2, 0, 0, 1, 1, 1, 0, 1, 1, 1, 0, 1
]
/-- POWER-Code table of code_eu075. -/
def code_eu075Code : IrCode :=
  ⟨0, 23, code_eu075Pairs, code_eu075Sequence⟩

/-- Table of On-Time/Off-Time pairs of code_eu076 (flat, as in the C array). -/
def code_eu076Pairs : List Nat := [
  140, 8430,
  160, 5550,
  160, 8410,
  160, 49110
]
/-- Table of indices to On-Time/Off-Time pairs of code_eu076. -/
def code_eu076Sequence : List Nat := [
  0, 2, 2, 2, 2, 1, 2, 2, 2, 1, 2, 3, 2, 2, 2, 2, 2, 1, 2, 2, 2, 1, 2, 2
]
/-- POWER-Code table of code_eu076. -/
def code_eu076Code : IrCode :=
  ⟨38462, 24, code_eu076Pairs, code_eu076Sequence⟩

/-- Table of On-Time/Off-Time pairs of code_eu077 (flat, as in the C array). -/
def code_eu077Pairs : List Nat := [
  470, 2670,
  500, 550,
  500, 1100,
  500, 2650,
  500, 20550,
  500, 121170,
  1000, 570
]
/-- Table of indices to On-Time/Off-Time pairs of code_eu077. -/
def code_eu077Sequence : List Nat := [
  0, 1, 1, 1, 1, 1, 1, 1, 1, 1, 4, 3, 1, 1, 2, 1, 6, 2, 1, 1, 5, 3, 1, 1, 2, 1, 6, 2, 1, 1, 1
]
/-- POWER-Code table of code_eu077. -/
def code_eu077Code : IrCode :=
  ⟨30303, 31, code_eu077Pairs, code_eu077Sequence⟩

/-- Table of On-Time/Off-Time pairs of code_eu078 (flat, as in the C array). -/
def code_eu078Pairs : List Nat := [
  60, 9250,
  60, 13390,
  60, 20980,
  60, 27870
]
/-- Table of indices to On-Time/Off-Time pairs of code_eu078. -/
def code_eu078Sequence : List Nat := [
  2, 1, 0, 0, 0, 0, 3, 1, 0, 0, 0, 0
]
/-- POWER-Code table of code_eu078. -/
def code_eu078Code : IrCode :=
  ⟨0, 12, code_eu078Pairs, code_eu078Sequence⟩

/-- Table of On-Time/Off-Time pairs of code_eu079 (flat, as in the C array). -/
def code_eu079Pairs : List Nat := [
  530, 590,
  530, 1700,
  530, 43590,
  8920, 4480,
  8930, 4480
]
/-- Table of indices to On-Time/Off-Time pairs of code_eu079. -/
def code_eu079Sequence : List Nat := [
  3, 0, 0, 0, 0, 0, 0, 0, 1, 1, 1, 0, 0, 0, 1, 1, 0, 1, 1, 1, 1, 0, 0, 0, 0, 0, 0, 0, 0, 1, 1, 1, 1, 2, 4, 0, 0, 0, 0, 0, 0, 0, 1, 1, 1, 0, 0, 0, 1, 1, 0, 1, 1, 1, 1, 0, 0, 0, 0, 0, 0, 0, 0, 1, 1, 1, 1, 0
]
/-- POWER-Code table of code_eu079. -/
def code_eu079Code : IrCode :=
  ⟨38462, 68, code_eu079Pairs, code_eu079Sequence⟩

/-- Table of On-Time/Off-Time pairs of code_eu080 (flat, as in the C array). -/
def code_eu080Pairs : List Nat := [
  550, 570,
  550, 1670,
  550, 44160,
  8950, 4480,
  8970, 4470
]
/-- Table of indices to On-Time/Off-Time pairs of code_eu080. -/
def code_eu080Sequence : List Nat := [
  3, 0, 0, 0, 0, 0, 0, 0, 1, 0, 0, 1, 0, 0, 1, 1, 0, 1, 0, 0, 1, 0, 0, 1, 0, 0, 1, 1, 0, 1, 1, 0, 1, 2, 4, 0, 0, 0, 0, 0, 0, 0, 1, 0, 0, 1, 0, 0, 1, 1, 0, 1, 0, 0, 1, 0, 0, 1, 0, 0, 1, 1, 0, 1, 1, 0, 1, 0
]
/-- POWER-Code table of code_eu080. -/
def code_eu080Code : IrCode :=
  ⟨38462, 68, code_eu080Pairs, code_eu080Sequence⟩

/-- Table of On-Time/Off-Time pairs of code_eu081 (flat, as in the C array). -/
def code_eu081Pairs : List Nat := [
  260, 1850,
  270, 800,
  270, 1850,
  270, 42490
]
/-- Table of indices to On-Time/Off-Time pairs of code_eu081. -/
def code_eu081Sequence : List Nat := [
  0, 1, 2, 2, 1, 1, 2, 2, 1, 2, 1, 1, 1, 2, 1, 3, 2, 1, 2, 2, 1, 2, 1, 1, 2, 1, 2, 2, 2, 1, 2, 3, 2, 1, 2, 2, 1, 1, 2, 2, 1, 2, 1, 1, 1, 2, 1, 3, 2, 1, 2, 2, 1, 2, 1, 1, 2, 1, 2, 2, 2, 1, 2, 3, 2, 1, 2, 2, 1, 1, 2, 2, 1, 2, 1, 1, 1, 2, 1, 1
]
/-- POWER-Code table of code_eu081. -/
def code_eu081Code : IrCode :=
  ⟨38462, 80, code_eu081Pairs, code_eu081Sequence⟩

/-- Table of On-Time/Off-Time pairs of code_eu082 (flat, as in the C array). -/
def code_eu082Pairs : List Nat := [
  510, 560,
  510, 1620,
  510, 28420,
  8480, 4300,
  8500, 4290
]
/-- Table of indices to On-Time/Off-Time pairs of code_eu082. -/
def code_eu082Sequence : List Nat := [
  3, 0, 1, 0, 1, 0, 1, 0, 1, 1, 0, 1, 0, 1, 0, 1, 0, 1, 1, 0, 1, 1, 0, 0, 0, 0, 0, 1, 0, 0, 1, 1, 1, 2, 4, 0, 1, 0, 1, 0, 1, 0, 1, 1, 0, 1, 0, 1, 0, 1, 0, 1, 1, 0, 1, 1, 0, 0, 0, 0, 0, 1, 0, 0, 1, 1, 1, 0
]
/-- POWER-Code table of code_eu082. -/
def code_eu082Code : IrCode :=
  ⟨40000, 68, code_eu082Pairs, code_eu082Sequence⟩

/-- Table of On-Time/Off-Time pairs of code_eu083 (flat, as in the C array). -/
def code_eu083Pairs : List Nat := [
  160, 5590,
  160, 8470,
  160, 59000,
  170, 5590,
  170, 8470
]
/-- Table of indices to On-Time/Off-Time pairs of code_eu083. -/
def code_eu083Sequence : List Nat := [
  0, 3, 4, 3, 4, 0, 4, 1, 4, 0, 4, 2, 3, 0, 4, 0, 4, 0, 4, 4, 4, 0, 4, 3
]
/-- POWER-Code table of code_eu083. -/
def code_eu083Code : IrCode :=
  ⟨33333, 24, code_eu083Pairs, code_eu083Sequence⟩

/-- Table of On-Time/Off-Time pairs of code_eu084 (flat, as in the C array). -/
def code_eu084Pairs : List Nat := [
  160, 4840,
  160, 7380,
  160, 7390,
  160, 47950
]
/-- Table of indices to On-Time/Off-Time pairs of code_eu084. -/
def code_eu084Sequence : List Nat := [
  1, 2, 2, 2, 2, 2, 0, 0, 0, 0, 0, 3, 2, 2, 2, 2, 2, 2, 0, 0, 0, 0, 0, 1
]
/-- POWER-Code table of code_eu084. -/
def code_eu084Code : IrCode :=
  ⟨38462, 24, code_eu084Pairs, code_eu084Sequence⟩

/-- Table of On-Time/Off-Time pairs of code_eu085 (flat, as in the C array). -/
def code_eu085Pairs : List Nat := [
  480, 520,
  480, 1600,
  480, 4000,
  480, 21200,
  7990, 4000
]
/-- Table of indices to On-Time/Off-Time pairs of code_eu085. -/
def code_eu085Sequence : List Nat := [
  4, 1, 1, 0, 1, 1, 0, 0, 0, 2, 1, 1, 1, 1, 1, 0, 0, 0, 3, 4, 1, 1, 0, 1, 1, 0, 0, 0, 2, 1, 1, 1, 1, 1, 0, 0, 0, 1
]
/-- POWER-Code table of code_eu085. -/
def code_eu085Code : IrCode :=
  ⟨38462, 38, code_eu085Pairs, code_eu085Sequence⟩

/-- Table of On-Time/Off-Time pairs of code_eu086 (flat, as in the C array). -/
def code_eu086Pairs : List Nat := [
  160, 8510,
  170, 5540,
  170, 8500,
  170, 8510,
  170, 48470
]
/-- Table of indices to On-Time/Off-Time pairs of code_eu086. -/
def code_eu086Sequence : List Nat := [
  2, 1, 3, 0, 3, 1, 3, 3, 0, 1, 3, 4, 3, 1, 3, 3, 0, 1, 3, 3, 0, 1, 0, 2
]
/-- POWER-Code table of code_eu086. -/
def code_eu086Code : IrCode :=
  ⟨33333, 24, code_eu086Pairs, code_eu086Sequence⟩

/-- Table of On-Time/Off-Time pairs of code_eu087 (flat, as in the C array). -/
def code_eu087Pairs : List Nat := [
  140, 4910,
  140, 7430,
  140, 51260
]
/-- Table of indices to On-Time/Off-Time pairs of code_eu087. -/
def code_eu087Sequence : List Nat := [
  1, 1, 1, 1, 1, 1, 0, 0, 0, 0, 0, 2, 1, 1, 1, 1, 1, 1, 0, 0, 0, 0, 0, 1
]
/-- POWER-Code table of code_eu087. -/
def code_eu087Code : IrCode :=
  ⟨38462, 24, code_eu087Pairs, code_eu087Sequence⟩

/-- Table of On-Time/Off-Time pairs of code_eu088 (flat, as in the C array). -/
def code_eu088Pairs : List Nat := [
  140, 4910,
  140, 7430,
  140, 48740
]
/-- Table of indices to On-Time/Off-Time pairs of code_eu088. -/
def code_eu088Sequence : List Nat := [
  1, 0, 1, 1, 1, 1, 1, 0, 1, 0, 0, 2, 1, 0, 1, 1, 1, 1, 1, 0, 1, 0, 0, 1
]
/-- POWER-Code table of code_eu088. -/
def code_eu088Code : IrCode :=
  ⟨38462, 24, code_eu088Pairs, code_eu088Sequence⟩

/-- Table of On-Time/Off-Time pairs of code_eu089 (flat, as in the C array). -/
def code_eu089Pairs : List Nat := [
  480, 520,
  480, 1600,
  480, 4000,
  480, 23350,
  7990, 4000
]
/-- Table of indices to On-Time/Off-Time pairs of code_eu089. -/
def code_eu089Sequence : List Nat := [
  4, 1, 0, 1, 0, 1, 0, 0, 0, 2, 1, 0, 1, 0, 1, 0, 0, 0, 3, 4, 1, 0, 1, 0, 1, 0, 0, 0, 2, 1, 0, 1, 0, 1, 0, 0, 0, 1
]
/-- POWER-Code table of code_eu089. -/
def code_eu089Code : IrCode :=
  ⟨38462, 38, code_eu089Pairs, code_eu089Sequence⟩

/-- Table of On-Time/Off-Time pairs of code_eu090 (flat, as in the C array). -/
def code_eu090Pairs : List Nat := [
  30, 90,
  30, 190,
  30, 290,
  30, 390,
  30, 99680
]
/-- Table of indices to On-Time/Off-Time pairs of code_eu090. -/
def code_eu090Sequence : List Nat := [
  3, 0, 0, 0, 0, 2, 1, 0, 0, 0, 0, 0, 1, 3, 4, 3, 0, 0, 0, 0, 2, 1, 0, 0, 0, 0, 0, 1, 3
]
/-- POWER-Code table of code_eu090. -/
def code_eu090Code : IrCode :=
  ⟨0, 29, code_eu090Pairs, code_eu090Sequence⟩

/-- Table of On-Time/Off-Time pairs of code_eu091 (flat, as in the C array). -/
def code_eu091Pairs : List Nat := [
  150, 1380,
  150, 4460,
  150, 6050,
  150, 65650
]
/-- Table of indices to On-Time/Off-Time pairs of code_eu091. -/
def code_eu091Sequence : List Nat := [
  2, 0, 0, 0, 0, 0, 0, 1, 0, 0, 0, 0, 0, 2, 3, 2, 0, 0, 0, 0, 0, 0, 1, 0, 0, 0, 0, 0, 2, 2
]
/-- POWER-Code table of code_eu091. -/
def code_eu091Code : IrCode :=
  ⟨38462, 30, code_eu091Pairs, code_eu091Sequence⟩

/-- Table of On-Time/Off-Time pairs of code_eu092 (flat, as in the C array). -/
def code_eu092Pairs : List Nat := [
  480, 500,
  480, 1480,
  480, 1490,
  480, 14240
]
/-- Table of indices to On-Time/Off-Time pairs of code_eu092. -/
def code_eu092Sequence : List Nat := [
  1, 0, 2, 0, 2, 0, 0, 0, 0, 0, 3, 2, 0, 2, 0, 2, 0, 0, 0, 0, 0, 1
]
/-- POWER-Code table of code_eu092. -/
def code_eu092Code : IrCode :=
  ⟨40000, 22, code_eu092Pairs, code_eu092Sequence⟩

/-- Table of On-Time/Off-Time pairs of code_eu093 (flat, as in the C array). -/
def code_eu093Pairs : List Nat := [
  870, 6390,
  880, 2750,
  880, 6390
]
/-- Table of indices to On-Time/Off-Time pairs of code_eu093. -/
def code_eu093Sequence : List Nat := [
  0, 1, 1, 1, 2, 1, 2, 2, 2, 1, 1
]
/-- POWER-Code table of code_eu093. -/
def code_eu093Code : IrCode :=
  ⟨35714, 11, code_eu093Pairs, code_eu093Sequence⟩

/-- Table of On-Time/Off-Time pairs of code_eu094 (flat, as in the C array). -/
def code_eu094Pairs : List Nat := [
  30, 80,
  30, 180,
  30, 240,
  30, 380,
  30, 99690
]
/-- Table of indices to On-Time/Off-Time pairs of code_eu094. -/
def code_eu094Sequence : List Nat := [
  3, 0, 1, 0, 0, 2, 1, 0, 0, 0, 0, 0, 0, 3, 4, 3, 0, 1, 0, 0, 2, 1, 0, 0, 0, 0, 0, 0, 3
]
/-- POWER-Code table of code_eu094. -/
def code_eu094Code : IrCode :=
  ⟨0, 29, code_eu094Pairs, code_eu094Sequence⟩

/-- Table of On-Time/Off-Time pairs of code_eu095 (flat, as in the C array). -/
def code_eu095Pairs : List Nat := [
  150, 4930,
  160, 4930,
  160, 6980,
  160, 14140
]
/-- Table of indices to On-Time/Off-Time pairs of code_eu095. -/
def code_eu095Sequence : List Nat := [
  0, 2, 2, 2, 2, 2, 2, 3, 1, 2, 2, 2, 2, 2, 2, 2
]
/-- POWER-Code table of code_eu095. -/
def code_eu095Code : IrCode :=
  ⟨34483, 16, code_eu095Pairs, code_eu095Sequence⟩

/-- Table of On-Time/Off-Time pairs of code_eu096 (flat, as in the C array). -/
def code_eu096Pairs : List Nat := [
  130, 6080,
  140, 1410,
  140, 2960,
  140, 4510,
  140, 6060,
  140, 6080,
  140, 62070
]
/-- Table of indices to On-Time/Off-Time pairs of code_eu096. -/
def code_eu096Sequence : List Nat := [
  0, 1, 1, 1, 2, 1, 1, 3, 1, 1, 1, 1, 2, 4, 6, 5, 1, 1, 1, 2, 1, 1, 3, 1, 1, 1, 1, 2, 4, 1
]
/-- POWER-Code table of code_eu096. -/
def code_eu096Code : IrCode :=
  ⟨38462, 30, code_eu096Pairs, code_eu096Sequence⟩

/-- Table of On-Time/Off-Time pairs of code_eu097 (flat, as in the C array). -/
def code_eu097Pairs : List Nat := [
  150, 4930,
  160, 4930,
  160, 6980,
  160, 14140
]
/-- Table of indices to On-Time/Off-Time pairs of code_eu097. -/
def code_eu097Sequence : List Nat := [
  0, 1, 2, 1, 2, 2, 2, 3, 1, 1, 2, 1, 2, 2, 2, 1
]
/-- POWER-Code table of code_eu097. -/
def code_eu097Code : IrCode :=
  ⟨34483, 16, code_eu097Pairs, code_eu097Sequence⟩

/-- Table of On-Time/Off-Time pairs of code_eu098 (flat, as in the C array). -/
def code_eu098Pairs : List Nat := [
  30, 80,
  30, 180,
  30, 280,
  30, 127310
]
/-- Table of indices to On-Time/Off-Time pairs of code_eu098. -/
def code_eu098Sequence : List Nat := [
  2, 0, 0, 0, 0, 0, 0, 1, 0, 0, 0, 0, 2, 3, 2, 0, 1, 1, 1, 1, 0, 1, 0, 0, 0, 0, 2
]
/-- POWER-Code table of code_eu098. -/
def code_eu098Code : IrCode :=
  ⟨0, 27, code_eu098Pairs, code_eu098Sequence⟩

/-- Table of On-Time/Off-Time pairs of code_eu099 (flat, as in the C array). -/
def code_eu099Pairs : List Nat := [
  460, 530,
  460, 1060,
  460, 2600,
  460, 15020,
  460, 109620,
  930, 530,
  930, 1060
]
/-- Table of indices to On-Time/Off-Time pairs of code_eu099. -/
def code_eu099Sequence : List Nat := [
  2, 1, 5, 0, 0, 0, 0, 0, 0, 0, 0, 0, 0, 0, 0, 3, 2, 1, 0, 5, 1, 0, 0, 0, 0, 0, 0, 0, 6, 0, 4, 2, 1, 0, 5, 1, 0, 0, 0, 0, 0, 0, 0, 6, 0, 2
]
/-- POWER-Code table of code_eu099. -/
def code_eu099Code : IrCode :=
  ⟨35714, 46, code_eu099Pairs, code_eu099Sequence⟩

/-- Table of On-Time/Off-Time pairs of code_eu100 (flat, as in the C array). -/
def code_eu100Pairs : List Nat := [
  30, 80,
  30, 180,
  30, 280,
  30, 127310
]
/-- Table of indices to On-Time/Off-Time pairs of code_eu100. -/
def code_eu100Sequence : List Nat := [
  2, 0, 0, 0, 0, 0, 1, 0, 0, 0, 0, 0, 2, 3, 2, 0, 1, 1, 1, 1, 1, 0, 0, 0, 0, 0, 2
]
/-- POWER-Code table of code_eu100. -/
def code_eu100Code : IrCode :=
  ⟨0, 27, code_eu100Pairs, code_eu100Sequence⟩

/-- Table of On-Time/Off-Time pairs of code_eu101 (flat, as in the C array). -/
def code_eu101Pairs : List Nat := [
  140, 4910,
  140, 7430,
  140, 46740
]
/-- Table of indices to On-Time/Off-Time pairs of code_eu101. -/
def code_eu101Sequence : List Nat := [
  1, 1, 1, 1, 1, 1, 0, 0, 0, 0, 1, 2, 1, 1, 1, 1, 1, 1, 0, 0, 0, 0, 1, 1
]
/-- POWER-Code table of code_eu101. -/
def code_eu101Code : IrCode :=
  ⟨38462, 24, code_eu101Pairs, code_eu101Sequence⟩

/-- Table of On-Time/Off-Time pairs of code_eu102 (flat, as in the C array). -/
def code_eu102Pairs : List Nat := [
  140, 4910,
  140, 7430,
  140, 51260
]
/-- Table of indices to On-Time/Off-Time pairs of code_eu102. -/
def code_eu102Sequence : List Nat := [
  1, 0, 1, 1, 1, 1, 1, 0, 0, 0, 0, 2, 1, 0, 1, 1, 1, 1, 1, 0, 0, 0, 0, 1
]
/-- POWER-Code table of code_eu102. -/
def code_eu102Code : IrCode :=
  ⟨38462, 24, code_eu102Pairs, code_eu102Sequence⟩

/-- Table of On-Time/Off-Time pairs of code_eu103 (flat, as in the C array). -/
def code_eu103Pairs : List Nat := [
  440, 8150,
  450, 5280,
  450, 8150,
  450, 50000
]
/-- Table of indices to On-Time/Off-Time pairs of code_eu103. -/
def code_eu103Sequence : List Nat := [
  0, 2, 2, 1, 2, 1, 2, 2, 2, 1, 2, 3, 2, 2, 2, 1, 2, 1, 2, 2, 2, 1, 2, 2
]
/-- POWER-Code table of code_eu103. -/
def code_eu103Code : IrCode :=
  ⟨34483, 24, code_eu103Pairs, code_eu103Sequence⟩

/-- Table of On-Time/Off-Time pairs of code_eu104 (flat, as in the C array). -/
def code_eu104Pairs : List Nat := [
  140, 4910,
  140, 7430,
  140, 58810
]
/-- Table of indices to On-Time/Off-Time pairs of code_eu104. -/
def code_eu104Sequence : List Nat := [
  1, 0, 1, 0, 1, 0, 0, 0, 0, 0, 0, 2, 1, 0, 1, 0, 1, 0, 0, 0, 0, 0, 0, 1
]
/-- POWER-Code table of code_eu104. -/
def code_eu104Code : IrCode :=
  ⟨38462, 24, code_eu104Pairs, code_eu104Sequence⟩

/-- Table of On-Time/Off-Time pairs of code_eu105 (flat, as in the C array). -/
def code_eu105Pairs : List Nat := [
  530, 560,
  530, 1710,
  530, 39500,
  530, 95990,
  8980, 4510,
  9000, 2260
]
/-- Table of indices to On-Time/Off-Time pairs of code_eu105. -/
def code_eu105Sequence : List Nat := [
  4, 1, 0, 1, 0, 0, 0, 0, 1, 0, 1, 1, 0, 0, 0, 1, 0, 0, 1, 0, 0, 1, 0, 0, 0, 1, 0, 1, 1, 0, 1, 1, 1, 2, 5, 3, 5, 1
]
/-- POWER-Code table of code_eu105. -/
def code_eu105Code : IrCode :=
  ⟨38610, 38, code_eu105Pairs, code_eu105Sequence⟩

/-- Table of On-Time/Off-Time pairs of code_eu106 (flat, as in the C array). -/
def code_eu106Pairs : List Nat := [
  480, 2460,
  500, 470,
  500, 940,
  500, 2450,
  500, 14880,
  500, 109700,
  1000, 470,
  1000, 940
]
/-- Table of indices to On-Time/Off-Time pairs of code_eu106. -/
def code_eu106Sequence : List Nat := [
  0, 2, 6, 1, 1, 1, 1, 1, 1, 1, 1, 1, 1, 1, 1, 1, 4, 3, 2, 1, 6, 2, 1, 1, 1, 1, 7, 7, 6, 2, 5, 3, 2, 1, 6, 2, 1, 1, 1, 1, 7, 7, 6, 2, 5, 3, 2, 1, 6, 2, 1, 1, 1, 1, 7, 7, 6, 2, 2
]
/-- POWER-Code table of code_eu106. -/
def code_eu106Code : IrCode :=
  ⟨38462, 59, code_eu106Pairs, code_eu106Sequence⟩

/-- Table of On-Time/Off-Time pairs of code_eu107 (flat, as in the C array). -/
def code_eu107Pairs : List Nat := [
  160, 8470,
  160, 59000,
  170, 5590,
  170, 8460,
  170, 8470
]
/-- Table of indices to On-Time/Off-Time pairs of code_eu107. -/
def code_eu107Sequence : List Nat := [
  3, 0, 4, 0, 4, 2, 4, 0, 4, 2, 4, 1, 4, 4, 0, 4, 0, 2, 0, 4, 0, 2, 0, 3
]
/-- POWER-Code table of code_eu107. -/
def code_eu107Code : IrCode :=
  ⟨33333, 24, code_eu107Pairs, code_eu107Sequence⟩

/-- Table of On-Time/Off-Time pairs of code_eu108 (flat, as in the C array). -/
def code_eu108Pairs : List Nat := [
  140, 4910,
  140, 7430,
  140, 46220
]
/-- Table of indices to On-Time/Off-Time pairs of code_eu108. -/
def code_eu108Sequence : List Nat := [
  1, 0, 1, 1, 1, 1, 1, 0, 0, 1, 1, 2, 1, 0, 1, 1, 1, 1, 1, 0, 0, 1, 1, 1
]
/-- POWER-Code table of code_eu108. -/
def code_eu108Code : IrCode :=
  ⟨38462, 24, code_eu108Pairs, code_eu108Sequence⟩

/-- Table of On-Time/Off-Time pairs of code_eu109 (flat, as in the C array). -/
def code_eu109Pairs : List Nat := [
  240, 1850,
  270, 780,
  270, 1830,
  270, 15420
]
/-- Table of indices to On-Time/Off-Time pairs of code_eu109. -/
def code_eu109Sequence : List Nat := [
  0, 1, 2, 1, 2, 1, 1, 1, 1, 1, 3, 2, 1, 2, 1, 2, 1, 1, 1, 1, 1, 1
]
/-- POWER-Code table of code_eu109. -/
def code_eu109Code : IrCode :=
  ⟨38462, 22, code_eu109Pairs, code_eu109Sequence⟩

/-- Table of On-Time/Off-Time pairs of code_eu110 (flat, as in the C array). -/
def code_eu110Pairs : List Nat := [
  560, 550,
  560, 1680,
  560, 48500,
  4470, 4530,
  4480, 4530
]
/-- Table of indices to On-Time/Off-Time pairs of code_eu110. -/
def code_eu110Sequence : List Nat := [
  3, 1, 0, 1, 0, 0, 0, 0, 0, 1, 0, 1, 0, 0, 0, 0, 0, 0, 1, 0, 0, 0, 0, 0, 0, 1, 0, 1, 1, 1, 1, 1, 1, 2, 4, 1, 0, 1, 0, 0, 0, 0, 0, 1, 0, 1, 0, 0, 0, 0, 0, 0, 1, 0, 0, 0, 0, 0, 0, 1, 0, 1, 1, 1, 1, 1, 1, 1
]
/-- POWER-Code table of code_eu110. -/
def code_eu110Code : IrCode :=
  ⟨38462, 68, code_eu110Pairs, code_eu110Sequence⟩

/-- Table of On-Time/Off-Time pairs of code_eu111 (flat, as in the C array). -/
def code_eu111Pairs : List Nat := [
  490, 520,
  490, 2500,
  490, 2520,
  490, 23770,
  490, 120090,
  1000, 520,
  1000, 1020
]
/-- Table of indices to On-Time/Off-Time pairs of code_eu111. -/
def code_eu111Sequence : List Nat := [
  1, 0, 5, 0, 0, 0, 3, 2, 0, 6, 0, 0, 0, 4, 2, 0, 6, 0, 0, 0, 1
]
/-- POWER-Code table of code_eu111. -/
def code_eu111Code : IrCode :=
  ⟨31250, 21, code_eu111Pairs, code_eu111Sequence⟩

/-- Table of On-Time/Off-Time pairs of code_eu112 (flat, as in the C array). -/
def code_eu112Pairs : List Nat := [
  550, 550,
  550, 1670,
  550, 50230,
  550, 95060,
  4480, 4450,
  4500, 4440
]
/-- Table of indices to On-Time/Off-Time pairs of code_eu112. -/
def code_eu112Sequence : List Nat := [
  4, 0, 0, 0, 1, 0, 0, 0, 0, 0, 0, 0, 1, 0, 0, 0, 0, 1, 1, 1, 1, 0, 0, 0, 0, 0, 0, 0, 0, 1, 1, 1, 1, 2, 5, 1, 3, 5, 1, 0
]
/-- POWER-Code table of code_eu112. -/
def code_eu112Code : IrCode :=
  ⟨38462, 40, code_eu112Pairs, code_eu112Sequence⟩

/-- Table of On-Time/Off-Time pairs of code_eu113 (flat, as in the C array). -/
def code_eu113Pairs : List Nat := [
  490, 530,
  490, 1040,
  490, 2620,
  490, 2640,
  490, 80300,
  1000, 1030
]
/-- Table of indices to On-Time/Off-Time pairs of code_eu113. -/
def code_eu113Sequence : List Nat := [
  2, 1, 5, 0, 0, 0, 4, 3, 1, 5, 0, 0, 0, 2
]
/-- POWER-Code table of code_eu113. -/
def code_eu113Code : IrCode :=
  ⟨31250, 14, code_eu113Pairs, code_eu113Sequence⟩

/-- Table of On-Time/Off-Time pairs of code_eu114 (flat, as in the C array). -/
def code_eu114Pairs : List Nat := [
  470, 2670,
  500, 550,
  500, 1100,
  500, 2650,
  500, 20550,
  500, 121170,
  1000, 570
]
/-- Table of indices to On-Time/Off-Time pairs of code_eu114. -/
def code_eu114Sequence : List Nat := [
  0, 1, 1, 1, 1, 1, 1, 1, 1, 1, 4, 3, 2, 1, 6, 1, 2, 1, 1, 1, 5, 3, 2, 1, 6, 1, 2, 1, 1, 1, 1
]
/-- POWER-Code table of code_eu114. -/
def code_eu114Code : IrCode :=
  ⟨30303, 31, code_eu114Pairs, code_eu114Sequence⟩

/-- Table of On-Time/Off-Time pairs of code_eu115 (flat, as in the C array). -/
def code_eu115Pairs : List Nat := [
  480, 980,
  480, 1960,
  970, 8360,
  3950, 3880,
  19310, 3890
]
/-- Table of indices to On-Time/Off-Time pairs of code_eu115. -/
def code_eu115Sequence : List Nat := [
  4, 1, 1, 1, 1, 0, 0, 1, 1, 1, 0, 1, 1, 0, 0, 0, 0, 1, 1, 0, 0, 0, 1, 0, 0, 2, 3, 1, 1, 1, 1, 0, 0, 1, 1, 1, 0, 1, 1, 0, 0, 0, 0, 1, 1, 0, 0, 0, 1, 0, 0, 2, 3, 1, 1, 1, 1, 0, 0, 1, 1, 1, 0, 1, 1, 0, 0, 0, 0, 1, 1, 0, 0, 0, 1, 0, 1
]
/-- POWER-Code table of code_eu115. -/
def code_eu115Code : IrCode :=
  ⟨58824, 77, code_eu115Pairs, code_eu115Sequence⟩

/-- Table of On-Time/Off-Time pairs of code_eu116 (flat, as in the C array). -/
def code_eu116Pairs : List Nat := [
  30, 90,
  30, 310,
  30, 420,
  30, 109570
]
/-- Table of indices to On-Time/Off-Time pairs of code_eu116. -/
def code_eu116Sequence : List Nat := [
  2, 0, 0, 0, 0, 0, 0, 1, 0, 0, 0, 0, 0, 2, 3, 2, 0, 0, 0, 0, 0, 0, 1, 0, 0, 0, 0, 0, 2
]
/-- POWER-Code table of code_eu116. -/
def code_eu116Code : IrCode :=
  ⟨0, 29, code_eu116Pairs, code_eu116Sequence⟩

/-- Table of On-Time/Off-Time pairs of code_eu117 (flat, as in the C array). -/
def code_eu117Pairs : List Nat := [
  490, 530,
  490, 2620,
  490, 2640,
  490, 80300,
  1000, 1030
]
/-- Table of indices to On-Time/Off-Time pairs of code_eu117. -/
def code_eu117Sequence : List Nat := [
  1, 0, 4, 0, 0, 0, 3, 2, 0, 4, 0, 0, 0, 1
]
/-- POWER-Code table of code_eu117. -/
def code_eu117Code : IrCode :=
  ⟨31250, 14, code_eu117Pairs, code_eu117Sequence⟩

/-- Table of On-Time/Off-Time pairs of code_eu118 (flat, as in the C array). -/
def code_eu118Pairs : List Nat := [
  440, 8150,
  450, 5280,
  450, 8150,
  450, 47130
]
/-- Table of indices to On-Time/Off-Time pairs of code_eu118. -/
def code_eu118Sequence : List Nat := [
  0, 2, 2, 2, 2, 1, 2, 2, 2, 1, 2, 3, 2, 2, 2, 2, 2, 1, 2, 2, 2, 1, 2, 2
]
/-- POWER-Code table of code_eu118. -/
def code_eu118Code : IrCode :=
  ⟨34483, 24, code_eu118Pairs, code_eu118Sequence⟩

/-- Table of On-Time/Off-Time pairs of code_eu119 (flat, as in the C array). -/
def code_eu119Pairs : List Nat := [
  140, 4910,
  140, 7430,
  140, 54300
]
/-- Table of indices to On-Time/Off-Time pairs of code_eu119. -/
def code_eu119Sequence : List Nat := [
  1, 0, 1, 0, 1, 0, 1, 0, 0, 0, 0, 2, 1, 0, 1, 0, 1, 0, 1, 0, 0, 0, 0, 1
]
/-- POWER-Code table of code_eu119. -/
def code_eu119Code : IrCode :=
  ⟨38462, 24, code_eu119Pairs, code_eu119Sequence⟩

/-- Table of On-Time/Off-Time pairs of code_eu120 (flat, as in the C array). -/
def code_eu120Pairs : List Nat := [
  190, 780,
  210, 270,
  210, 770,
  210, 37850,
  220, 0
]
/-- Table of indices to On-Time/Off-Time pairs of code_eu120. -/
def code_eu120Sequence : List Nat := [
  0, 2, 2, 2, 2, 2, 2, 2, 2, 2, 2, 1, 1, 1, 1, 2, 1, 1, 1, 1, 1, 1, 1, 1, 1, 1, 1, 1, 1, 1, 1, 1, 1, 1, 1, 1, 2, 2, 1, 1, 3, 2, 2, 2, 2, 2, 2, 2, 2, 2, 2, 2, 1, 1, 1, 1, 2, 1, 1, 1, 1, 1, 1, 1, 1, 1, 1, 1, 1, 1, 1, 1, 1, 1, 1, 1, 1, 2, 2, 1, 1, 4
]
/-- POWER-Code table of code_eu120. -/
def code_eu120Code : IrCode :=
  ⟨38462, 82, code_eu120Pairs, code_eu120Sequence⟩

/-- Table of On-Time/Off-Time pairs of code_eu121 (flat, as in the C array). -/
def code_eu121Pairs : List Nat := [
  840, 880,
  840, 2610,
  840, 33600,
  3470, 3470,
  3470, 3480
]
/-- Table of indices to On-Time/Off-Time pairs of code_eu121. -/
def code_eu121Sequence : List Nat := [
  3, 1, 0, 0, 0, 0, 1, 1, 1, 1, 0, 0, 0, 0, 1, 1, 1, 1, 0, 0, 0, 0, 1, 1, 1, 2, 4, 1, 0, 0, 0, 0, 1, 1, 1, 1, 0, 0, 0, 0, 1, 1, 1, 1, 0, 0, 0, 0, 1, 1, 1, 1
]
/-- POWER-Code table of code_eu121. -/
def code_eu121Code : IrCode :=
  ⟨38462, 52, code_eu121Pairs, code_eu121Sequence⟩

/-- Table of On-Time/Off-Time pairs of code_eu122 (flat, as in the C array). -/
def code_eu122Pairs : List Nat := [
  190, 780,
  210, 270,
  210, 770,
  210, 37850,
  220, 0
]
/-- Table of indices to On-Time/Off-Time pairs of code_eu122. -/
def code_eu122Sequence : List Nat := [
  0, 1, 1, 2, 2, 2, 2, 2, 2, 2, 2, 2, 1, 1, 1, 1, 2, 2, 1, 1, 1, 1, 1, 1, 1, 1, 1, 1, 1, 1, 1, 1, 1, 1, 1, 1, 2, 2, 1, 1, 3, 2, 1, 1, 2, 2, 2, 2, 2, 2, 2, 2, 2, 1, 1, 1, 1, 2, 2, 1, 1, 1, 1, 1, 1, 1, 1, 1, 1, 1, 1, 1, 1, 1, 1, 1, 1, 2, 2, 1, 1, 4
]
/-- POWER-Code table of code_eu122. -/
def code_eu122Code : IrCode :=
  ⟨38462, 82, code_eu122Pairs, code_eu122Sequence⟩

/-- Table of On-Time/Off-Time pairs of code_eu123 (flat, as in the C array). -/
def code_eu123Pairs : List Nat := [
  130, 4900,
  130, 7410,
  130, 7420,
  130, 54430
]
/-- Table of indices to On-Time/Off-Time pairs of code_eu123. -/
def code_eu123Sequence : List Nat := [
  1, 2, 2, 2, 2, 2, 0, 0, 0, 0, 2, 3, 2, 2, 2, 2, 2, 2, 0, 0, 0, 0, 2, 1
]
/-- POWER-Code table of code_eu123. -/
def code_eu123Code : IrCode :=
  ⟨40000, 24, code_eu123Pairs, code_eu123Sequence⟩

/-- Table of On-Time/Off-Time pairs of code_eu124 (flat, as in the C array). -/
def code_eu124Pairs : List Nat := [
  500, 540,
  500, 1580,
  500, 4070,
  500, 21530,
  8430, 4070
]
/-- Table of indices to On-Time/Off-Time pairs of code_eu124. -/
def code_eu124Sequence : List Nat := [
  4, 0, 0, 1, 0, 1, 0, 0, 0, 2, 1, 1, 1, 1, 1, 0, 0, 0, 3, 4, 0, 0, 1, 0, 1, 0, 0, 0, 2, 1, 1, 1, 1, 1, 0, 0, 0, 0
]
/-- POWER-Code table of code_eu124. -/
def code_eu124Code : IrCode :=
  ⟨38462, 38, code_eu124Pairs, code_eu124Sequence⟩

/-- Table of On-Time/Off-Time pairs of code_eu125 (flat, as in the C array). -/
def code_eu125Pairs : List Nat := [
  550, 560,
  550, 1680,
  550, 39290,
  560, 0,
  8820, 4540,
  8840, 4520
]
/-- Table of indices to On-Time/Off-Time pairs of code_eu125. -/
def code_eu125Sequence : List Nat := [
  4, 1, 1, 0, 0, 0, 0, 0, 1, 0, 1, 0, 1, 1, 1, 1, 0, 0, 0, 0, 1, 0, 0, 0, 0, 1, 1, 1, 0, 1, 1, 1, 1, 2, 5, 1, 1, 0, 0, 0, 0, 0, 1, 0, 1, 0, 1, 1, 1, 1, 0, 0, 0, 0, 1, 0, 0, 0, 0, 1, 1, 1, 0, 1, 1, 1, 1, 3
]
/-- POWER-Code table of code_eu125. -/
def code_eu125Code : IrCode :=
  ⟨38462, 68, code_eu125Pairs, code_eu125Sequence⟩

/-- Table of On-Time/Off-Time pairs of code_eu126 (flat, as in the C array). -/
def code_eu126Pairs : List Nat := [
  550, 570,
  550, 1700,
  550, 39490,
  550, 96230,
  560, 0,
  8980, 4530,
  9000, 2260
]
/-- Table of indices to On-Time/Off-Time pairs of code_eu126. -/
def code_eu126Sequence : List Nat := [
  5, 0, 0, 0, 0, 0, 0, 0, 0, 1, 1, 1, 1, 1, 1, 1, 1, 0, 0, 0, 0, 0, 0, 0, 0, 1, 1, 1, 1, 1, 1, 1, 1, 2, 6, 3, 6, 4
]
/-- POWER-Code table of code_eu126. -/
def code_eu126Code : IrCode :=
  ⟨38462, 38, code_eu126Pairs, code_eu126Sequence⟩

/-- Table of On-Time/Off-Time pairs of code_eu127 (flat, as in the C array). -/
def code_eu127Pairs : List Nat := [
  140, 4910,
  140, 7430,
  140, 51260
]
/-- Table of indices to On-Time/Off-Time pairs of code_eu127. -/
def code_eu127Sequence : List Nat := [
  1, 0, 1, 0, 1, 0, 0, 0, 1, 1, 1, 2, 1, 0, 1, 0, 1, 0, 0, 0, 1, 1, 1, 1
]
/-- POWER-Code table of code_eu127. -/
def code_eu127Code : IrCode :=
  ⟨38462, 24, code_eu127Pairs, code_eu127Sequence⟩

/-- Table of On-Time/Off-Time pairs of code_eu128 (flat, as in the C array). -/
def code_eu128Pairs : List Nat := [
  1520, 4710,
  1540, 1560,
  1540, 4690,
  1540, 7820,
  1540, 29470
]
/-- Table of indices to On-Time/Off-Time pairs of code_eu128. -/
def code_eu128Sequence : List Nat := [
  0, 1, 3, 4, 2, 1, 3, 1
]
/-- POWER-Code table of code_eu128. -/
def code_eu128Code : IrCode :=
  ⟨41667, 8, code_eu128Pairs, code_eu128Sequence⟩

/-- Table of On-Time/Off-Time pairs of code_eu129 (flat, as in the C array). -/
def code_eu129Pairs : List Nat := [
  500, 500,
  500, 990,
  500, 2510,
  500, 2520,
  500, 14490,
  500, 110140,
  1020, 490,
  1020, 980
]
/-- Table of indices to On-Time/Off-Time pairs of code_eu129. -/
def code_eu129Sequence : List Nat := [
  2, 1, 6, 0, 0, 0, 0, 0, 0, 0, 0, 0, 0, 0, 0, 0, 4, 3, 1, 0, 6, 1, 0, 0, 0, 0, 7, 7, 0, 7, 5, 3, 1, 0, 6, 1, 0, 0, 0, 0, 7, 7, 0, 7, 2
]
/-- POWER-Code table of code_eu129. -/
def code_eu129Code : IrCode :=
  ⟨38462, 45, code_eu129Pairs, code_eu129Sequence⟩

/-- Table of On-Time/Off-Time pairs of code_eu130 (flat, as in the C array). -/
def code_eu130Pairs : List Nat := [
  500, 500,
  500, 990,
  500, 2510,
  500, 2520,
  500, 14490,
  500, 110140,
  1020, 490,
  1020, 980
]
/-- Table of indices to On-Time/Off-Time pairs of code_eu130. -/
def code_eu130Sequence : List Nat := [
  2, 1, 6, 0, 0, 0, 0, 0, 0, 0, 0, 0, 0, 0, 0, 0, 4, 3, 1, 0, 6, 1, 0, 0, 0, 0, 7, 6, 1, 7, 5, 3, 1, 0, 6, 1, 0, 0, 0, 0, 7, 6, 1, 7, 2
]
/-- POWER-Code table of code_eu130. -/
def code_eu130Code : IrCode :=
  ⟨38462, 45, code_eu130Pairs, code_eu130Sequence⟩

/-- Table of On-Time/Off-Time pairs of code_eu131 (flat, as in the C array). -/
def code_eu131Pairs : List Nat := [
  140, 4910,
  140, 7430,
  140, 41700
]
/-- Table of indices to On-Time/Off-Time pairs of code_eu131. -/
def code_eu131Sequence : List Nat := [
  1, 1, 1, 1, 1, 1, 1, 1, 1, 0, 0, 2, 1, 1, 1, 1, 1, 1, 1, 1, 1, 0, 0, 1
]
/-- POWER-Code table of code_eu131. -/
def code_eu131Code : IrCode :=
  ⟨38462, 24, code_eu131Pairs, code_eu131Sequence⟩

/-- Table of On-Time/Off-Time pairs of code_eu132 (flat, as in the C array). -/
def code_eu132Pairs : List Nat := [
  40, 4990,
  40, 7500,
  40, 49990
]
/-- Table of indices to On-Time/Off-Time pairs of code_eu132. -/
def code_eu132Sequence : List Nat := [
  0, 0, 1, 1, 1, 1, 0, 0, 0, 0, 1, 2, 0, 0, 1, 1, 1, 1, 0, 0, 0, 0, 1
]
/-- POWER-Code table of code_eu132. -/
def code_eu132Code : IrCode :=
  ⟨0, 23, code_eu132Pairs, code_eu132Sequence⟩

/-- Table of On-Time/Off-Time pairs of code_eu133 (flat, as in the C array). -/
def code_eu133Pairs : List Nat := [
  140, 4910,
  140, 7430,
  140, 44220
]
/-- Table of indices to On-Time/Off-Time pairs of code_eu133. -/
def code_eu133Sequence : List Nat := [
  1, 1, 1, 1, 1, 1, 1, 0, 0, 1, 0, 2, 1, 1, 1, 1, 1, 1, 1, 0, 0, 1, 0, 1
]
/-- POWER-Code table of code_eu133. -/
def code_eu133Code : IrCode :=
  ⟨38462, 24, code_eu133Pairs, code_eu133Sequence⟩

/-- Table of On-Time/Off-Time pairs of code_eu134 (flat, as in the C array). -/
def code_eu134Pairs : List Nat := [
  130, 4900,
  130, 7410,
  130, 7420,
  130, 59390
]
/-- Table of indices to On-Time/Off-Time pairs of code_eu134. -/
def code_eu134Sequence : List Nat := [
  1, 0, 0, 0, 0, 0, 2, 2, 2, 0, 0, 3, 2, 0, 0, 0, 0, 0, 2, 2, 2, 0, 0, 1
]
/-- POWER-Code table of code_eu134. -/
def code_eu134Code : IrCode :=
  ⟨40000, 24, code_eu134Pairs, code_eu134Sequence⟩

/-- Table of On-Time/Off-Time pairs of code_eu135 (flat, as in the C array). -/
def code_eu135Pairs : List Nat := [
  60, 5660,
  60, 8510,
  60, 51880
]
/-- Table of indices to On-Time/Off-Time pairs of code_eu135. -/
def code_eu135Sequence : List Nat := [
  1, 1, 1, 0, 1, 0, 1, 1, 1, 0, 1, 2, 1, 1, 1, 0, 1, 0, 1, 1, 1, 0, 1
]
/-- POWER-Code table of code_eu135. -/
def code_eu135Code : IrCode :=
  ⟨0, 23, code_eu135Pairs, code_eu135Sequence⟩

/-- Table of On-Time/Off-Time pairs of code_eu136 (flat, as in the C array). -/
def code_eu136Pairs : List Nat := [
  550, 570,
  550, 1700,
  550, 39490,
  550, 96230,
  560, 0,
  8980, 4530,
  9000, 2260
]
/-- Table of indices to On-Time/Off-Time pairs of code_eu136. -/
def code_eu136Sequence : List Nat := [
  5, 0, 0, 0, 0, 0, 0, 0, 0, 1, 1, 1, 1, 1, 1, 1, 1, 1, 0, 0, 0, 0, 0, 0, 0, 0, 1, 1, 1, 1, 1, 1, 1, 2, 6, 3, 6, 4
]
/-- POWER-Code table of code_eu136. -/
def code_eu136Code : IrCode :=
  ⟨38462, 38, code_eu136Pairs, code_eu136Sequence⟩

/-- Table of On-Time/Off-Time pairs of code_eu137 (flat, as in the C array). -/
def code_eu137Pairs : List Nat := [
  860, 910,
  870, 900,
  870, 1800,
  870, 88680,
  880, 0,
  1740, 900
]
/-- Table of indices to On-Time/Off-Time pairs of code_eu137. -/
def code_eu137Sequence : List Nat := [
  0, 5, 1, 1, 2, 5, 1, 2, 1, 5, 3, 1, 5, 1, 1, 2, 5, 1, 2, 1, 5, 4
]
/-- POWER-Code table of code_eu137. -/
def code_eu137Code : IrCode :=
  ⟨35714, 22, code_eu137Pairs, code_eu137Sequence⟩

/-- Table of On-Time/Off-Time pairs of code_eu138 (flat, as in the C array). -/
def code_eu138Pairs : List Nat := [
  40, 10360,
  40, 15070,
  40, 30050
]
/-- Table of indices to On-Time/Off-Time pairs of code_eu138. -/
def code_eu138Sequence : List Nat := [
  0, 0, 1, 1, 1, 2, 0, 0, 1, 1, 1
]
/-- POWER-Code table of code_eu138. -/
def code_eu138Code : IrCode :=
  ⟨0, 11, code_eu138Pairs, code_eu138Sequence⟩

/-- Table of On-Time/Off-Time pairs of code_eu139 (flat, as in the C array). -/
def code_eu139Pairs : List Nat := [
  0, 0,
  140, 1410,
  140, 4520,
  140, 6070,
  140, 63100
]
/-- Table of indices to On-Time/Off-Time pairs of code_eu139. -/
def code_eu139Sequence : List Nat := [
  3, 1, 1, 1, 1, 1, 1, 2, 1, 1, 1, 1, 1, 3, 4, 3, 1, 1, 1, 1, 1, 1, 2, 1, 1, 1, 1, 1, 3, 0
]
/-- POWER-Code table of code_eu139. -/
def code_eu139Code : IrCode :=
  ⟨0, 30, code_eu139Pairs, code_eu139Sequence⟩

/-- The NA table of POWER-Codes, in source order. -/
def NApowerCodes : List IrCode := [
  code_na000Code, code_na001Code, code_na002Code, code_na003Code,
  code_na004Code, code_na005Code, code_na006Code, code_na007Code,
  code_na008Code, code_na009Code, code_na010Code, code_na011Code,
  code_na012Code, code_na013Code, code_na014Code, code_na015Code,
  code_na016Code, code_na017Code, code_na018Code, code_na019Code,
  code_na020Code, code_na021Code, code_na022Code, code_na023Code,
  code_na024Code, code_na025Code, code_na026Code, code_na027Code,
  code_na028Code, code_na029Code, code_na030Code, code_na031Code,
  code_na032Code, code_na033Code, code_na034Code, code_na035Code,
  code_na036Code, code_na037Code, code_na038Code, code_na039Code,
  code_na040Code, code_na041Code, code_na042Code, code_na043Code,
  code_na044Code, code_na045Code, code_na046Code, code_na047Code,
  code_na048Code, code_na049Code, code_na050Code, code_na051Code,
  code_na052Code, code_na053Code, code_na054Code, code_na055Code,
  code_na056Code, code_na057Code, code_na058Code, code_na059Code,
  code_na060Code, code_na061Code, code_na062Code, code_na063Code,
  code_na064Code, code_na065Code, code_na066Code, code_na067Code,
  code_na068Code, code_na069Code, code_na070Code, code_na071Code,
  code_na072Code, code_na073Code, code_na074Code, code_na075Code,
  code_na076Code, code_na077Code, code_na078Code, code_na079Code,
  code_na080Code, code_na081Code, code_na082Code, code_na083Code,
  code_na084Code, code_na085Code, code_na086Code, code_na087Code,
  code_na088Code, code_na089Code, code_na090Code, code_na091Code,
  code_na092Code, code_na093Code, code_na094Code, code_na095Code,
  code_na096Code, code_na097Code, code_na098Code, code_na099Code,
  code_na100Code, code_na101Code, code_na102Code, code_na103Code,
  code_na104Code, code_na105Code, code_na106Code, code_na107Code,
  code_na108Code, code_na109Code, code_na110Code, code_na111Code,
  code_na112Code, code_na113Code, code_na114Code, code_na115Code,
  code_na116Code, code_na117Code, code_na118Code, code_na119Code,
  code_na120Code, code_na121Code, code_na122Code, code_na123Code,
  code_na124Code, code_na125Code, code_na126Code, code_na127Code,
  code_na128Code, code_na129Code, code_na130Code, code_na131Code,
  code_na132Code, code_na133Code, code_na134Code, code_na135Code,
  code_na136Code
]

/-- The EU table of POWER-Codes, in source order (code_eu035 and code_eu057 are commented out in the source). -/
def EUpowerCodes : List IrCode := [
  code_eu000Code, code_eu001Code, code_eu002Code, code_eu003Code,
  code_eu004Code, code_eu005Code, code_eu006Code, code_eu007Code,
  code_eu008Code, code_eu009Code, code_eu010Code, code_eu011Code,
  code_eu012Code, code_eu013Code, code_eu014Code, code_eu015Code,
  code_eu016Code, code_eu017Code, code_eu018Code, code_eu019Code,
  code_eu020Code, code_eu021Code, code_eu022Code, code_eu023Code,
  code_eu024Code, code_eu025Code, code_eu026Code, code_eu027Code,
  code_eu028Code, code_eu029Code, code_eu030Code, code_eu031Code,
  code_eu032Code, code_eu033Code, code_eu034Code, code_eu036Code,
  code_eu037Code, code_eu038Code, code_eu039Code, code_eu040Code,
  code_eu041Code, code_eu042Code, code_eu043Code, code_eu044Code,
  code_eu045Code, code_eu046Code, code_eu047Code, code_eu048Code,
  code_eu049Code, code_eu050Code, code_eu051Code, code_eu052Code,
  code_eu053Code, code_eu054Code, code_eu055Code, code_eu056Code,
  code_eu058Code, code_eu059Code, code_eu060Code, code_eu061Code,
  code_eu062Code, code_eu063Code, code_eu064Code, code_eu065Code,
  code_eu066Code, code_eu067Code, code_eu068Code, code_eu069Code,
  code_eu070Code, code_eu071Code, code_eu072Code, code_eu073Code,
  code_eu074Code, code_eu075Code, code_eu076Code, code_eu077Code,
  code_eu078Code, code_eu079Code, code_eu080Code, code_eu081Code,
  code_eu082Code, code_eu083Code, code_eu084Code, code_eu085Code,
  code_eu086Code, code_eu087Code, code_eu088Code, code_eu089Code,
  code_eu090Code, code_eu091Code, code_eu092Code, code_eu093Code,
  code_eu094Code, code_eu095Code, code_eu096Code, code_eu097Code,
  code_eu098Code, code_eu099Code, code_eu100Code, code_eu101Code,
  code_eu102Code, code_eu103Code, code_eu104Code, code_eu105Code,
  code_eu106Code, code_eu107Code, code_eu108Code, code_eu109Code,
  code_eu110Code, code_eu111Code, code_eu112Code, code_eu113Code,
  code_eu114Code, code_eu115Code, code_eu116Code, code_eu117Code,
  code_eu118Code, code_eu119Code, code_eu120Code, code_eu121Code,
  code_eu122Code, code_eu123Code, code_eu124Code, code_eu125Code,
  code_eu126Code, code_eu127Code, code_eu128Code, code_eu129Code,
  code_eu130Code, code_eu131Code, code_eu132Code, code_eu133Code,
  code_eu134Code, code_eu135Code, code_eu136Code, code_eu137Code,
  code_eu138Code, code_eu139Code
]

/-- Every code_naNNN definition of WORLDcodes.cpp, in file order. -/
def naCodeDefinitions : List IrCode := [
  code_na000Code, code_na001Code, code_na002Code, code_na003Code,
  code_na004Code, code_na005Code, code_na006Code, code_na007Code,
  code_na008Code, code_na009Code, code_na010Code, code_na011Code,
  code_na012Code, code_na013Code, code_na014Code, code_na015Code,
  code_na016Code, code_na017Code, code_na018Code, code_na019Code,
  code_na020Code, code_na021Code, code_na022Code, code_na023Code,
  code_na024Code, code_na025Code, code_na026Code, code_na027Code,
  code_na028Code, code_na029Code, code_na030Code, code_na031Code,
  code_na032Code, code_na033Code, code_na034Code, code_na035Code,
  code_na036Code, code_na037Code, code_na038Code, code_na039Code,
  code_na040Code, code_na041Code, code_na042Code, code_na043Code,
  code_na044Code, code_na045Code, code_na046Code, code_na047Code,
  code_na048Code, code_na049Code, code_na050Code, code_na051Code,
  code_na052Code, code_na053Code, code_na054Code, code_na055Code,
  code_na056Code, code_na057Code, code_na058Code, code_na059Code,
  code_na060Code, code_na061Code, code_na062Code, code_na063Code,
  code_na064Code, code_na065Code, code_na066Code, code_na067Code,
  code_na068Code, code_na069Code, code_na070Code, code_na071Code,
  code_na072Code, code_na073Code, code_na074Code, code_na075Code,
  code_na076Code, code_na077Code, code_na078Code, code_na079Code,
  code_na080Code, code_na081Code, code_na082Code, code_na083Code,
  code_na084Code, code_na085Code, code_na086Code, code_na087Code,
  code_na088Code, code_na089Code, code_na090Code, code_na091Code,
  code_na092Code, code_na093Code, code_na094Code, code_na095Code,
  code_na096Code, code_na097Code, code_na098Code, code_na099Code,
  code_na100Code, code_na101Code, code_na102Code, code_na103Code,
  code_na104Code, code_na105Code, code_na106Code, code_na107Code,
  code_na108Code, code_na109Code, code_na110Code, code_na111Code,
  code_na112Code, code_na113Code, code_na114Code, code_na115Code,
  code_na116Code, code_na117Code, code_na118Code, code_na119Code,
  code_na120Code, code_na121Code, code_na122Code, code_na123Code,
  code_na124Code, code_na125Code, code_na126Code, code_na127Code,
  code_na128Code, code_na129Code, code_na130Code, code_na131Code,
  code_na132Code, code_na133Code, code_na134Code, code_na135Code,
  code_na136Code
]

/-- Every code_euNNN definition of WORLDcodes.cpp, in file order (including code_eu035 and code_eu057, which no table lists). -/
def euCodeDefinitions : List IrCode := [
  code_eu000Code, code_eu001Code, code_eu002Code, code_eu003Code,
  code_eu004Code, code_eu005Code, code_eu006Code, code_eu007Code,
  code_eu008Code, code_eu009Code, code_eu010Code, code_eu011Code,
  code_eu012Code, code_eu013Code, code_eu014Code, code_eu015Code,
  code_eu016Code, code_eu017Code, code_eu018Code, code_eu019Code,
  code_eu020Code, code_eu021Code, code_eu022Code, code_eu023Code,
  code_eu024Code, code_eu025Code, code_eu026Code, code_eu027Code,
  code_eu028Code, code_eu029Code, code_eu030Code, code_eu031Code,
  code_eu032Code, code_eu033Code, code_eu034Code, code_eu035Code,
  code_eu036Code, code_eu037Code, code_eu038Code, code_eu039Code,
  code_eu040Code, code_eu041Code, code_eu042Code, code_eu043Code,
  code_eu044Code, code_eu045Code, code_eu046Code, code_eu047Code,
  code_eu048Code, code_eu049Code, code_eu050Code, code_eu051Code,
  code_eu052Code, code_eu053Code, code_eu054Code, code_eu055Code,
  code_eu056Code, code_eu057Code, code_eu058Code, code_eu059Code,
  code_eu060Code, code_eu061Code, code_eu062Code, code_eu063Code,
  code_eu064Code, code_eu065Code, code_eu066Code, code_eu067Code,
  code_eu068Code, code_eu069Code, code_eu070Code, code_eu071Code,
  code_eu072Code, code_eu073Code, code_eu074Code, code_eu075Code,
  code_eu076Code, code_eu077Code, code_eu078Code, code_eu079Code,
  code_eu080Code, code_eu081Code, code_eu082Code, code_eu083Code,
  code_eu084Code, code_eu085Code, code_eu086Code, code_eu087Code,
  code_eu088Code, code_eu089Code, code_eu090Code, code_eu091Code,
  code_eu092Code, code_eu093Code, code_eu094Code, code_eu095Code,
  code_eu096Code, code_eu097Code, code_eu098Code, code_eu099Code,
  code_eu100Code, code_eu101Code, code_eu102Code, code_eu103Code,
  code_eu104Code, code_eu105Code, code_eu106Code, code_eu107Code,
  code_eu108Code, code_eu109Code, code_eu110Code, code_eu111Code,
  code_eu112Code, code_eu113Code, code_eu114Code, code_eu115Code,
  code_eu116Code, code_eu117Code, code_eu118Code, code_eu119Code,
  code_eu120Code, code_eu121Code, code_eu122Code, code_eu123Code,
  code_eu124Code, code_eu125Code, code_eu126Code, code_eu127Code,
  code_eu128Code, code_eu129Code, code_eu130Code, code_eu131Code,
  code_eu132Code, code_eu133Code, code_eu134Code, code_eu135Code,
  code_eu136Code, code_eu137Code, code_eu138Code, code_eu139Code
]
/-- Every code definition of WORLDcodes.cpp: the 137 `code_naNNN` followed by the
140 `code_euNNN`, in file order. -/
def allCodeDefinitions : List IrCode := naCodeDefinitions ++ euCodeDefinitions

/-- `uint8_t num_NAcodes = NUM_ELEM(NApowerCodes);` (the store into a `uint8_t`
keeps the value modulo 256). -/
def num_NAcodes : Nat := NUM_ELEM sizeof_IrCodePtr NApowerCodes % 256

/-- `uint8_t num_EUcodes = NUM_ELEM(EUpowerCodes);` (the store into a `uint8_t`
keeps the value modulo 256). -/
def num_EUcodes : Nat := NUM_ELEM sizeof_IrCodePtr EUpowerCodes % 256

/-- The (On-Time, Off-Time) entries that the Sequence table of a code points to,
position by position ("go through the Sequence table, one index at a time");
`none` marks an index with no entry in the Pairs table. -/
def resolveSequence (code : IrCode) : List (Option (Nat × Nat)) :=
  code.sequence.map (pairAt code)

/-! ## The replay engine

`main.h` declares `xmitPair` but neither of the two files defines it, nor the loop
that calls it. Both are modelled from the specification (section 4.2 for the
replay, section 5 for the cancellation check). -/

/-- Modelled from the spec: the observable output of the engine, which the two
source files do not describe. One mark/space window of the emitted waveform: the
carrier frequency the mark is modulated with (0 for a steady mark), the mark
duration and the space duration, both in microseconds. -/
structure Window where
  /-- Carrier frequency of the mark in Hz, 0 for an unmodulated mark. -/
  carFreq : Nat
  /-- Duration of the mark in microseconds. -/
  onTime : Nat
  /-- Duration of the space in microseconds. -/
  offTime : Nat
deriving DecidableEq

/-- Modelled from the spec: the body of `xmitPair(carFreq, onTime, offTime)`, of which
`main.h` has only the prototype. "Drive the IR output ON, modulated at
`carrierFrequencyHz` if nonzero, for exactly `pair.onDurationMicros` microseconds",
then "drive the IR output OFF for exactly `pair.offDurationMicros` microseconds":
the call appends one full window to the waveform emitted so far. -/
def xmitPair (carFreq onTime offTime : Nat) (waveform : List Window) : List Window :=
  waveform ++ [⟨carFreq, onTime, offTime⟩]

/-- Modelled from the spec: the replay loop of `transmit`, whose source file is not
among the two embedded here. For position `i` of the Sequence table, with
`remaining` positions still to go: "look up `pair = code.pairTable[code.sequence[i]]`",
emit it with `xmitPair` at the code's carrier frequency, then evaluate the polled
cancellation check "at each pair boundary (not mid-pulse)": `cancelRequested i` is
the outcome of the check made once the pair at position `i` has been emitted.
A read outside either table (behaviour the spec leaves undefined) yields `none`. -/
def transmitFrom (cancelRequested : Nat → Bool) (code : IrCode) :
    Nat → Nat → List Window → Option (List Window)
  | 0, _, waveform => some waveform
  | remaining + 1, i, waveform =>
    match code.sequence[i]? with
    | none => none
    | some idx =>
      match pairAt code idx with
      | none => none
      | some (onTime, offTime) =>
        if cancelRequested i then
          some (xmitPair code.carrier_freq onTime offTime waveform)
        else
          transmitFrom cancelRequested code remaining (i + 1)
            (xmitPair code.carrier_freq onTime offTime waveform)

/-- Modelled from the spec: `transmit(code)`, absent from the two source files.
Replays the `num_pairs` positions of the Sequence table from position 0, adding
to the waveform emitted so far; returns the waveform once the call is over. -/
def transmit (cancelRequested : Nat → Bool) (code : IrCode) (waveform : List Window) :
    Option (List Window) :=
  transmitFrom cancelRequested code code.num_pairs 0 waveform

/-- The cancellation check of a call that is never cancelled. -/
def neverCancelled : Nat → Bool := fun _ => false

/-- A valid code definition: the declared number of pairs is the length of the
Sequence table, and every index of the Sequence table has an entry in the Pairs
table. -/
def ValidCode (code : IrCode) : Prop :=
  code.num_pairs = code.sequence.length ∧
    ∀ idx ∈ code.sequence, idx < (pairTable code).length

instance (code : IrCode) : Decidable (ValidCode code) := by
  unfold ValidCode
  infer_instance

/-- Two code definitions are the same code: same carrier frequency, same Pairs
table and same Sequence. -/
def SameDefinition (a b : IrCode) : Prop :=
  a.carrier_freq = b.carrier_freq ∧ pairTable a = pairTable b ∧ a.sequence = b.sequence

instance (a b : IrCode) : Decidable (SameDefinition a b) := by
  unfold SameDefinition
  infer_instance

/-- The code has a pair whose Off-Time is 0 in its Pairs table. -/
def hasZeroOffTime (code : IrCode) : Bool :=
  (pairTable code).any fun p => p.2 == 0

/-! ## The output pin during one window

The body of `xmitPair` is not in the two source files; what it does to the output
pin is modelled from the specification (section 4.2, "Key algorithm: carrier
generation"). Time is exact: durations are rational numbers of microseconds, and
no timer resolution is modelled. -/

/-- Modelled from the spec: a stretch of time during which the output pin of the
absent `xmitPair` stays at one level (`active`: the IR LED is on), with its
duration in microseconds. -/
structure Segment where
  /-- Level of the output pin: `true` when the IR output is driven on. -/
  active : Bool
  /-- Duration of the stretch, in microseconds. -/
  micros : ℚ
deriving DecidableEq

/-- Modelled from the spec: the half-period of the carrier of the absent `xmitPair`,
"the half-period `1,000,000 / (2f)` microseconds" for a carrier of `f` Hz. -/
def halfPeriod (carFreq : Nat) : ℚ := 1000000 / (2 * (carFreq : ℚ))

/-- Modelled from the spec: the number of whole half-periods of the carrier that fit
in a mark of `onTime` microseconds, the integer part of `onTime / halfPeriod`
(the carrier generation of the absent `xmitPair`). -/
def fullHalfCycles (carFreq onTime : Nat) : Nat := (onTime * (2 * carFreq)) / 1000000

/-- Modelled from the spec: the output pin during the mark of the absent `xmitPair`.
"For `f == 0`, no toggling occurs; the pin is held in the active state for duration
`d`." Otherwise the engine must "toggle the output at the half-period for the full
duration `d`", starting active, and "the final partial half-cycle at the end of the
window is truncated rather than overshooting `d`". -/
def markSegments (carFreq onTime : Nat) : List Segment :=
  if carFreq = 0 then
    [⟨true, (onTime : ℚ)⟩]
  else
    (List.range (fullHalfCycles carFreq onTime)).map
        (fun k => ⟨k % 2 == 0, halfPeriod carFreq⟩) ++
      (if 0 < (onTime : ℚ) - fullHalfCycles carFreq onTime * halfPeriod carFreq then
        [⟨fullHalfCycles carFreq onTime % 2 == 0,
          (onTime : ℚ) - fullHalfCycles carFreq onTime * halfPeriod carFreq⟩]
      else [])

/-- Modelled from the spec: the output pin during one window emitted by the absent
`xmitPair`: the mark, then "drive the IR output OFF for exactly
`pair.offDurationMicros` microseconds". -/
def windowSegments (w : Window) : List Segment :=
  markSegments w.carFreq w.onTime ++ [⟨false, (w.offTime : ℚ)⟩]

/-- Total duration of a list of segments, in microseconds. -/
def totalMicros (segs : List Segment) : ℚ := (segs.map Segment.micros).sum

/-- Number of level changes of the output pin inside a list of segments. -/
def toggles : List Segment → Nat
  | a :: b :: rest => (if a.active = b.active then 0 else 1) + toggles (b :: rest)
  | _ => 0

/-! ## The engine on the state of the microcontroller

The replay loop and `xmitPair` run on a microcontroller whose memory holds the two
tables as variables (the source declares them non-const) and whose carrier timer
keeps the frequency it was last set up for. The engine is handed a `struct IrCode *`
and reads the fields of the entry through it. All of this is modelled from the
specification and from the header comment of WORLDcodes.cpp ("To transmit a code"). -/

/-- The two regions of `main.h` (`NA` and `EU`), each with its table of POWER-Codes. -/
inductive Region where
  | NA
  | EU
deriving DecidableEq

/-- A `struct IrCode *` taken from a table: the table and the position of the entry
it points to. -/
structure CodeRef where
  /-- The table the entry is in. -/
  region : Region
  /-- Position of the entry in the table. -/
  index : Nat
deriving DecidableEq

/-- Modelled from the spec: the state the absent `transmit` and `xmitPair` work on.
The two tables, which the source declares as variables and not constants; the
carrier frequency the hardware timer is currently set up for ("set up hardware
timers on the microcontroller for this POWER-Code's Carrier Frequency"); and the
waveform emitted so far. -/
structure Board where
  /-- Run-time contents of `NApowerCodes`. -/
  naCodes : List IrCode
  /-- Run-time contents of `EUpowerCodes`. -/
  euCodes : List IrCode
  /-- Carrier frequency the hardware timer is set up for. -/
  timerFreq : Nat
  /-- The waveform emitted so far. -/
  waveform : List Window
deriving DecidableEq

/-- Reading the entry a `struct IrCode *` points to, in the memory of the board. -/
def Board.entry (b : Board) (ref : CodeRef) : Option IrCode :=
  match ref.region with
  | Region.NA => b.naCodes[ref.index]?
  | Region.EU => b.euCodes[ref.index]?

/-- Modelled from the spec: setting up the hardware timer of the absent engine for a
carrier frequency. Only the timer changes. -/
def setupTimer (carFreq : Nat) (b : Board) : Board :=
  ⟨b.naCodes, b.euCodes, carFreq, b.waveform⟩

/-- Modelled from the spec: driving the output of the absent engine through one
window: on for `onTime` microseconds, modulated by the hardware timer at the
frequency it is set up for, then off for `offTime` microseconds. -/
def driveWindow (onTime offTime : Nat) (b : Board) : Board :=
  ⟨b.naCodes, b.euCodes, b.timerFreq, b.waveform ++ [⟨b.timerFreq, onTime, offTime⟩]⟩

/-- Modelled from the spec: the absent `xmitPair(carFreq, onTime, offTime)` on the
board: it sets up the timer for `carFreq`, then drives the window. -/
def xmitPairOn (carFreq onTime offTime : Nat) (b : Board) : Board :=
  driveWindow onTime offTime (setupTimer carFreq b)

/-- Modelled from the spec: the replay loop of the absent `transmit` on the board,
handed a pointer to the entry. Each iteration reads the entry through the pointer
(its Sequence element at position `i`, the pair that element points to, its carrier
frequency), calls `xmitPairOn`, then evaluates the cancellation check, as
`transmitFrom` does. A read outside a table yields `none`. -/
def transmitOnFrom (cancelRequested : Nat → Bool) (ref : CodeRef) :
    Nat → Nat → Board → Option Board
  | 0, _, b => some b
  | remaining + 1, i, b =>
    match b.entry ref with
    | none => none
    | some code =>
      match code.sequence[i]? with
      | none => none
      | some idx =>
        match pairAt code idx with
        | none => none
        | some (onTime, offTime) =>
          if cancelRequested i then
            some (xmitPairOn code.carrier_freq onTime offTime b)
          else
            transmitOnFrom cancelRequested ref remaining (i + 1)
              (xmitPairOn code.carrier_freq onTime offTime b)

/-- Modelled from the spec: the absent `transmit` on the board, handed a pointer to
the entry: "grab the info for this POWER-Code from the Code table", "set up hardware
timers for this POWER-Code's Carrier Frequency", then "go through the Sequence table,
one index at a time", `num_pairs` positions from position 0. -/
def transmitOn (cancelRequested : Nat → Bool) (ref : CodeRef) (b : Board) : Option Board :=
  match b.entry ref with
  | none => none
  | some code =>
    transmitOnFrom cancelRequested ref code.num_pairs 0 (setupTimer code.carrier_freq b)

/-- The board before the first transmission: the tables as WORLDcodes.cpp initialises
them, the timer not set up, nothing emitted. -/
def powerOn : Board := ⟨NApowerCodes, EUpowerCodes, 0, []⟩

/-- The macro `pgm_read_word(addr) (*(const unsigned short *)(addr))` of `main.h`,
applied to the address of an array element holding `word`: the 16-bit read yields
the low half of the element (the ESP32-C3 the header targets is little-endian). -/
def pgm_read_word (word : Nat) : Nat := word % 2 ^ 16

/-- Time one replay of the code takes, in microseconds: On-Time plus Off-Time of the
pair each Sequence element points to, summed over the Sequence. -/
def transmissionMicros (code : IrCode) : Nat :=
  ((resolveSequence code).map fun p =>
    match p with
    | some (onTime, offTime) => onTime + offTime
    | none => 0).sum

/-- The Sequence index points to a pair whose Off-Time is not 0. -/
def hasGapAt (code : IrCode) (idx : Nat) : Bool :=
  match pairAt code idx with
  | some (_, offTime) => decide (0 < offTime)
  | none => false

/-- Strict lexicographic order on (On-Time, Off-Time) pairs: a shorter On-Time, or
the same On-Time and a shorter Off-Time. -/
def pairLt (p q : Nat × Nat) : Prop :=
  p.1 < q.1 ∨ (p.1 = q.1 ∧ p.2 < q.2)

instance (p q : Nat × Nat) : Decidable (pairLt p q) := by
  unfold pairLt
  infer_instance

/-! ## Theorems -/

/-- Every literal of the database fits the C type of the field it initialises:
`uint32_t` carrier frequencies and durations, `uint8_t` counts and indices; and
every Pairs array has an even number of elements. -/
theorem database_fits_c_types :
    ∀ code ∈ allCodeDefinitions,
      code.carrier_freq < 2 ^ 32 ∧ code.num_pairs < 2 ^ 8 ∧
        (∀ t ∈ code.pairs, t < 2 ^ 32) ∧ (∀ idx ∈ code.sequence, idx < 2 ^ 8) ∧
        code.pairs.length % 2 = 0 := by
  decide!

/-- Entry `k` of the grouped table is made of elements `2 * k` and `2 * k + 1` of
the flat array. -/
theorem toPairs_getElem? : ∀ (l : List Nat) (k : Nat),
    (toPairs l)[k]? =
      match l[2 * k]?, l[2 * k + 1]? with
      | some onTime, some offTime => some (onTime, offTime)
      | _, _ => none
  | [], k => by simp [toPairs]
  | [a], k => by cases k <;> simp [toPairs]
  | a :: b :: rest, 0 => by simp [toPairs]
  | a :: b :: rest, k + 1 => by
    have ih := toPairs_getElem? rest k
    have h1 : 2 * (k + 1) = (2 * k + 1) + 1 := by omega
    simp [toPairs, ih, h1]

/-- Looking an index up in the flat Pairs array is looking it up in the Pairs table. -/
theorem pairAt_eq_getElem? (code : IrCode) (idx : Nat) :
    pairAt code idx = (pairTable code)[idx]? := by
  unfold pairAt pairTable
  rw [toPairs_getElem?]

/-- An index below the size of the Pairs table has an entry. -/
theorem pairAt_of_lt (code : IrCode) (idx : Nat) (h : idx < (pairTable code).length) :
    ∃ p, pairAt code idx = some p := by
  rw [pairAt_eq_getElem?]
  exact ⟨(pairTable code)[idx], List.getElem?_eq_getElem h⟩

/-- The grouped table has half as many entries as the flat array has elements. -/
theorem toPairs_length : ∀ l : List Nat, (toPairs l).length = l.length / 2
  | [] => by simp [toPairs]
  | [a] => by simp [toPairs]
  | a :: b :: rest => by
    have ih := toPairs_length rest
    simp only [toPairs, List.length_cons, ih]
    omega

/-- The positions below the length of a list read exactly its elements, in order. -/
theorem map_getElem?_range (l : List Nat) :
    (List.range l.length).map (fun i => l[i]?) = l.map some := by
  apply List.ext_getElem?
  intro n
  rw [List.getElem?_map, List.getElem?_map]
  by_cases h : n < l.length
  · rw [List.getElem?_range h]
    simp [List.getElem?_eq_getElem h]
  · have h1 : l.length ≤ n := Nat.le_of_not_lt h
    rw [List.getElem?_eq_none h1, List.getElem?_eq_none (by simpa using h1)]
    rfl

/-- `NApowerCodes` lists every `code_naNNN` definition, in file order. -/
theorem NApowerCodes_eq : NApowerCodes = naCodeDefinitions := by
  rfl

/-- `EUpowerCodes` lists the `code_euNNN` definitions in file order, leaving out
`code_eu035` and `code_eu057`. -/
theorem EUpowerCodes_eq :
    EUpowerCodes = (euCodeDefinitions.eraseIdx 57).eraseIdx 35 := by
  rfl

/-- Every entry of `NApowerCodes` is a code definition of the file. -/
theorem mem_all_of_mem_NApowerCodes {code : IrCode} (h : code ∈ NApowerCodes) :
    code ∈ allCodeDefinitions := by
  rw [NApowerCodes_eq] at h
  exact List.mem_append_left _ h

/-- Every entry of `EUpowerCodes` is a code definition of the file. -/
theorem mem_all_of_mem_EUpowerCodes {code : IrCode} (h : code ∈ EUpowerCodes) :
    code ∈ allCodeDefinitions := by
  rw [EUpowerCodes_eq] at h
  exact List.mem_append_right _ (List.mem_of_mem_eraseIdx (List.mem_of_mem_eraseIdx h))

/-- Every Sequence element of every definition addresses two elements of the flat
Pairs array. -/
theorem all_sequence_reads_in_bounds :
    ∀ code ∈ allCodeDefinitions, ∀ idx ∈ code.sequence, 2 * idx + 1 < code.pairs.length := by
  decide!

/-- Every definition declares as many pairs as its Sequence array has elements. -/
theorem all_num_pairs_eq :
    ∀ code ∈ allCodeDefinitions, code.num_pairs = code.sequence.length := by
  decide!

/-- Every code definition of WORLDcodes.cpp is a valid code definition. -/
theorem all_valid : ∀ code ∈ allCodeDefinitions, ValidCode code := by
  intro code hc
  refine ⟨all_num_pairs_eq code hc, ?_⟩
  intro idx hidx
  have h := all_sequence_reads_in_bounds code hc idx hidx
  unfold pairTable
  rw [toPairs_length]
  omega

/-! ### The database -/

/-- C1 (database integrity). WORLDcodes.cpp holds 137 `code_naNNN` and 140
`code_euNNN` definitions, every entry of `NApowerCodes` and of `EUpowerCodes` is one
of them, and in every definition each element of the Sequence array is strictly
less than the number of (On-Time, Off-Time) pairs stored in the Pairs array (half
the length of the flat array), so that the lookup of the pair it points to is
defined (the pair read from the flat array is the entry of the Pairs table). -/
theorem sequence_indices_in_range :
    naCodeDefinitions.length = 137 ∧ euCodeDefinitions.length = 140 ∧
      (∀ code ∈ NApowerCodes, code ∈ allCodeDefinitions) ∧
      (∀ code ∈ EUpowerCodes, code ∈ allCodeDefinitions) ∧
      ∀ code ∈ allCodeDefinitions,
        (pairTable code).length = code.pairs.length / 2 ∧
        ∀ idx ∈ code.sequence,
          idx < (pairTable code).length ∧
            ∃ p, pairAt code idx = some p ∧ (pairTable code)[idx]? = some p := by
  refine ⟨by decide!, by decide!, fun code h => mem_all_of_mem_NApowerCodes h,
    fun code h => mem_all_of_mem_EUpowerCodes h, ?_⟩
  intro code hc
  refine ⟨toPairs_length code.pairs, ?_⟩
  intro idx hidx
  have hlt := (all_valid code hc).2 idx hidx
  obtain ⟨p, hp⟩ := pairAt_of_lt code idx hlt
  exact ⟨hlt, p, hp, by rw [← pairAt_eq_getElem?, hp]⟩

/-- C2 (declared pair count). In every code definition of WORLDcodes.cpp the
`num_pairs` field equals the number of elements of the Sequence array, so the
positions `0, ..., num_pairs - 1` that a loop bounded by `num_pairs` visits read
exactly the elements of the Sequence array, each once and in order, and position
`num_pairs` is the first one past the array. -/
theorem num_pairs_eq_sequence_length :
    ∀ code ∈ allCodeDefinitions,
      code.num_pairs = code.sequence.length ∧
        (List.range code.num_pairs).map (fun i => code.sequence[i]?) =
          code.sequence.map some ∧
        code.sequence[code.num_pairs]? = none := by
  intro code hc
  have h := all_num_pairs_eq code hc
  refine ⟨h, ?_, ?_⟩
  · rw [h]
    exact map_getElem?_range code.sequence
  · rw [h]
    exact List.getElem?_eq_none (Nat.le_refl _)

/-- Witness of C2 at `code_na000`, which declares 26 pairs and has a Sequence array
of 26 elements. -/
theorem num_pairs_eq_sequence_length_witness :
    code_na000Code ∈ allCodeDefinitions ∧
      code_na000Code.num_pairs = 26 ∧ code_na000Code.sequence.length = 26 ∧
      (code_na000Code.num_pairs = code_na000Code.sequence.length ∧
        (List.range code_na000Code.num_pairs).map (fun i => code_na000Code.sequence[i]?) =
          code_na000Code.sequence.map some ∧
        code_na000Code.sequence[code_na000Code.num_pairs]? = none) :=
  ⟨by decide!, by decide!, by decide!,
    num_pairs_eq_sequence_length code_na000Code (by decide!)⟩

/-- C3 (deduplicated pair tables). In every code definition of WORLDcodes.cpp no two
positions of the Pairs table hold the same (On-Time, Off-Time) pair. -/
theorem pair_tables_nodup :
    ∀ code ∈ allCodeDefinitions, (pairTable code).Nodup := by
  decide!

/-- Witness of C3 at `code_na000`. -/
theorem pair_tables_nodup_witness :
    code_na000Code ∈ allCodeDefinitions ∧
      pairTable code_na000Code = [(600, 600), (600, 27000), (1200, 600), (2400, 600)] ∧
      (pairTable code_na000Code).Nodup :=
  ⟨by decide!, by decide!, pair_tables_nodup code_na000Code (by decide!)⟩

/-- C5 (entry 0 of the NA table). `NApowerCodes[0]` is `code_na000Code`: carrier
frequency 38400, Pairs table (600,600), (600,27000), (1200,600), (2400,600),
declared pair count 26, and a Sequence of exactly 26 indices that begins
3, 2, 0, 2. -/
theorem NApowerCodes_entry_zero :
    NApowerCodes[0]? = some code_na000Code ∧
      code_na000Code.carrier_freq = 38400 ∧
      pairTable code_na000Code = [(600, 600), (600, 27000), (1200, 600), (2400, 600)] ∧
      code_na000Code.num_pairs = 26 ∧
      code_na000Code.sequence.length = 26 ∧
      code_na000Code.sequence.take 4 = [3, 2, 0, 2] := by
  decide!

/-- C6 (the worked example of the file header). Resolving the Sequence of
`code_na000` through its Pairs table gives 13 windows, (2400,600), (1200,600),
(600,600), (1200,600), (600,600), (1200,600), (600,600), (600,600), (1200,600),
(600,600), (600,600), (600,600), (600,27000), followed by the same 13 again; the
first three indices 3, 2, 0 resolve to (2400,600), (1200,600), (600,600). -/
theorem code_na000_resolved :
    resolveSequence code_na000Code =
      ([(2400, 600), (1200, 600), (600, 600), (1200, 600), (600, 600), (1200, 600),
        (600, 600), (600, 600), (1200, 600), (600, 600), (600, 600), (600, 600),
        (600, 27000)] ++
       [(2400, 600), (1200, 600), (600, 600), (1200, 600), (600, 600), (1200, 600),
        (600, 600), (600, 600), (1200, 600), (600, 600), (600, 600), (600, 600),
        (600, 27000)]).map some ∧
      (resolveSequence code_na000Code).length = 26 ∧
      code_na000Code.sequence.take 3 = [3, 2, 0] ∧
      (resolveSequence code_na000Code).take 3 =
        [some (2400, 600), some (1200, 600), some (600, 600)] := by
  decide!

/-- C7 (table counts). `num_NAcodes` is the number of entries of `NApowerCodes`,
137, and `num_EUcodes` the number of entries of `EUpowerCodes`, 138; what `NUM_ELEM`
computes is below 256 in both cases, so the `uint8_t` store keeps it; and every
index below the count selects an entry of the table, which is one of the code
definitions of the file. -/
theorem table_counts :
    num_NAcodes = NApowerCodes.length ∧ num_NAcodes = 137 ∧
      num_EUcodes = EUpowerCodes.length ∧ num_EUcodes = 138 ∧
      NUM_ELEM sizeof_IrCodePtr NApowerCodes < 256 ∧
      NUM_ELEM sizeof_IrCodePtr EUpowerCodes < 256 ∧
      num_NAcodes = NUM_ELEM sizeof_IrCodePtr NApowerCodes ∧
      num_EUcodes = NUM_ELEM sizeof_IrCodePtr EUpowerCodes ∧
      (∀ i, i < num_NAcodes → ∃ code, NApowerCodes[i]? = some code ∧
        code ∈ allCodeDefinitions) ∧
      (∀ i, i < num_EUcodes → ∃ code, EUpowerCodes[i]? = some code ∧
        code ∈ allCodeDefinitions) := by
  have hna : num_NAcodes = NApowerCodes.length := by decide!
  have heu : num_EUcodes = EUpowerCodes.length := by decide!
  refine ⟨hna, by decide!, heu, by decide!, by decide!, by decide!, by decide!, by decide!,
    ?_, ?_⟩
  · intro i hi
    rw [hna] at hi
    exact ⟨NApowerCodes[i], List.getElem?_eq_getElem hi,
      mem_all_of_mem_NApowerCodes (List.getElem_mem hi)⟩
  · intro i hi
    rw [heu] at hi
    exact ⟨EUpowerCodes[i], List.getElem?_eq_getElem hi,
      mem_all_of_mem_EUpowerCodes (List.getElem_mem hi)⟩

/-- C8 (plausible carrier frequencies). For every code definition of either table,
and for the two definitions that no table lists, the carrier frequency is 0 or lies
between 20,000 Hz and 100,000 Hz inclusive. -/
theorem carrier_freq_plausible :
    ∀ code ∈ NApowerCodes ++ EUpowerCodes ++ allCodeDefinitions,
      code.carrier_freq = 0 ∨ (20000 ≤ code.carrier_freq ∧ code.carrier_freq ≤ 100000) := by
  decide!

/-- Witness of C8 at `code_na000` (38400 Hz), an entry of `NApowerCodes`. -/
theorem carrier_freq_plausible_witness :
    code_na000Code ∈ NApowerCodes ++ EUpowerCodes ++ allCodeDefinitions ∧
      code_na000Code.carrier_freq = 38400 ∧
      (code_na000Code.carrier_freq = 0 ∨
        (20000 ≤ code_na000Code.carrier_freq ∧ code_na000Code.carrier_freq ≤ 100000)) :=
  ⟨by decide!, by decide!, carrier_freq_plausible code_na000Code (by decide!)⟩

/-! ### The replay engine -/

/-- Appending a window keeps what was emitted before it. -/
theorem xmitPair_append (carFreq onTime offTime : Nat) (before waveform : List Window) :
    xmitPair carFreq onTime offTime (before ++ waveform) =
      before ++ xmitPair carFreq onTime offTime waveform := by
  simp [xmitPair]

/-- One iteration of the replay loop, when both table reads succeed. -/
theorem transmitFrom_succ (cancelRequested : Nat → Bool) (code : IrCode)
    (remaining i : Nat) (waveform : List Window) (idx onTime offTime : Nat)
    (hs : code.sequence[i]? = some idx) (hp : pairAt code idx = some (onTime, offTime)) :
    transmitFrom cancelRequested code (remaining + 1) i waveform =
      if cancelRequested i then
        some (xmitPair code.carrier_freq onTime offTime waveform)
      else
        transmitFrom cancelRequested code remaining (i + 1)
          (xmitPair code.carrier_freq onTime offTime waveform) := by
  rw [transmitFrom]
  simp only [hs, hp]

/-- The replay loop, started at position `i` with `remaining` positions of a valid
Sequence ahead and no cancellation requested at any of them, emits one window per
position, in order, each with the durations of the pair its index points to. -/
theorem transmitFrom_run (cancelRequested : Nat → Bool) (code : IrCode)
    (hidx : ∀ idx ∈ code.sequence, idx < (pairTable code).length) :
    ∀ (remaining i : Nat) (waveform : List Window),
      i + remaining ≤ code.sequence.length →
      (∀ k, i ≤ k → k < i + remaining → cancelRequested k = false) →
      ∃ ws, transmitFrom cancelRequested code remaining i waveform = some (waveform ++ ws) ∧
        ws.length = remaining ∧
        ∀ j, j < remaining → ∃ idx onTime offTime,
          code.sequence[i + j]? = some idx ∧
          (pairTable code)[idx]? = some (onTime, offTime) ∧
          ws[j]? = some ⟨code.carrier_freq, onTime, offTime⟩ := by
  intro remaining
  induction remaining with
  | zero =>
    intro i waveform _ _
    exact ⟨[], by simp [transmitFrom], rfl, fun j hj => absurd hj (Nat.not_lt_zero j)⟩
  | succ r ih =>
    intro i waveform hlen hpoll
    have hi : i < code.sequence.length := by omega
    have hs : code.sequence[i]? = some code.sequence[i] := List.getElem?_eq_getElem hi
    have hlt := hidx code.sequence[i] (List.getElem_mem hi)
    obtain ⟨⟨onTime, offTime⟩, hp⟩ := pairAt_of_lt code code.sequence[i] hlt
    have hno : cancelRequested i = false := hpoll i (Nat.le_refl i) (by omega)
    obtain ⟨ws, hrun, hwslen, hws⟩ :=
      ih (i + 1) (xmitPair code.carrier_freq onTime offTime waveform) (by omega)
        (fun k hk hk2 => hpoll k (by omega) (by omega))
    refine ⟨⟨code.carrier_freq, onTime, offTime⟩ :: ws, ?_, by simp [hwslen], ?_⟩
    · rw [transmitFrom_succ cancelRequested code r i waveform _ onTime offTime hs hp, hno]
      simp only [Bool.false_eq_true, if_false]
      rw [hrun]
      simp [xmitPair]
    · intro j hj
      cases j with
      | zero =>
        exact ⟨code.sequence[i], onTime, offTime, hs,
          by rw [← pairAt_eq_getElem?, hp], by simp⟩
      | succ j =>
        obtain ⟨idx, on2, off2, h1, h2, h3⟩ := hws j (by omega)
        have hij : i + (j + 1) = i + 1 + j := by omega
        exact ⟨idx, on2, off2, by rw [hij]; exact h1, h2, by simpa using h3⟩

/-- A cancellation first requested at the check after position `n` makes the loop
do exactly what an uncancelled loop does up to and including position `n`. -/
theorem transmitFrom_cancel (cancelRequested : Nat → Bool) (code : IrCode) (n : Nat)
    (hn : cancelRequested n = true) :
    ∀ (remaining i : Nat) (waveform : List Window),
      i ≤ n → n < i + remaining →
      (∀ k, i ≤ k → k < n → cancelRequested k = false) →
      transmitFrom cancelRequested code remaining i waveform =
        transmitFrom neverCancelled code (n + 1 - i) i waveform := by
  intro remaining
  induction remaining with
  | zero =>
    intro i waveform h1 h2 _
    omega
  | succ r ih =>
    intro i waveform h1 h2 hpoll
    have hrem : n + 1 - i = (n - i) + 1 := by omega
    rw [hrem]
    cases hs : code.sequence[i]? with
    | none => simp [transmitFrom, hs]
    | some idx =>
      cases hp : pairAt code idx with
      | none => simp [transmitFrom, hs, hp]
      | some p =>
        obtain ⟨onTime, offTime⟩ := p
        rw [transmitFrom_succ cancelRequested code r i waveform idx onTime offTime hs hp,
          transmitFrom_succ neverCancelled code (n - i) i waveform idx onTime offTime hs hp]
        by_cases hin : i = n
        · subst hin
          simp [hn, neverCancelled, transmitFrom]
        · have hno : cancelRequested i = false := hpoll i (Nat.le_refl i) (by omega)
          have hstep := ih (i + 1) (xmitPair code.carrier_freq onTime offTime waveform)
            (by omega) (by omega) (fun k hk hk2 => hpoll k (by omega) hk2)
          have hsub : n + 1 - (i + 1) = n - i := by omega
          rw [hsub] at hstep
          simp [hno, neverCancelled, hstep]

/-- What the loop adds to the waveform does not depend on what was emitted before. -/
theorem transmitFrom_append (cancelRequested : Nat → Bool) (code : IrCode) :
    ∀ (remaining i : Nat) (before waveform : List Window),
      transmitFrom cancelRequested code remaining i (before ++ waveform) =
        (transmitFrom cancelRequested code remaining i waveform).map (fun ws => before ++ ws) := by
  intro remaining
  induction remaining with
  | zero =>
    intro i before waveform
    simp [transmitFrom]
  | succ r ih =>
    intro i before waveform
    cases hs : code.sequence[i]? with
    | none => simp [transmitFrom, hs]
    | some idx =>
      cases hp : pairAt code idx with
      | none => simp [transmitFrom, hs, hp]
      | some p =>
        obtain ⟨onTime, offTime⟩ := p
        rw [transmitFrom_succ cancelRequested code r i _ idx onTime offTime hs hp,
          transmitFrom_succ cancelRequested code r i _ idx onTime offTime hs hp,
          xmitPair_append, ih]
        by_cases hc : cancelRequested i = true
        · simp [hc]
        · simp [hc]

/-- C4 (in-order replay). For every valid code definition, a `transmit` that is not
cancelled returns, having added to the waveform exactly `length(sequence)` windows;
for every position `i` of the Sequence, window `i` has the code's carrier frequency
and the (On-Time, Off-Time) of `pairTable[sequence[i]]`: one `xmitPair` per Sequence
element, in Sequence order, none skipped or repeated. -/
theorem transmit_in_order (code : IrCode) (waveform : List Window) (hvalid : ValidCode code) :
    ∃ ws, transmit neverCancelled code waveform = some (waveform ++ ws) ∧
      ws.length = code.sequence.length ∧
      ∀ i, i < code.sequence.length → ∃ idx onTime offTime,
        code.sequence[i]? = some idx ∧
        (pairTable code)[idx]? = some (onTime, offTime) ∧
        ws[i]? = some ⟨code.carrier_freq, onTime, offTime⟩ := by
  obtain ⟨hnum, hidx⟩ := hvalid
  obtain ⟨ws, hrun, hlen, hws⟩ :=
    transmitFrom_run neverCancelled code hidx code.num_pairs 0 waveform (by omega)
      (fun _ _ _ => rfl)
  refine ⟨ws, hrun, by omega, ?_⟩
  intro i hi
  obtain ⟨idx, onTime, offTime, h1, h2, h3⟩ := hws i (by omega)
  exact ⟨idx, onTime, offTime, by simpa using h1, h2, h3⟩

/-- Witness of C4 at `code_na000`, started on an empty waveform. -/
theorem transmit_in_order_witness :
    ValidCode code_na000Code ∧
      (transmit neverCancelled code_na000Code []).map List.length = some 26 ∧
      (transmit neverCancelled code_na000Code []).map (List.take 3) =
        some [⟨38400, 2400, 600⟩, ⟨38400, 1200, 600⟩, ⟨38400, 600, 600⟩] ∧
      ∃ ws, transmit neverCancelled code_na000Code [] = some ([] ++ ws) ∧
        ws.length = code_na000Code.sequence.length ∧
        ∀ i, i < code_na000Code.sequence.length → ∃ idx onTime offTime,
          code_na000Code.sequence[i]? = some idx ∧
          (pairTable code_na000Code)[idx]? = some (onTime, offTime) ∧
          ws[i]? = some ⟨code_na000Code.carrier_freq, onTime, offTime⟩ :=
  ⟨by decide!, by decide!, by decide!, transmit_in_order code_na000Code [] (by decide!)⟩

/-- C10 (cancellation at pair boundaries). For a valid code definition, if the
cancellation check first answers yes at the boundary after the pair at 0-indexed
position `n` of the Sequence, `transmit` returns having added exactly `n + 1`
windows, the first `n + 1` pairs of the Sequence, each with its full On-Time and
Off-Time; no later pair is sent. -/
theorem transmit_cancelled_after (cancelRequested : Nat → Bool) (code : IrCode)
    (waveform : List Window) (n : Nat) (hvalid : ValidCode code)
    (hn : n < code.sequence.length)
    (hbefore : ∀ k, k < n → cancelRequested k = false)
    (hat : cancelRequested n = true) :
    ∃ ws, transmit cancelRequested code waveform = some (waveform ++ ws) ∧
      ws.length = n + 1 ∧
      ∀ i, i < n + 1 → ∃ idx onTime offTime,
        code.sequence[i]? = some idx ∧
        (pairTable code)[idx]? = some (onTime, offTime) ∧
        ws[i]? = some ⟨code.carrier_freq, onTime, offTime⟩ := by
  obtain ⟨hnum, hidx⟩ := hvalid
  have hcut := transmitFrom_cancel cancelRequested code n hat code.num_pairs 0 waveform
    (Nat.zero_le n) (by omega) (fun k _ hk => hbefore k hk)
  obtain ⟨ws, hrun, hlen, hws⟩ :=
    transmitFrom_run neverCancelled code hidx (n + 1) 0 waveform (by omega)
      (fun _ _ _ => rfl)
  refine ⟨ws, ?_, hlen, ?_⟩
  · rw [transmit, hcut]
    exact hrun
  · intro i hi
    obtain ⟨idx, onTime, offTime, h1, h2, h3⟩ := hws i hi
    exact ⟨idx, onTime, offTime, by simpa using h1, h2, h3⟩

/-- Witness of C10 at `code_na000`: cancellation requested from the check after
position 2 on leaves the three windows (2400,600), (1200,600), (600,600). -/
theorem transmit_cancelled_after_witness :
    ValidCode code_na000Code ∧ 2 < code_na000Code.sequence.length ∧
      (∀ k, k < 2 → (fun k => decide (2 ≤ k)) k = false) ∧
      (fun k => decide (2 ≤ k)) 2 = true ∧
      transmit (fun k => decide (2 ≤ k)) code_na000Code [] =
        some [⟨38400, 2400, 600⟩, ⟨38400, 1200, 600⟩, ⟨38400, 600, 600⟩] ∧
      ∃ ws, transmit (fun k => decide (2 ≤ k)) code_na000Code [] = some ([] ++ ws) ∧
        ws.length = 2 + 1 ∧
        ∀ i, i < 2 + 1 → ∃ idx onTime offTime,
          code_na000Code.sequence[i]? = some idx ∧
          (pairTable code_na000Code)[idx]? = some (onTime, offTime) ∧
          ws[i]? = some ⟨code_na000Code.carrier_freq, onTime, offTime⟩ :=
  ⟨by decide!, by decide!, by decide, by decide, by decide!,
    transmit_cancelled_after (fun k => decide (2 ≤ k)) code_na000Code [] 2
      (by decide!) (by decide!) (by decide) (by decide)⟩

/-! ### Observed ranges of the database -/

/-- C14 (maximum gap). Every Off-Time of every Pairs table is at most 128090
microseconds, hence at most 130,000; 128090 is reached by the pair (520, 128090)
of `code_na046`, an entry of `NApowerCodes`. -/
theorem max_off_time :
    (∀ code ∈ allCodeDefinitions, ∀ p ∈ pairTable code, p.2 ≤ 128090 ∧ p.2 ≤ 130000) ∧
      (520, 128090) ∈ pairTable code_na046Code ∧
      code_na046Code ∈ NApowerCodes ∧ code_na046Code ∈ allCodeDefinitions := by
  refine ⟨?_, by decide!, by decide!, by decide!⟩
  have h : ∀ code ∈ allCodeDefinitions, ∀ p ∈ pairTable code, p.2 ≤ 128090 := by decide!
  intro code hc p hp
  have := h code hc p hp
  exact ⟨this, by omega⟩

/-- C15 (observed carrier range). Every nonzero carrier frequency lies between
25641 Hz and 83333 Hz, hence between 25 kHz and 84 kHz; 25641 is the carrier of
`code_na127` and 83333 that of `code_na132`, both entries of `NApowerCodes`. -/
theorem carrier_freq_range :
    (∀ code ∈ allCodeDefinitions, code.carrier_freq ≠ 0 →
        25641 ≤ code.carrier_freq ∧ code.carrier_freq ≤ 83333 ∧
        25000 ≤ code.carrier_freq ∧ code.carrier_freq ≤ 84000) ∧
      code_na127Code.carrier_freq = 25641 ∧ code_na127Code ∈ NApowerCodes ∧
      code_na132Code.carrier_freq = 83333 ∧ code_na132Code ∈ NApowerCodes := by
  decide!

/-- C16 (sequence length range). Every Sequence has between 2 and 136 elements;
`code_eu043` has 2 and `code_na018` has 136. -/
theorem sequence_length_range :
    (∀ code ∈ allCodeDefinitions,
        2 ≤ code.sequence.length ∧ code.sequence.length ≤ 136) ∧
      code_eu043Code.sequence.length = 2 ∧ code_eu043Code ∈ allCodeDefinitions ∧
      code_na018Code.sequence.length = 136 ∧ code_na018Code ∈ allCodeDefinitions := by
  decide!

/-- C17 (pair table size). Every Pairs table holds at most 8 pairs, and that of
`code_eu025` holds exactly 8. -/
theorem pair_table_size :
    (∀ code ∈ allCodeDefinitions, (pairTable code).length ≤ 8) ∧
      (pairTable code_eu025Code).length = 8 ∧ code_eu025Code ∈ allCodeDefinitions ∧
      code_eu025Code ∈ EUpowerCodes := by
  decide!

/-- C18 (unmodulated codes are a minority). In `NApowerCodes` 2 of the 137 entries
and in `EUpowerCodes` 16 of the 138 entries have carrier frequency 0: at least one,
and strictly fewer than half, in each table. -/
theorem zero_carrier_minority :
    NApowerCodes.countP (fun code => code.carrier_freq == 0) = 2 ∧
      EUpowerCodes.countP (fun code => code.carrier_freq == 0) = 16 ∧
      0 < NApowerCodes.countP (fun code => code.carrier_freq == 0) ∧
      2 * NApowerCodes.countP (fun code => code.carrier_freq == 0) < NApowerCodes.length ∧
      0 < EUpowerCodes.countP (fun code => code.carrier_freq == 0) ∧
      2 * EUpowerCodes.countP (fun code => code.carrier_freq == 0) < EUpowerCodes.length ∧
      code_na055Code ∈ NApowerCodes ∧ code_na055Code.carrier_freq = 0 ∧
      code_eu139Code ∈ EUpowerCodes ∧ code_eu139Code.carrier_freq = 0 := by
  decide!

/-- C19 (pairs with Off-Time 0). 15 entries of `NApowerCodes` and 19 entries of
`EUpowerCodes`, hence at least three entries, have a pair with Off-Time 0 in their
Pairs table; `code_na004` is one, with the pair (560, 0) stored as the elements 560
and 0 at offsets 8 and 9 of its flat array. -/
theorem zero_off_time_entries :
    NApowerCodes.countP hasZeroOffTime = 15 ∧
      EUpowerCodes.countP hasZeroOffTime = 19 ∧
      3 ≤ (NApowerCodes ++ EUpowerCodes).countP hasZeroOffTime ∧
      code_na004Code ∈ NApowerCodes ∧ hasZeroOffTime code_na004Code = true ∧
      (560, 0) ∈ pairTable code_na004Code ∧
      code_na004Pairs[8]? = some 560 ∧ code_na004Pairs[9]? = some 0 := by
  decide!

/-- C20, as stated, fails: `code_na005`, entry 5 of `NApowerCodes`, and `code_eu009`,
entry 9 of `EUpowerCodes`, have the same carrier frequency, the same Pairs table and
the same Sequence, so the two tables are not disjoint. -/
theorem tables_not_disjoint :
    NApowerCodes[5]? = some code_na005Code ∧ EUpowerCodes[9]? = some code_eu009Code ∧
      SameDefinition code_na005Code code_eu009Code ∧
      ¬ (∀ na ∈ NApowerCodes, ∀ eu ∈ EUpowerCodes, ¬ SameDefinition na eu) := by
  refine ⟨by decide!, by decide!, by decide!, ?_⟩
  intro h
  exact h code_na005Code (by decide!) code_eu009Code (by decide!) (by decide!)

/-- C20, amended. Three codes are in both tables: entries 5, 21 and 22 of
`NApowerCodes` (`code_na005`, `code_na021`, `code_na022`) are the same code
definitions as entries 9, 14 and 23 of `EUpowerCodes` (`code_eu009`, `code_eu014`,
`code_eu023`). No other entry of `NApowerCodes` has the same carrier frequency, Pairs
table and Sequence as an entry of `EUpowerCodes`. -/
theorem tables_share_exactly_three :
    (NApowerCodes[5]? = some code_na005Code ∧ EUpowerCodes[9]? = some code_eu009Code ∧
        SameDefinition code_na005Code code_eu009Code) ∧
      (NApowerCodes[21]? = some code_na021Code ∧ EUpowerCodes[14]? = some code_eu014Code ∧
        SameDefinition code_na021Code code_eu014Code) ∧
      (NApowerCodes[22]? = some code_na022Code ∧ EUpowerCodes[23]? = some code_eu023Code ∧
        SameDefinition code_na022Code code_eu023Code) ∧
      ∀ na ∈ NApowerCodes.enum, ∀ eu ∈ EUpowerCodes.enum,
        SameDefinition na.2 eu.2 → (na.1, eu.1) ∈ [(5, 9), (21, 14), (22, 23)] := by
  decide!

/-! ### The output pin during one window -/

/-- The segments of a constant duration add up to their number times that duration. -/
theorem totalMicros_map_const (level : Nat → Bool) (d : ℚ) (n : Nat) :
    totalMicros ((List.range n).map fun k => ⟨level k, d⟩) = n * d := by
  induction n with
  | zero => simp [totalMicros]
  | succ n ih =>
    unfold totalMicros at ih ⊢
    rw [List.range_succ, List.map_append, List.map_append, List.sum_append, ih]
    simp
    ring

/-- The whole half-periods counted by `fullHalfCycles` fit in the mark. -/
theorem fullHalfCycles_le (carFreq onTime : Nat) (hf : carFreq ≠ 0) :
    fullHalfCycles carFreq onTime * halfPeriod carFreq ≤ onTime := by
  unfold fullHalfCycles halfPeriod
  have hpos : (0 : ℚ) < 2 * (carFreq : ℚ) := by
    have : (0 : ℚ) < (carFreq : ℚ) := by exact_mod_cast Nat.pos_of_ne_zero hf
    linarith
  have hnat : (onTime * (2 * carFreq)) / 1000000 * 1000000 ≤ onTime * (2 * carFreq) :=
    Nat.div_mul_le_self _ _
  have hq : (((onTime * (2 * carFreq)) / 1000000 : Nat) : ℚ) * 1000000 ≤
      (onTime : ℚ) * (2 * (carFreq : ℚ)) := by exact_mod_cast hnat
  rw [← mul_div_assoc, div_le_iff₀ hpos]
  exact hq

/-- The mark lasts exactly its On-Time, modulated or not: the truncated last
half-cycle makes up for what the whole half-periods leave. -/
theorem totalMicros_markSegments (carFreq onTime : Nat) :
    totalMicros (markSegments carFreq onTime) = onTime := by
  unfold markSegments
  by_cases hf : carFreq = 0
  · simp [hf, totalMicros]
  · rw [if_neg hf]
    have hle := fullHalfCycles_le carFreq onTime hf
    have hsplit : ∀ a b : List Segment, totalMicros (a ++ b) = totalMicros a + totalMicros b := by
      intro a b
      simp [totalMicros]
    rw [hsplit, totalMicros_map_const]
    by_cases hrest : 0 < (onTime : ℚ) - fullHalfCycles carFreq onTime * halfPeriod carFreq
    · rw [if_pos hrest]
      simp [totalMicros]
    · rw [if_neg hrest]
      have : (onTime : ℚ) - fullHalfCycles carFreq onTime * halfPeriod carFreq = 0 := by
        linarith
      simp [totalMicros]
      linarith

/-- An unmodulated mark is one stretch of active output. -/
theorem markSegments_zero (onTime : Nat) : markSegments 0 onTime = [⟨true, onTime⟩] := by
  simp [markSegments]

/-- C11 (carrier generation for a modulated mark). For the pair (2400, 600) at
38400 Hz, `xmitPair` emits one window whose mark toggles the output every half-period
1,000,000 / (2 * 38400) = 625/48 microseconds, between 13.02 and 13.03: 184 whole
half-periods, alternately active and inactive, then a last half-cycle cut to 25/6
microseconds, so that the active window lasts exactly 2400 microseconds; it is
followed by an inactive stretch of exactly 600 microseconds. -/
theorem modulated_mark_2400_600 :
    xmitPair 38400 2400 600 [] = [⟨38400, 2400, 600⟩] ∧
      halfPeriod 38400 = 1000000 / (2 * 38400) ∧
      (1302 : ℚ) / 100 ≤ halfPeriod 38400 ∧ halfPeriod 38400 < (1303 : ℚ) / 100 ∧
      markSegments 38400 2400 =
        (List.range 184).map (fun k => ⟨k % 2 == 0, halfPeriod 38400⟩) ++
          [⟨true, 25 / 6⟩] ∧
      (25 : ℚ) / 6 < halfPeriod 38400 ∧
      toggles (markSegments 38400 2400) = 184 ∧
      totalMicros (markSegments 38400 2400) = 2400 ∧
      windowSegments ⟨38400, 2400, 600⟩ = markSegments 38400 2400 ++ [⟨false, 600⟩] ∧
      totalMicros (windowSegments ⟨38400, 2400, 600⟩) = 2400 + 600 := by
  decide!

/-- C12 (unmodulated mark). For carrier frequency 0 and the pair (1130, 1010),
`xmitPair` emits one window during which the output is active for one stretch of
1130 microseconds, with no level change inside the mark, and then inactive for
1010 microseconds. -/
theorem unmodulated_mark_1130_1010 :
    xmitPair 0 1130 1010 [] = [⟨0, 1130, 1010⟩] ∧
      markSegments 0 1130 = [⟨true, 1130⟩] ∧
      toggles (markSegments 0 1130) = 0 ∧
      windowSegments ⟨0, 1130, 1010⟩ = [⟨true, 1130⟩, ⟨false, 1010⟩] ∧
      totalMicros (markSegments 0 1130) = 1130 := by
  decide!

/-! ### The database is only read -/

/-- The replay loop returns on a valid Sequence, cancelled or not. -/
theorem transmitFrom_isSome (cancelRequested : Nat → Bool) (code : IrCode)
    (hidx : ∀ idx ∈ code.sequence, idx < (pairTable code).length) :
    ∀ (remaining i : Nat) (waveform : List Window),
      i + remaining ≤ code.sequence.length →
      ∃ out, transmitFrom cancelRequested code remaining i waveform = some out := by
  intro remaining
  induction remaining with
  | zero =>
    intro i waveform _
    exact ⟨waveform, by simp [transmitFrom]⟩
  | succ r ih =>
    intro i waveform hlen
    have hi : i < code.sequence.length := by omega
    have hs : code.sequence[i]? = some code.sequence[i] := List.getElem?_eq_getElem hi
    obtain ⟨⟨onTime, offTime⟩, hp⟩ :=
      pairAt_of_lt code code.sequence[i] (hidx _ (List.getElem_mem hi))
    rw [transmitFrom_succ cancelRequested code r i waveform _ onTime offTime hs hp]
    by_cases hc : cancelRequested i = true
    · exact ⟨_, by rw [if_pos hc]⟩
    · rw [if_neg hc]
      exact ih (i + 1) _ (by omega)


/-- The call of `xmitPairOn` leaves every entry of both tables as it was. -/
theorem entry_xmitPairOn (carFreq onTime offTime : Nat) (b : Board) (ref : CodeRef) :
    (xmitPairOn carFreq onTime offTime b).entry ref = b.entry ref := by
  unfold Board.entry
  cases ref.region <;> rfl

/-- Setting up the timer leaves every entry of both tables as it was. -/
theorem entry_setupTimer (carFreq : Nat) (b : Board) (ref : CodeRef) :
    (setupTimer carFreq b).entry ref = b.entry ref := by
  unfold Board.entry
  cases ref.region <;> rfl

/-- The replay loop on the board, started with the timer set up for the carrier of the
entry the pointer leads to, emits what `transmitFrom` emits for that entry; it reads
the same entry at every iteration, since no iteration changes a table, and it ends
with the tables as they were and the timer still set up for that carrier. -/
theorem transmitOnFrom_eq (cancelRequested : Nat → Bool) (ref : CodeRef) (code : IrCode) :
    ∀ (remaining i : Nat) (b : Board),
      b.entry ref = some code → b.timerFreq = code.carrier_freq →
      transmitOnFrom cancelRequested ref remaining i b =
        (transmitFrom cancelRequested code remaining i b.waveform).map
          (fun waveform => ⟨b.naCodes, b.euCodes, code.carrier_freq, waveform⟩) := by
  intro remaining
  induction remaining with
  | zero =>
    intro i b _ htimer
    cases b
    simp only [transmitOnFrom, transmitFrom, Option.map_some'] at htimer ⊢
    subst htimer
    rfl
  | succ r ih =>
    intro i b hentry htimer
    cases hs : code.sequence[i]? with
    | none =>
      rw [transmitOnFrom]
      simp [transmitFrom, hentry, hs]
    | some idx =>
      cases hp : pairAt code idx with
      | none =>
        rw [transmitOnFrom]
        simp [transmitFrom, hentry, hs, hp]
      | some p =>
        obtain ⟨onTime, offTime⟩ := p
        rw [transmitFrom_succ cancelRequested code r i b.waveform idx onTime offTime hs hp,
          transmitOnFrom]
        simp only [hentry, hs, hp]
        have hstep : xmitPairOn code.carrier_freq onTime offTime b =
            ⟨b.naCodes, b.euCodes, code.carrier_freq,
              xmitPair code.carrier_freq onTime offTime b.waveform⟩ := rfl
        by_cases hc : cancelRequested i = true
        · rw [if_pos hc, if_pos hc, hstep]
          rfl
        · rw [if_neg hc, if_neg hc]
          have hnext := ih (i + 1) (xmitPairOn code.carrier_freq onTime offTime b)
            (by rw [entry_xmitPairOn]; exact hentry) (by rw [hstep])
          rw [hnext, hstep]

/-- The call of `transmit` on the board emits what `transmit` emits for the entry the
pointer leads to, whatever the timer was set up for before the call. -/
theorem transmitOn_eq (cancelRequested : Nat → Bool) (ref : CodeRef) (code : IrCode)
    (b : Board) (hentry : b.entry ref = some code) :
    transmitOn cancelRequested ref b =
      (transmit cancelRequested code b.waveform).map
        (fun waveform => ⟨b.naCodes, b.euCodes, code.carrier_freq, waveform⟩) := by
  unfold transmitOn transmit
  simp only [hentry]
  exact transmitOnFrom_eq cancelRequested ref code code.num_pairs 0
    (setupTimer code.carrier_freq b) (by rw [entry_setupTimer]; exact hentry) rfl

/-- C9 (determinism of transmit). On a board whose memory holds a valid code
definition at the entry the engine is pointed to, two uncancelled calls of `transmit`
in succession both return and add the same list of windows to the waveform: the
second call, started from the state the first one left, emits what the first
emitted. That list is the one `transmit` computes from the code definition, and it is
what the call adds from any other state of the board holding that code at the entry,
whatever the timer was last set up for and whatever was emitted before. -/
theorem transmit_deterministic (ref : CodeRef) (code : IrCode) (b : Board)
    (hentry : b.entry ref = some code) (hvalid : ValidCode code) :
    ∃ ws first second,
      transmitOn neverCancelled ref b = some first ∧
      first.waveform = b.waveform ++ ws ∧
      transmitOn neverCancelled ref first = some second ∧
      second.waveform = first.waveform ++ ws ∧
      transmit neverCancelled code [] = some ws ∧
      ws.length = code.sequence.length ∧
      ∀ other : Board, other.entry ref = some code →
        ∃ after, transmitOn neverCancelled ref other = some after ∧
          after.waveform = other.waveform ++ ws := by
  obtain ⟨hnum, hidx⟩ := hvalid
  obtain ⟨ws, hrun, hlen, _⟩ :=
    transmitFrom_run neverCancelled code hidx code.num_pairs 0 [] (by omega)
      (fun _ _ _ => rfl)
  have hpure : ∀ before : List Window,
      transmit neverCancelled code before = some (before ++ ws) := by
    intro before
    have h := transmitFrom_append neverCancelled code code.num_pairs 0 before []
    rw [hrun] at h
    simpa [transmit] using h
  have hall : ∀ other : Board, other.entry ref = some code →
      transmitOn neverCancelled ref other =
        some ⟨other.naCodes, other.euCodes, code.carrier_freq, other.waveform ++ ws⟩ := by
    intro other hother
    rw [transmitOn_eq neverCancelled ref code other hother, hpure]
    rfl
  have hfirst : (⟨b.naCodes, b.euCodes, code.carrier_freq, b.waveform ++ ws⟩ : Board).entry ref =
      some code := hentry
  refine ⟨ws, _, _, hall b hentry, rfl, hall _ hfirst, rfl, ?_, by omega, ?_⟩
  · simpa using hpure []
  · intro other hother
    exact ⟨_, hall other hother, rfl⟩

/-- Witness of C9: `code_na000`, entry 0 of `NApowerCodes`, transmitted on a board
whose timer was left set up for 57143 Hz. The timer is state the output depends on:
a window driven without setting it up carries the stale frequency. -/
theorem transmit_deterministic_witness :
    (⟨NApowerCodes, EUpowerCodes, 57143, []⟩ : Board).entry ⟨Region.NA, 0⟩ =
        some code_na000Code ∧
      ValidCode code_na000Code ∧
      (driveWindow 2400 600 ⟨NApowerCodes, EUpowerCodes, 57143, []⟩).waveform =
        [⟨57143, 2400, 600⟩] ∧
      ∃ ws first second,
        transmitOn neverCancelled ⟨Region.NA, 0⟩ ⟨NApowerCodes, EUpowerCodes, 57143, []⟩ =
          some first ∧
        first.waveform = [] ++ ws ∧
        transmitOn neverCancelled ⟨Region.NA, 0⟩ first = some second ∧
        second.waveform = first.waveform ++ ws ∧
        transmit neverCancelled code_na000Code [] = some ws ∧
        ws.length = code_na000Code.sequence.length ∧
        ∀ other : Board, other.entry ⟨Region.NA, 0⟩ = some code_na000Code →
          ∃ after, transmitOn neverCancelled ⟨Region.NA, 0⟩ other = some after ∧
            after.waveform = other.waveform ++ ws :=
  ⟨by decide!, by decide!, by decide!,
    transmit_deterministic ⟨Region.NA, 0⟩ code_na000Code
      ⟨NApowerCodes, EUpowerCodes, 57143, []⟩ (by decide!) (by decide!)⟩

/-- C13 (read-only database). On a board whose memory holds a valid code definition
at the entry the engine is pointed to, a call of `transmit`, cancelled or not,
returns and leaves both code tables as they were, although they are variables the
engine reads through at every step: every entry of either table, the one transmitted
included, has the same carrier frequency, `num_pairs`, pairs and Sequence after the
call as before. -/
theorem transmit_leaves_tables (cancelRequested : Nat → Bool) (ref : CodeRef)
    (code : IrCode) (b : Board) (hentry : b.entry ref = some code)
    (hvalid : ValidCode code) :
    ∃ after, transmitOn cancelRequested ref b = some after ∧
      after.naCodes = b.naCodes ∧ after.euCodes = b.euCodes ∧
      after.entry ref = some code ∧
      ∀ other : CodeRef, after.entry other = b.entry other := by
  obtain ⟨hnum, hidx⟩ := hvalid
  obtain ⟨out, hout⟩ :=
    transmitFrom_isSome cancelRequested code hidx code.num_pairs 0 b.waveform (by omega)
  have ht : transmit cancelRequested code b.waveform = some out := hout
  refine ⟨⟨b.naCodes, b.euCodes, code.carrier_freq, out⟩, ?_, rfl, rfl, hentry,
    fun _ => rfl⟩
  rw [transmitOn_eq cancelRequested ref code b hentry, ht]
  rfl

/-- Witness of C13: transmitting entry 0 of `NApowerCodes`, `code_na000`, from the
initial state leaves `NApowerCodes` and `EUpowerCodes` as WORLDcodes.cpp defines
them. -/
theorem transmit_leaves_tables_witness :
    powerOn.entry ⟨Region.NA, 0⟩ = some code_na000Code ∧ ValidCode code_na000Code ∧
      ∃ after, transmitOn neverCancelled ⟨Region.NA, 0⟩ powerOn = some after ∧
        after.naCodes = powerOn.naCodes ∧ after.euCodes = powerOn.euCodes ∧
        after.entry ⟨Region.NA, 0⟩ = some code_na000Code ∧
        ∀ other : CodeRef, after.entry other = powerOn.entry other :=
  ⟨by decide!, by decide!,
    transmit_leaves_tables neverCancelled ⟨Region.NA, 0⟩ code_na000Code powerOn
      (by decide!) (by decide!)⟩

/-! ### Duplicates and table order -/

/-- No two entries of `NApowerCodes` at distinct positions are the same code. -/
theorem NApowerCodes_pairwise :
    NApowerCodes.Pairwise (fun a b => ¬ SameDefinition a b) := by
  decide!

/-- No two entries of `EUpowerCodes` at distinct positions are the same code. -/
theorem EUpowerCodes_pairwise :
    EUpowerCodes.Pairwise (fun a b => ¬ SameDefinition a b) := by
  decide!

/-- Equal code definitions are the same code. -/
theorem SameDefinition.of_eq {a b : IrCode} (h : a = b) : SameDefinition a b := by
  subst h
  exact ⟨rfl, rfl, rfl⟩

/-- C21: the comment `//&code_eu057Code, same as eu008` does not hold of the data.
`code_eu057` (definition 57 of the EU list) and `code_eu008` have the same carrier
frequency, 38462, and the same Pairs table, but their Sequences differ from position
17 on (0 against 1 there), so they are not the same code; and no entry of
`EUpowerCodes` is the same code as `code_eu057`, which the table leaves out. -/
theorem code_eu057_differs_from_code_eu008 :
    euCodeDefinitions[57]? = some code_eu057Code ∧
      EUpowerCodes[8]? = some code_eu008Code ∧
      code_eu057Code.carrier_freq = code_eu008Code.carrier_freq ∧
      pairTable code_eu057Code = pairTable code_eu008Code ∧
      code_eu057Code.sequence.take 17 = code_eu008Code.sequence.take 17 ∧
      code_eu057Code.sequence[17]? = some 0 ∧ code_eu008Code.sequence[17]? = some 1 ∧
      code_eu057Code.sequence ≠ code_eu008Code.sequence ∧
      ¬ SameDefinition code_eu057Code code_eu008Code ∧
      ∀ code ∈ EUpowerCodes, ¬ SameDefinition code_eu057Code code := by
  decide!

/-- C22 (`//&code_eu035Code, same as eu009`). `code_eu035`, definition 35 of the EU
list, and `code_eu009`, entry 9 of `EUpowerCodes`, have equal carrier frequency,
equal Pairs tables and equal Sequences (and equal `num_pairs`); `EUpowerCodes` is the
EU list without its definitions 35 and 57, so entry 34 is `code_eu034` and entry 35
is `code_eu036`. -/
theorem code_eu035_same_as_code_eu009 :
    SameDefinition code_eu035Code code_eu009Code ∧
      code_eu035Code.carrier_freq = code_eu009Code.carrier_freq ∧
      pairTable code_eu035Code = pairTable code_eu009Code ∧
      code_eu035Code.sequence = code_eu009Code.sequence ∧
      code_eu035Code.num_pairs = code_eu009Code.num_pairs ∧
      euCodeDefinitions[35]? = some code_eu035Code ∧
      EUpowerCodes[9]? = some code_eu009Code ∧
      EUpowerCodes = (euCodeDefinitions.eraseIdx 57).eraseIdx 35 ∧
      EUpowerCodes[34]? = some code_eu034Code ∧
      EUpowerCodes[35]? = some code_eu036Code := by
  decide!

/-- C25 (table order and coverage). `NApowerCodes` is the list of the 137 `code_naNNN`
definitions in ascending number, entry `i` being `code_na(i)`. `EUpowerCodes` is the
list of the 140 `code_euNNN` definitions in ascending number without definitions 35
and 57: entry `i` is `code_eu(i)` for `i < 35`, `code_eu(i+1)` for `35 ≤ i < 56` and
`code_eu(i+2)` for `56 ≤ i < 138`. No table has the same definition twice. -/
theorem table_order_and_coverage :
    NApowerCodes = naCodeDefinitions ∧ naCodeDefinitions.length = 137 ∧
      NApowerCodes[0]? = some code_na000Code ∧ NApowerCodes[1]? = some code_na001Code ∧
      NApowerCodes[68]? = some code_na068Code ∧ NApowerCodes[136]? = some code_na136Code ∧
      euCodeDefinitions.length = 140 ∧ EUpowerCodes.length = 138 ∧
      (∀ i, i < 138 → EUpowerCodes[i]? =
        euCodeDefinitions[if i < 35 then i else if i < 56 then i + 1 else i + 2]?) ∧
      euCodeDefinitions[0]? = some code_eu000Code ∧
      euCodeDefinitions[35]? = some code_eu035Code ∧
      euCodeDefinitions[57]? = some code_eu057Code ∧
      euCodeDefinitions[139]? = some code_eu139Code ∧
      EUpowerCodes[34]? = some code_eu034Code ∧ EUpowerCodes[35]? = some code_eu036Code ∧
      EUpowerCodes[55]? = some code_eu056Code ∧ EUpowerCodes[56]? = some code_eu058Code ∧
      EUpowerCodes[137]? = some code_eu139Code ∧
      NApowerCodes.Nodup ∧ EUpowerCodes.Nodup := by
  have hna : NApowerCodes.Nodup :=
    NApowerCodes_pairwise.imp fun h heq => h (SameDefinition.of_eq heq)
  have heu : EUpowerCodes.Nodup :=
    EUpowerCodes_pairwise.imp fun h heq => h (SameDefinition.of_eq heq)
  refine ⟨NApowerCodes_eq, by decide!, by decide!, by decide!, by decide!, by decide!,
    by decide!, by decide!, by decide!, by decide!, by decide!, by decide!, by decide!,
    by decide!, by decide!, by decide!, by decide!, by decide!, hna, heu⟩

/-- C29 (no duplicate entries inside a table). Within `NApowerCodes`, and within
`EUpowerCodes`, no two entries at distinct positions have the same carrier
frequency, Pairs table and Sequence. -/
theorem no_duplicates_inside_tables :
    NApowerCodes.Pairwise (fun a b => ¬ SameDefinition a b) ∧
      EUpowerCodes.Pairwise (fun a b => ¬ SameDefinition a b) ∧
      (∀ (i j : Nat) (a b : IrCode), i < j → NApowerCodes[i]? = some a →
        NApowerCodes[j]? = some b → ¬ SameDefinition a b) ∧
      (∀ (i j : Nat) (a b : IrCode), i < j → EUpowerCodes[i]? = some a →
        EUpowerCodes[j]? = some b → ¬ SameDefinition a b) := by
  have key : ∀ l : List IrCode, l.Pairwise (fun a b => ¬ SameDefinition a b) →
      ∀ (i j : Nat) (a b : IrCode), i < j → l[i]? = some a → l[j]? = some b →
        ¬ SameDefinition a b := by
    intro l hl i j a b hij ha hb
    obtain ⟨hi, rfl⟩ := List.getElem?_eq_some.mp ha
    obtain ⟨hj, rfl⟩ := List.getElem?_eq_some.mp hb
    exact List.pairwise_iff_getElem.mp hl i j hi hj hij
  exact ⟨NApowerCodes_pairwise, EUpowerCodes_pairwise, key _ NApowerCodes_pairwise,
    key _ EUpowerCodes_pairwise⟩

/-! ### Zero gaps, transmission time and duration widths -/

/-- Every Sequence element but the last of every definition points to a pair with a
nonzero Off-Time. -/
theorem all_hasGapAt_dropLast :
    ∀ code ∈ allCodeDefinitions, ∀ idx ∈ code.sequence.dropLast, hasGapAt code idx = true := by
  decide!

/-- What `hasGapAt` says of the pair an index points to. -/
theorem hasGapAt_iff (code : IrCode) (idx : Nat) :
    hasGapAt code idx = true ↔
      ∃ onTime offTime, pairAt code idx = some (onTime, offTime) ∧ 0 < offTime := by
  unfold hasGapAt
  cases h : pairAt code idx with
  | none => simp
  | some p =>
    obtain ⟨onTime, offTime⟩ := p
    constructor
    · intro hgap
      exact ⟨onTime, offTime, rfl, by simpa using hgap⟩
    · rintro ⟨on2, off2, heq, hpos⟩
      cases heq
      simpa using hpos

/-- Every position of every Pairs table occurs in the Sequence of its definition. -/
theorem all_pairs_referenced :
    ∀ code ∈ allCodeDefinitions, ∀ k ∈ List.range (pairTable code).length,
      k ∈ code.sequence := by
  decide!

/-- The replay of every table entry takes between 20170 and 334240 microseconds. -/
theorem all_transmissionMicros :
    ∀ code ∈ NApowerCodes ++ EUpowerCodes,
      20170 ≤ transmissionMicros code ∧ transmissionMicros code ≤ 334240 := by
  decide!

/-- C23 (zero gap is replayed literally). When position `i` of the Sequence of a
valid code points to a pair `(onTime, 0)`, an uncancelled `transmit` still emits one
window for every position of the Sequence, in order, none dropped or added; window
`i` is the mark of `onTime` microseconds at the code's carrier followed by a gap of
0 microseconds: on the output pin, the full mark and then an inactive stretch of
length 0, `onTime` microseconds in all. -/
theorem zero_gap_replayed_literally (code : IrCode) (waveform : List Window)
    (i idx onTime : Nat) (hvalid : ValidCode code)
    (hs : code.sequence[i]? = some idx)
    (hp : (pairTable code)[idx]? = some (onTime, 0)) :
    ∃ ws, transmit neverCancelled code waveform = some (waveform ++ ws) ∧
      ws.length = code.sequence.length ∧
      ws[i]? = some ⟨code.carrier_freq, onTime, 0⟩ ∧
      (∀ j, j < code.sequence.length → ∃ idx2 on2 off2,
        code.sequence[j]? = some idx2 ∧
        (pairTable code)[idx2]? = some (on2, off2) ∧
        ws[j]? = some ⟨code.carrier_freq, on2, off2⟩) ∧
      windowSegments ⟨code.carrier_freq, onTime, 0⟩ =
        markSegments code.carrier_freq onTime ++ [⟨false, 0⟩] ∧
      totalMicros (windowSegments ⟨code.carrier_freq, onTime, 0⟩) = onTime := by
  obtain ⟨hnum, hidx⟩ := hvalid
  obtain ⟨ws, hrun, hlen, hws⟩ :=
    transmitFrom_run neverCancelled code hidx code.num_pairs 0 waveform (by omega)
      (fun _ _ _ => rfl)
  have hall : ∀ j, j < code.sequence.length → ∃ idx2 on2 off2,
      code.sequence[j]? = some idx2 ∧
      (pairTable code)[idx2]? = some (on2, off2) ∧
      ws[j]? = some ⟨code.carrier_freq, on2, off2⟩ := by
    intro j hj
    obtain ⟨idx2, on2, off2, h1, h2, h3⟩ := hws j (by omega)
    exact ⟨idx2, on2, off2, by simpa using h1, h2, h3⟩
  have hi : i < code.sequence.length := (List.getElem?_eq_some.mp hs).1
  refine ⟨ws, hrun, by omega, ?_, hall, ?_, ?_⟩
  · obtain ⟨idx2, on2, off2, h1, h2, h3⟩ := hall i hi
    rw [hs] at h1
    cases h1
    rw [hp] at h2
    cases h2
    exact h3
  · simp [windowSegments]
  · have hm := totalMicros_markSegments code.carrier_freq onTime
    unfold totalMicros at hm ⊢
    simp [windowSegments, hm]

/-- Witness of C23. The last Sequence element of `code_na004`, at position 37,
points to the pair (560, 0); and in a three-element code whose first element points
to (560, 0), the replay goes on with the next element. -/
theorem zero_gap_replayed_literally_witness :
    ValidCode code_na004Code ∧ code_na004Code.sequence[37]? = some 4 ∧
      (pairTable code_na004Code)[4]? = some (560, 0) ∧
      transmit neverCancelled ⟨38000, 3, [560, 0, 600, 600], [0, 1, 0]⟩ [] =
        some [⟨38000, 560, 0⟩, ⟨38000, 600, 600⟩, ⟨38000, 560, 0⟩] ∧
      ∃ ws, transmit neverCancelled code_na004Code [] = some ([] ++ ws) ∧
        ws.length = code_na004Code.sequence.length ∧
        ws[37]? = some ⟨code_na004Code.carrier_freq, 560, 0⟩ ∧
        (∀ j, j < code_na004Code.sequence.length → ∃ idx2 on2 off2,
          code_na004Code.sequence[j]? = some idx2 ∧
          (pairTable code_na004Code)[idx2]? = some (on2, off2) ∧
          ws[j]? = some ⟨code_na004Code.carrier_freq, on2, off2⟩) ∧
        windowSegments ⟨code_na004Code.carrier_freq, 560, 0⟩ =
          markSegments code_na004Code.carrier_freq 560 ++ [⟨false, 0⟩] ∧
        totalMicros (windowSegments ⟨code_na004Code.carrier_freq, 560, 0⟩) = 560 :=
  ⟨by decide!, by decide!, by decide!, by decide!,
    zero_gap_replayed_literally code_na004Code [] 37 4 560 (by decide!) (by decide!)
      (by decide!)⟩

/-- C24 (transmission time of one code). For every entry of `NApowerCodes` and of
`EUpowerCodes`, On-Time plus Off-Time summed over the Sequence is at least 10,000
and less than 1,000,000 microseconds; the shortest is 20170 (`code_na071`) and the
longest 334240 (`code_na018`). -/
theorem transmission_time_range :
    (∀ code ∈ NApowerCodes ++ EUpowerCodes,
        10000 ≤ transmissionMicros code ∧ transmissionMicros code < 1000000) ∧
      transmissionMicros code_na071Code = 20170 ∧ code_na071Code ∈ NApowerCodes ∧
      transmissionMicros code_na018Code = 334240 ∧ code_na018Code ∈ NApowerCodes ∧
      transmissionMicros code_na000Code = 92400 := by
  refine ⟨?_, by decide!, by decide!, by decide!, by decide!, by decide!⟩
  intro code hc
  have h := all_transmissionMicros code hc
  omega

/-- C26 (terminal zero gap). In every code definition, every Sequence element but
the last points to a pair whose Off-Time is greater than 0: a pair with Off-Time 0
is referenced at the last position only, as the pair (550, 0) of `code_na136` and
the pair (0, 0) of `code_eu139` are. -/
theorem zero_gap_only_last :
    (∀ code ∈ allCodeDefinitions, ∀ idx ∈ code.sequence.dropLast,
        ∃ onTime offTime, pairAt code idx = some (onTime, offTime) ∧
          (pairTable code)[idx]? = some (onTime, offTime) ∧ 0 < offTime) ∧
      (resolveSequence code_na136Code).getLast? = some (some (550, 0)) ∧
      (resolveSequence code_eu139Code).getLast? = some (some (0, 0)) ∧
      (∀ p ∈ (resolveSequence code_na136Code).dropLast, p ≠ some (550, 0)) ∧
      (∀ p ∈ (resolveSequence code_eu139Code).dropLast, p ≠ some (0, 0)) := by
  refine ⟨?_, by decide!, by decide!, by decide!, by decide!⟩
  intro code hc idx hidx
  obtain ⟨onTime, offTime, hp, hoff⟩ :=
    (hasGapAt_iff code idx).mp (all_hasGapAt_dropLast code hc idx hidx)
  exact ⟨onTime, offTime, hp, by rw [← pairAt_eq_getElem?, hp], hoff⟩

/-- C27 (every modulated mark holds a full carrier cycle). In every code definition
with a nonzero carrier frequency `f`, every pair of the Pairs table has an On-Time
greater than 0 with `onTime * f ≥ 1,000,000`. The only pair of the file with On-Time
0 is (0, 0) in `code_eu139`, whose carrier frequency is 0. -/
theorem modulated_marks_hold_a_cycle :
    (∀ code ∈ allCodeDefinitions, 0 < code.carrier_freq → ∀ p ∈ pairTable code,
        0 < p.1 ∧ 1000000 ≤ p.1 * code.carrier_freq) ∧
      (∀ code ∈ allCodeDefinitions, ∀ p ∈ pairTable code, p.1 = 0 →
        code = code_eu139Code ∧ p = (0, 0)) ∧
      (0, 0) ∈ pairTable code_eu139Code ∧ code_eu139Code.carrier_freq = 0 ∧
      euCodeDefinitions[139]? = some code_eu139Code := by
  decide!

/-- C28 (no dead pairs). In every code definition the indices that occur in the
Sequence are exactly the positions of the Pairs table: `k` occurs in the Sequence if
and only if `k < length(pairTable)`. -/
theorem no_dead_pairs :
    ∀ code ∈ allCodeDefinitions, ∀ k, k ∈ code.sequence ↔ k < (pairTable code).length := by
  intro code hc k
  constructor
  · intro hk
    exact (all_valid code hc).2 k hk
  · intro hk
    exact all_pairs_referenced code hc k (List.mem_range.mpr hk)

/-- Witness of C28 at `code_na000`: its four pairs are all referenced, index 3 first
at position 0, index 1 at position 12, and no other index occurs. -/
theorem no_dead_pairs_witness :
    code_na000Code ∈ allCodeDefinitions ∧ (pairTable code_na000Code).length = 4 ∧
      code_na000Code.sequence.eraseDups = [3, 2, 0, 1] ∧
      ∀ k, k ∈ code_na000Code.sequence ↔ k < (pairTable code_na000Code).length :=
  ⟨by decide!, by decide!, by decide!, no_dead_pairs code_na000Code (by decide!)⟩

/-- C30 (durations need more than 16 bits). Every element of every Pairs array is
below 2^17 and every On-Time is below 2^16, but the Off-Time 121070 of the pair
(490, 121070) of `code_na007` is not below 2^16: no 16-bit value equals it, and
`pgm_read_word` applied to it yields 55534. Every element is below 2^32, so the
`uint32_t` element type holds it unchanged. -/
theorem durations_need_more_than_16_bits :
    (∀ code ∈ allCodeDefinitions, ∀ t ∈ code.pairs, t < 2 ^ 17 ∧ t % 2 ^ 32 = t) ∧
      (∀ code ∈ allCodeDefinitions, ∀ p ∈ pairTable code, p.1 < 2 ^ 16) ∧
      (490, 121070) ∈ pairTable code_na007Code ∧ code_na007Code ∈ NApowerCodes ∧
      65536 ≤ 121070 ∧ (∀ r, r < 2 ^ 16 → r ≠ 121070) ∧
      pgm_read_word 121070 = 55534 ∧ pgm_read_word 121070 ≠ 121070 ∧
      (∀ t, pgm_read_word t < 2 ^ 16) := by
  refine ⟨by decide!, by decide!, by decide!, by decide!, by decide!, ?_, by decide!,
    by decide!, ?_⟩
  · intro r hr
    omega
  · intro t
    unfold pgm_read_word
    exact Nat.mod_lt _ (by decide)

/-! ### Order and granularity of the Pairs tables -/

/-- In a table in strictly increasing lexicographic order, no pair has a shorter
On-Time than the first one. -/
theorem first_has_shortest_mark (table : List (Nat × Nat))
    (hsorted : table.Pairwise pairLt) (first : Nat × Nat) (hfirst : table[0]? = some first) :
    ∀ p ∈ table, first.1 ≤ p.1 := by
  cases table with
  | nil => simp at hfirst
  | cons a rest =>
    simp at hfirst
    subst hfirst
    intro p hp
    rcases List.mem_cons.mp hp with rfl | hrest
    · exact Nat.le_refl _
    · rcases (List.pairwise_cons.mp hsorted).1 p hrest with h | ⟨h, _⟩
      · exact Nat.le_of_lt h
      · exact Nat.le_of_eq h

/-- Every Pairs table of the file is in strictly increasing lexicographic order. -/
theorem all_pair_tables_sorted :
    ∀ code ∈ allCodeDefinitions, (pairTable code).Pairwise pairLt := by
  decide!

/-- C31 (sorted pair tables). In every code definition the Pairs table is in strictly
increasing lexicographic order of (On-Time, Off-Time): each pair is below every later
one. Hence the pair at index 0 has the shortest On-Time of the table. -/
theorem pair_tables_sorted :
    ∀ code ∈ allCodeDefinitions,
      (pairTable code).Pairwise pairLt ∧
        ∀ first, (pairTable code)[0]? = some first → ∀ p ∈ pairTable code, first.1 ≤ p.1 := by
  intro code hc
  have h := all_pair_tables_sorted code hc
  exact ⟨h, fun first hfirst => first_has_shortest_mark (pairTable code) h first hfirst⟩

/-- Witness of C31 at `code_na000`, whose table (600,600), (600,27000), (1200,600),
(2400,600) begins with a pair of the shortest On-Time, 600. -/
theorem pair_tables_sorted_witness :
    code_na000Code ∈ allCodeDefinitions ∧
      pairTable code_na000Code = [(600, 600), (600, 27000), (1200, 600), (2400, 600)] ∧
      ((pairTable code_na000Code).Pairwise pairLt ∧
        ∀ first, (pairTable code_na000Code)[0]? = some first →
          ∀ p ∈ pairTable code_na000Code, first.1 ≤ p.1) :=
  ⟨by decide!, by decide!, pair_tables_sorted code_na000Code (by decide!)⟩

/-- C32 (timing granularity). Every On-Time and every Off-Time of every Pairs table,
that is every element of every flat Pairs array, is a multiple of 10 microseconds. -/
theorem durations_multiple_of_ten :
    ∀ code ∈ allCodeDefinitions,
      (∀ p ∈ pairTable code, 10 ∣ p.1 ∧ 10 ∣ p.2) ∧ (∀ t ∈ code.pairs, t % 10 = 0) := by
  decide!

/-- Witness of C32 at `code_na046`, which holds the longest Off-Time, 128090. -/
theorem durations_multiple_of_ten_witness :
    code_na046Code ∈ allCodeDefinitions ∧ (520, 128090) ∈ pairTable code_na046Code ∧
      ((∀ p ∈ pairTable code_na046Code, 10 ∣ p.1 ∧ 10 ∣ p.2) ∧
        (∀ t ∈ code_na046Code.pairs, t % 10 = 0)) :=
  ⟨by decide!, by decide!, durations_multiple_of_ten code_na046Code (by decide!)⟩

end TVBGone
